import Mathlib

/-!
Verification of the Migration Copilot core (runtime-mode abstraction and SQL
templating layer) against its natural-language specification.

The development shallowly embeds the relevant Python modules:

- `common/db.py` (runtime detection, query helpers, DDL/DML execution,
  test-table setup) in namespace `DB`;
- `common/test_data.py` (table definitions and DDL/DML formatting) in
  namespace `TestData`;
- `common/ingestion_templates.py` (DDL templates, SQL-literal helpers,
  adhoc metadata script builder) in namespace `Ingestion`;
- `output/bundle/streamlit/streamlit_cli_deploy/common/db.py` (the bundled
  deploy copy, including the DuckDB dialect normalizer) in namespace `Deploy`.

Python strings are Lean `String`s; stateful database connections are modelled
as an explicit state type threaded through a record of driver callbacks that
either succeed or fail with an exception message; Python exceptions raised by
the embedded functions themselves are modelled with `Except PyError`.
All Python string primitives used by the code are re-implemented structurally
(over `List Char`) so that concrete instances evaluate inside the kernel.
-/

/-- Python exception values that the embedded code can raise itself. -/
inductive PyError where
  | valueError (msg : String)
  | keyError (key : String)
deriving DecidableEq, Repr

namespace Py

/-- Python `str.upper()` (ASCII model). -/
def upper (s : String) : String := String.mk (s.data.map Char.toUpper)

/-- Python `str.lower()` (ASCII model). -/
def lower (s : String) : String := String.mk (s.data.map Char.toLower)

/-- Python `str.strip()` with no argument (whitespace model). -/
def strip (s : String) : String :=
  String.mk (((s.data.dropWhile Char.isWhitespace).reverse.dropWhile Char.isWhitespace).reverse)

/-- Python `str.lstrip()` with no argument. -/
def lstrip (s : String) : String := String.mk (s.data.dropWhile Char.isWhitespace)

/-- Replace every non-overlapping occurrence of `pat` (non-empty), scanning
left to right, by `repl`; the core loop of Python `str.replace`. -/
def replaceL (pat repl : List Char) : List Char → List Char
  | [] => []
  | c :: cs =>
    if h : pat.isPrefixOf (c :: cs) ∧ pat ≠ [] then
      repl ++ replaceL pat repl ((c :: cs).drop pat.length)
    else
      c :: replaceL pat repl cs
termination_by l => l.length
decreasing_by
  · have hlen : 0 < pat.length := List.length_pos.mpr h.2
    simp only [List.length_drop, List.length_cons]
    omega
  · simp

/-- Python `str.replace(pat, repl)` for the non-empty patterns the code uses. -/
def replace (s pat repl : String) : String :=
  if pat = "" then s else String.mk (replaceL pat.data repl.data s.data)

/-- Python `sep.join(xs)`. -/
def join (sep : String) (xs : List String) : String :=
  match xs with
  | [] => ""
  | x :: rest => rest.foldl (fun acc y => acc ++ sep ++ y) x

/-- Split a character list at every occurrence of a single character. -/
def splitCharL (sep : Char) : List Char → List (List Char)
  | [] => [[]]
  | c :: cs =>
    if c = sep then [] :: splitCharL sep cs
    else
      match splitCharL sep cs with
      | [] => [[c]]
      | h :: t => (c :: h) :: t

/-- Python `s.split(sep)` for a one-character separator (the code only splits
on `"."` and `"\n"`). -/
def splitChar (s : String) (sep : Char) : List String :=
  (splitCharL sep s.data).map String.mk

/-- Python `f"{s:<w}"` left-justification. -/
def ljust (s : String) (w : Nat) : String :=
  s ++ String.mk (List.replicate (w - s.data.length) ' ')

/-- Characters counted as indentation by `textwrap.dedent`. -/
def isIndentChar (c : Char) : Bool := c = ' ' || c = '\t'

/-- Longest common prefix of two character lists. -/
def commonPfxL : List Char → List Char → List Char
  | [], _ => []
  | _, [] => []
  | a :: as, b :: bs => if a = b then a :: commonPfxL as bs else []

/-- Python `textwrap.dedent`: blank out whitespace-only lines, compute the
longest common indentation of the remaining non-empty lines, remove it. -/
def dedent (text : String) : String :=
  let lines := splitCharL '\n' text.data
  let cleaned := lines.map (fun l => if l ≠ [] ∧ l.all isIndentChar then [] else l)
  let indents := cleaned.filterMap
    (fun l => if l = [] then none else some (l.takeWhile isIndentChar))
  let margin := match indents with
    | [] => []
    | i :: rest => rest.foldl commonPfxL i
  let out := cleaned.map (fun l => if margin.isPrefixOf l then l.drop margin.length else l)
  String.mk (List.intercalate ['\n'] out)

/-- Truthiness of an optional Python string (`None` and `""` are falsy). -/
def truthy (o : Option String) : Bool := o.getD "" ≠ ""

/-- Python `dict.get(key, default)` together with the `or default` idiom the
code applies afterwards: a missing or empty value falls back to the default. -/
def orDefault (o : Option String) (dflt : String) : String :=
  if (o.getD "") = "" then dflt else o.getD ""

end Py

/-- Outcome of one call into an external database driver: the updated
connection state and either success or an exception message. -/
abbrev DriverOutcome (σ : Type) := σ × Except String Unit

/-- Abstract database connection: the opaque `conn` object together with the
three driver entry points the code dispatches to (`conn.execute` for DuckDB,
`conn.sql(...).collect()` for Snowpark, cursor `execute` for the connector).
Each call may update the connection state and may raise. -/
structure Conn (σ : Type) where
  execute : σ → String → DriverOutcome σ
  sql_collect : σ → String → DriverOutcome σ
  cursor_execute : σ → String → DriverOutcome σ

/-- Result of attempting `snowflake.snowpark.context.get_active_session()`:
the import or call can raise, and the session it returns can be `None`. -/
abbrev SessionAttempt := Except Unit (Option Unit)

/-- The `st.secrets["snowflake"]` mapping: optional account and user entries. -/
structure SnowSecrets where
  account : Option String
  user : Option String

/-- Ambient process environment consulted by `detect_runtime`. -/
structure Env where
  runtime_mode : Option String
  active_session : SessionAttempt
  secrets : Except Unit SnowSecrets

/-- Streamlit session state consulted by `get_snowflake_table_prefix`. -/
structure SessionState where
  test_data_database : Option String
  test_data_schema : Option String

namespace DB

def DEFAULT_SNOWFLAKE_DATABASE : String := "DATA_VAULT_DEV"

def DEFAULT_SNOWFLAKE_SCHEMA : String := "INFO_MART"

/-- Embedding of `common/db.py::get_snowflake_table_prefix`. -/
def get_snowflake_table_prefix (st : SessionState) : String :=
  let db := Py.strip (Py.orDefault st.test_data_database DEFAULT_SNOWFLAKE_DATABASE)
  let schema := Py.strip (Py.orDefault st.test_data_schema DEFAULT_SNOWFLAKE_SCHEMA)
  db ++ "." ++ schema

/-- Embedding of `common/db.py::detect_runtime`. -/
def detect_runtime (e : Env) : String :=
  let explicit_mode := Py.lower (e.runtime_mode.getD "")
  if explicit_mode = "duckdb" then "duckdb"
  else if explicit_mode = "snowflake_local" then "snowflake_local"
  else if explicit_mode = "snowflake_deployed" then "snowflake_deployed"
  else
    match e.active_session with
    | .ok (some _) => "snowflake_deployed"
    | _ =>
      match e.secrets with
      | .ok snow_secrets =>
        if Py.truthy snow_secrets.account ∧ Py.truthy snow_secrets.user then
          "snowflake_local"
        else "duckdb"
      | .error _ => "duckdb"

/-- Embedding of `common/db.py::get_testtable_query`. -/
def get_testtable_query (st : SessionState) (mode : String) : String :=
  if mode = "duckdb" then "SELECT * FROM TESTTABLE LIMIT 100"
  else "SELECT * FROM " ++ get_snowflake_table_prefix st ++ ".TESTTABLE LIMIT 100"

/-- Embedding of `common/db.py::execute_ddl_dml`: dispatch on the mode tag,
convert driver success to `(True, "OK")` and a driver exception to
`(False, str(e))`; an unknown mode yields `(False, "Unknown mode: ...")`. -/
def execute_ddl_dml {σ : Type} (conn : Conn σ) (mode sql : String) (s : σ) :
    σ × (Bool × String) :=
  if mode = "duckdb" then
    match conn.execute s sql with
    | (s', .ok _) => (s', (true, "OK"))
    | (s', .error e) => (s', (false, e))
  else if mode = "snowflake_deployed" then
    match conn.sql_collect s sql with
    | (s', .ok _) => (s', (true, "OK"))
    | (s', .error e) => (s', (false, e))
  else if mode = "snowflake_local" then
    match conn.cursor_execute s sql with
    | (s', .ok _) => (s', (true, "OK"))
    | (s', .error e) => (s', (false, e))
  else (s, (false, "Unknown mode: " ++ mode))

end DB

namespace TestData

/-- One entry of `common/test_data.py::TEST_TABLES`: a table definition with
its DDL, optional DML (view wrappers have none) and optional date column. -/
structure TableDef where
  name : String
  description : String
  date_column : Option String
  ddl : String
  dml : Option String

/-- Embedding of `common/test_data.py::json_literal`. -/
def json_literal (payload : String) : String := "PARSE_JSON($$" ++ payload ++ "$$)"

def TEST_TABLES : List TableDef := [
  { name := "TESTTABLE", description := "Call center reference data (TPC-DS style)", date_column := some "CC_REC_START_DATE", ddl := "\nCREATE OR REPLACE TABLE \x7btable_ref\x7d (\n    CC_CALL_CENTER_SK BIGINT,\n    CC_CALL_CENTER_ID VARCHAR(16),\n    CC_REC_START_DATE DATE,\n    CC_REC_END_DATE DATE,\n    CC_CLOSED_DATE_SK BIGINT,\n    CC_OPEN_DATE_SK BIGINT,\n    CC_NAME VARCHAR(50),\n    CC_CLASS VARCHAR(50),\n    CC_EMPLOYEES BIGINT,\n    CC_SQ_FT BIGINT,\n    CC_HOURS VARCHAR(20),\n    CC_MANAGER VARCHAR(40),\n    CC_MKT_ID BIGINT,\n    CC_MKT_CLASS VARCHAR(50),\n    CC_MKT_DESC VARCHAR(100),\n    CC_MARKET_MANAGER VARCHAR(40),\n    CC_DIVISION BIGINT,\n    CC_DIVISION_NAME VARCHAR(50),\n    CC_COMPANY BIGINT,\n    CC_COMPANY_NAME VARCHAR(50),\n    CC_STREET_NUMBER VARCHAR(10),\n    CC_STREET_NAME VARCHAR(60),\n    CC_STREET_TYPE VARCHAR(15),\n    CC_SUITE_NUMBER VARCHAR(10),\n    CC_CITY VARCHAR(60),\n    CC_COUNTY VARCHAR(30),\n    CC_STATE VARCHAR(2),\n    CC_ZIP VARCHAR(10),\n    CC_COUNTRY VARCHAR(20),\n    CC_GMT_OFFSET DOUBLE,\n    CC_TAX_PERCENTAGE DOUBLE\n);\n", dml := some "\nINSERT INTO \x7btable_ref\x7d (\n    CC_CALL_CENTER_SK, CC_CALL_CENTER_ID, CC_REC_START_DATE, CC_REC_END_DATE,\n    CC_NAME, CC_CLASS, CC_EMPLOYEES, CC_SQ_FT, CC_HOURS, CC_MANAGER,\n    CC_MKT_ID, CC_DIVISION, CC_DIVISION_NAME, CC_COMPANY, CC_COMPANY_NAME,\n    CC_CITY, CC_COUNTY, CC_STATE, CC_ZIP, CC_COUNTRY, CC_GMT_OFFSET, CC_TAX_PERCENTAGE\n) VALUES\n    (1, 'AAAAAAAABAAAAAAA', '1998-01-01', NULL, 'NY Metro', 'large', 150, 25000, '8AM-8PM', 'John Smith', 1, 1, 'East', 1, 'Acme Corp', 'New York', 'New York', 'NY', '10001', 'United States', -5.00, 0.08),\n    (2, 'AAAAAAAACAAAAAAA', '1998-01-01', NULL, 'West Coast Hub', 'medium', 75, 12000, '6AM-6PM', 'Jane Doe', 2, 2, 'West', 1, 'Acme Corp', 'Los Angeles', 'Los Angeles', 'CA', '90001', 'United States', -8.00, 0.09),\n    (3, 'AAAAAAAADAAAAAAA', '1998-01-01', NULL, 'Midwest Support', 'small', 30, 5000, '9AM-5PM', 'Bob Wilson', 3, 3, 'Central', 1, 'Acme Corp', 'Chicago', 'Cook', 'IL', '60601', 'United States', -6.00, 0.07),\n    (4, 'AAAAAAAAEAAAAAAA', '2000-01-01', '2005-12-31', 'Southeast Center', 'medium', 50, 8000, '7AM-7PM', 'Alice Brown', 4, 4, 'South', 1, 'Acme Corp', 'Atlanta', 'Fulton', 'GA', '30301', 'United States', -5.00, 0.06),\n    (5, 'AAAAAAAAFAAAAAAA', '2005-01-01', NULL, 'Texas Regional', 'large', 120, 20000, '7AM-9PM', 'Carlos Garcia', 5, 4, 'South', 1, 'Acme Corp', 'Dallas', 'Dallas', 'TX', '75201', 'United States', -6.00, 0.08);\n" },
  { name := "SAMPLE_DATA", description := "Simple sample table for quick tests", date_column := some "CREATED_AT", ddl := "\nCREATE OR REPLACE TABLE \x7btable_ref\x7d (\n    ID INTEGER,\n    NAME VARCHAR(50),\n    VALUE DOUBLE,\n    CREATED_AT TIMESTAMP DEFAULT CURRENT_TIMESTAMP\n);\n", dml := some "\nINSERT INTO \x7btable_ref\x7d (ID, NAME, VALUE) VALUES\n    (1, 'alice', 1.23),\n    (2, 'bob', 4.56),\n    (3, 'carol', 7.89),\n    (4, 'david', 10.11),\n    (5, 'eve', 12.13);\n" },
  { name := "DAILY_METRICS", description := "Sample time-series metrics data", date_column := some "METRIC_DATE", ddl := "\nCREATE OR REPLACE TABLE \x7btable_ref\x7d (\n    METRIC_DATE DATE,\n    METRIC_NAME VARCHAR(50),\n    METRIC_VALUE DOUBLE,\n    REGION VARCHAR(20)\n);\n", dml := some "\nINSERT INTO \x7btable_ref\x7d (METRIC_DATE, METRIC_NAME, METRIC_VALUE, REGION) VALUES\n    ('2025-01-01', 'revenue', 10500.00, 'East'),\n    ('2025-01-01', 'revenue', 8200.00, 'West'),\n    ('2025-01-01', 'revenue', 6100.00, 'Central'),\n    ('2025-01-02', 'revenue', 11200.00, 'East'),\n    ('2025-01-02', 'revenue', 8900.00, 'West'),\n    ('2025-01-02', 'revenue', 6400.00, 'Central'),\n    ('2025-01-03', 'revenue', 10800.00, 'East'),\n    ('2025-01-03', 'revenue', 9100.00, 'West'),\n    ('2025-01-03', 'revenue', 6700.00, 'Central'),\n    ('2025-01-01', 'calls', 1200, 'East'),\n    ('2025-01-01', 'calls', 950, 'West'),\n    ('2025-01-01', 'calls', 620, 'Central'),\n    ('2025-01-02', 'calls', 1350, 'East'),\n    ('2025-01-02', 'calls', 1020, 'West'),\n    ('2025-01-02', 'calls', 680, 'Central'),\n    ('2025-01-03', 'calls', 1280, 'East'),\n    ('2025-01-03', 'calls', 990, 'West'),\n    ('2025-01-03', 'calls', 710, 'Central');\n" },
  { name := "METADATA_CONFIG_TABLE_ELT", description := "Metadata configuration for ELT pipeline - stores parameters for Azure Data Factory and Snowflake data loading", date_column := some "STAGE_LAST_LOAD_DT", ddl := "\nCREATE OR REPLACE TABLE \x7btable_ref\x7d (\n    METADATA_CONFIG_KEY VARCHAR(16777216),\n    LOGICAL_NAME VARCHAR(16777216),\n    FILE_LANDING_SCHEMA VARCHAR(16777216),\n    FILE_WILDCARD_PATTERN VARCHAR(16777216),\n    FILE_TABLE_NAME VARCHAR(16777216),\n    FILE_EXTENSION VARCHAR(16777216),\n    SHEET_NAME VARCHAR(16777216),\n    SOURCE_TYPE VARCHAR(16777216),\n    ENABLED VARCHAR(16777216),\n    BLOB_LAST_LOAD_DT VARCHAR(16777216),\n    STAGE_LAST_LOAD_DT VARCHAR(16777216),\n    TARGET_LAST_LOAD_DT VARCHAR(16777216),\n    ROW_COUNT VARCHAR(16777216),\n    ERROR_STATUS VARCHAR(16777216),\n    FILE_FORMAT VARCHAR(50),\n    HAS_HEADER VARCHAR(16777216) DEFAULT 'Y',\n    DATABASE_NAME VARCHAR(255),\n    SCHEMA_NAME VARCHAR(255),\n    SOURCE_TABLE_NAME VARCHAR(255),\n    DELTA_COLUMN VARCHAR(255),\n    DELTA_VALUE VARCHAR(255),\n    CHANGE_TRACKING_TYPE VARCHAR(255),\n    PRIORITY_FLAG BOOLEAN,\n    PAYLOAD VARIANT,\n    SERVER_NAME VARCHAR(100),\n    FILE_SERVER_LOAD_TYPE VARCHAR(16777216),\n    LAST_MODIFIED_DATE_LOADED VARCHAR(16777216),\n    FILESTAMP_FORMAT VARCHAR(16777216),\n    AUTO_INGEST VARCHAR(16777216),\n    FILE_SERVER_FILEPATH VARCHAR(16777216),\n    FIXED_WIDTH_FILETYPE VARCHAR(16777216),\n    REGEX_PATTERN VARCHAR(16777216) DEFAULT ''\n);\n", dml := some "\nINSERT INTO \x7btable_ref\x7d (\n    METADATA_CONFIG_KEY, LOGICAL_NAME, FILE_LANDING_SCHEMA, FILE_WILDCARD_PATTERN,\n    FILE_TABLE_NAME, FILE_EXTENSION, SHEET_NAME, SOURCE_TYPE, ENABLED,\n    BLOB_LAST_LOAD_DT, STAGE_LAST_LOAD_DT, TARGET_LAST_LOAD_DT, ROW_COUNT,\n    ERROR_STATUS, FILE_FORMAT, HAS_HEADER, DATABASE_NAME, SCHEMA_NAME,\n    SOURCE_TABLE_NAME, DELTA_COLUMN, DELTA_VALUE, CHANGE_TRACKING_TYPE,\n    PRIORITY_FLAG, PAYLOAD, SERVER_NAME, FILE_SERVER_LOAD_TYPE,\n    LAST_MODIFIED_DATE_LOADED, FILESTAMP_FORMAT, AUTO_INGEST,\n    FILE_SERVER_FILEPATH, FIXED_WIDTH_FILETYPE, REGEX_PATTERN\n) VALUES\n    ('h8c1d2e3-8901-1j25-6g7h-23456789abcd', NULL, NULL, 'SCANDS_Staging', NULL, NULL, NULL, 'csv', '1', '2025-06-06T04:55:08.3666865', '2025-12-22 08:09:02.337', '2025-12-22 08:10:59.441 -0800', '730325', '0', 'HEART_PARQUET_FORMAT', 'Y', 'SCANDS_PROD', 'dbo', 'B_MemberApplicationHistory', 'LOAD_DATETIME', '2025-12-22 08:09:02.337', 'FULL', false, NULL, 'DS-STAGE-TEST', NULL, NULL, NULL, NULL, NULL, NULL, NULL),\n    ('g7b0c1d2-7890-0i14-5f6g-123456789abc', 'LEGACY', NULL, NULL, NULL, NULL, NULL, 'SQL', '1', '2025-12-22T09:28:17.3462705', '2025-12-22 09:28:08.590', '2025-12-22 09:28:53.206 -0800', '3889', '0', 'HEART_PARQUET_FORMAT', NULL, 'SCANDS_PROD', 'dbo', 'D_Site_Attributes', 'LOAD_DATETIME', '2025-12-22 09:28:08.590', 'FULL', false, NULL, 'BI-RPT-TEST', NULL, NULL, NULL, NULL, NULL, NULL, NULL),\n    ('fff79ec3-e01a-4673-b407-7ed32ef12ef3', 'LEGACY', NULL, NULL, NULL, NULL, NULL, 'SQL', '1', '2025-12-31T09:20:30.1731745', '2025-12-31 09:20:23.577', '2025-12-31 09:21:36.169 -0800', '3', '0', 'HEART_PARQUET_FORMAT', 'Y', 'SCANDS_STAGING', 'dbo', 'CMSLTIValue', 'LOAD_DATETIME', '2025-12-31 09:20:23.577', 'FULL', false, NULL, 'DS-STAGE-TEST', NULL, NULL, NULL, NULL, NULL, NULL, NULL),\n    ('ffe1fe02-3db9-4536-81bb-ea167e78de33', 'Excel_Test_CSV', 'SANDBOX', 'SCAN_CareLinx_Member_Utilization_', 'CareLinx_Member_Utilization_CSV', 'csv', 'SCAN_CareLinx_Member_Utilizatio', 'csv', '1', '1900-01-01', '1900-01-01', '1900-01-01', 'N/A', '0', 'HEART_MOCK_DDL_PIPE_COMMA', 'Y', NULL, NULL, NULL, NULL, NULL, NULL, false, NULL, NULL, NULL, '2025-11-06T19:43:55.5274353Z', NULL, NULL, '\\san02\\EDW_SHARE\\FileSharing\\Hakkoda\\Product\\CSV', NULL, NULL),\n    ('ffd63193-c072-40bf-89ae-d46358e84da9', 'Excel_Test_CSV', 'SANDBOX', 'HV5_PV5 VH', 'HealthyFoodCard_VH_csv', 'csv', 'Purse Activity Report', 'csv', '1', '1900-01-01', '1900-01-01', '1900-01-01', 'N/A', '0', 'HEART_MOCK_DDL_PIPE_COMMA', 'Y', NULL, NULL, NULL, NULL, NULL, NULL, false, NULL, NULL, NULL, '1900-01-01', NULL, NULL, '\\san02\\EDW_SHARE\\FileSharing\\Hakkoda\\Product\\CSV', NULL, NULL),\n    ('ff645be1-3e3d-42cc-8dbc-fe8b76fbb920', NULL, 'MMR', NULL, NULL, NULL, NULL, 'SQL', '1', '2025-12-22T08:53:22.2539129', '2025-12-22 08:28:42.557', '2025-12-22 08:56:56.958 -0800', '14915191', '0', 'HEART_PARQUET_FORMAT', 'Y', 'SCANDS_PROD', 'dbo', 'F_CMSMMR', 'LOAD_DATETIME', '2025-12-22 08:28:42.557', 'FULL', false, NULL, 'BI-RPT-TEST', NULL, '1900-01-01', NULL, NULL, NULL, NULL, NULL),\n    ('ff6430e2-38f0-4985-9f4f-66148a67542b', NULL, NULL, NULL, NULL, NULL, NULL, 'SQL', '1', '2026-01-21T10:18:59.9977290', '1900-01-01', '1900-01-01', '13352216', '0', 'HEART_PARQUET_FORMAT', NULL, 'BENEFIT', 'DBO', 'Benefit_Provider_Detail', NULL, NULL, 'FULL', false, NULL, 'AzureStagingPrd', NULL, '1900-01-01', NULL, NULL, NULL, NULL, NULL),\n    ('ff16a0d9-0f01-4249-8a02-9487bcf271bb', 'MedHOK-CIL', 'MedHOK', 'Intervention_MEDICARE', 'Intervention_MEDICARE', 'csv', NULL, 'CIL-File', '1', '1900-01-01', '1900-01-01', '1900-01-01', '250', '0', 'HEART_MOCK_DDL_PIPE', 'Y', NULL, NULL, NULL, NULL, NULL, NULL, NULL, NULL, NULL, NULL, NULL, NULL, NULL, NULL, NULL, '^(?:.*/)?Intervention_MEDICARE(?:_[0-9]+)\x7b3\x7d\\.csv$'),\n    ('ff16a0d9-0f01-4249-8a02-9487bcf271bb', NULL, 'medhok', 'Intervention_MEDICARE', 'Intervention_MEDICARE', 'csv', NULL, 'File', '1', '2026-01-03T12:03:49.6822158', '2026-01-03T12:04:19.0939536', '2026-01-03T12:04:19.0939947', '250', '0', 'HEART_MOCK_DDL_PIPE', 'Y', NULL, NULL, NULL, NULL, NULL, NULL, NULL, NULL, NULL, NULL, NULL, NULL, NULL, NULL, NULL, NULL),\n    ('ff13b82e-6740-4511-8451-04d4bd3801ac', NULL, NULL, NULL, NULL, NULL, NULL, 'SQL', '1', '1900-01-01', '2025-08-30 17:32:34.060', '2025-08-30 17:33:21.388 -0700', '0', '0', 'HEART_PARQUET_FORMAT', 'Y', 'SCANDS_Finance_Archive', '2025_Bid', 'dimMedicareFlag', 'LOAD_DATETIME', '2025-08-30 17:32:34.060', 'FULL', false, NULL, 'DSTREAM-TEST', NULL, '1900-01-01', NULL, NULL, NULL, NULL, NULL),\n    ('fed44f3c-a30d-4787-8c49-9a2140ae56df', 'SupplementalBenefit Astrana', 'SupplementalBenefit', 'SCAN Accupuncture Report', 'Astrana', 'csv', NULL, 'File', '1', '2026-01-16T02:01:02.0111862', '2026-01-16T02:01:34.8025253', '2026-01-16T02:01:34.8025461', '727', '0', 'HEART_MOCK_DDL_PIPE_COMMA', 'Y', NULL, NULL, NULL, NULL, NULL, NULL, false, NULL, NULL, NULL, '1900-01-01', NULL, NULL, NULL, NULL, NULL),\n    ('feb30ea1-2ee6-400a-8a8e-fc56fa631d70', NULL, NULL, NULL, NULL, NULL, NULL, 'SQL', '1', '2025-08-29T13:09:48.1856091', '2025-08-29 13:09:39.573', '2025-08-29 13:10:24.483 -0700', '3707', '0', 'HEART_PARQUET_FORMAT', 'Y', 'BIDProcess', 'dbo', 'dMRSpec', 'LOAD_DATETIME', '2025-08-29 13:09:39.573', 'FULL', false, NULL, 'BIMILL-APP-TEST', NULL, '1900-01-01', NULL, NULL, NULL, NULL, NULL),\n    ('fe945663-a432-4a3b-ba76-85f2579a7f09', 'BIMILL-APP_BIDPROCESS', NULL, NULL, NULL, NULL, NULL, 'SQL', '1', '1900-01-01', '1900-01-01', '1900-01-01', 'N/A', '0', 'HEART_PARQUET_FORMAT', 'Y', 'BIDProcess', 'dbo', 'D_County', 'LOAD_DATETIME', NULL, 'FULL', false, NULL, 'BIMILL-APP-TEST', NULL, '1900-01-01', NULL, NULL, NULL, NULL, NULL),\n    ('fe5f6424-71dd-4264-8354-8ab017f1b56a', NULL, 'medhok', 'Workflow_log_MEDICARE', 'Workflow_log_MEDICARE', 'csv', NULL, 'File', '1', '2026-01-03T11:58:29.3460964', '2026-01-03T11:58:56.0419382', '2026-01-03T11:58:56.0419680', '31780', '0', 'HEART_MOCK_DDL_PIPE', 'Y', NULL, NULL, NULL, NULL, NULL, NULL, NULL, NULL, NULL, NULL, NULL, NULL, NULL, NULL, NULL, NULL),\n    ('fe5f6424-71dd-4264-8354-8ab017f1b56a', 'MedHOK-CIL', 'MedHOK', 'Workflow_log_MEDICARE', 'Workflow_log_MEDICARE', 'csv', NULL, 'CIL-File', '1', '1900-01-01', '1900-01-01', '1900-01-01', '31780', '0', 'HEART_MOCK_DDL_PIPE', 'Y', NULL, NULL, NULL, NULL, NULL, NULL, NULL, NULL, NULL, NULL, NULL, NULL, NULL, NULL, NULL, '^(?:.*/)?Workflow_log_MEDICARE(?:_[0-9]+)\x7b3\x7d\\.csv$'),\n    ('fe4ad6a5-5350-4e19-b19e-d269b2c1cb62', 'AgentCubedODS', 'AgentCubedODS', NULL, NULL, NULL, NULL, 'SQL', '1', '2026-01-21T02:10:26.7494962', '2026-01-21 02:10:19.797', '2026-01-21 02:11:35.720 -0800', '4923', '0', 'HEART_PARQUET_FORMAT', 'Y', 'AgentCubedODS', 'A3_curr', 'SeminarSingle', 'SysUpdateDateTime', '2025-10-16 20:58:21.133', 'INC', false, NULL, 'SHAREDSQL-TEST', NULL, '1900-01-01', NULL, NULL, NULL, NULL, NULL),\n    ('fe32da3b-2bb9-4e41-93f4-64350737d69f', 'Path Azure SQL', NULL, NULL, NULL, NULL, NULL, 'Azure SQL', '1', '1900-01-01', '1900-01-01', '1900-01-01', '0', NULL, 'HEART_PARQUET_FORMAT', NULL, 'PATH_DEV', 'DBO', 'HealthPlan', 'CreatedDate', '1900-01-01', 'INC', false, NULL, 'uswtestpathsql.database.windows.net', NULL, '1900-01-01', NULL, NULL, NULL, NULL, NULL),\n    ('fe2fc648-5171-4003-b3f4-e2fd0efa74b2', 'MEDHOK_DB', NULL, NULL, NULL, NULL, NULL, 'SQL', '1', '2025-12-08T14:57:12.8412322', '2025-12-08 14:57:06.257', '2025-12-08 14:58:08.502 -0800', '7293', '0', 'HEART_PARQUET_FORMAT', NULL, 'MedhokODS', 'mhk_curr', 'ServiceGridCategoryProcedure', 'LOAD_DATETIME', '2025-12-08 14:57:06.257', 'FULL', false, NULL, 'BI-RPT-TEST', NULL, '1900-01-01', NULL, NULL, NULL, NULL, NULL),\n    ('fe2f4c6d-6baf-40da-88c3-ab8e6050c1eb', NULL, 'medhok', 'Module_Link_MEDICARE', 'Module_Link_MEDICARE', 'csv', NULL, 'File', '1', '2026-01-03T12:07:01.0853777', '2026-01-03T12:07:25.8956535', '2026-01-03T12:07:25.8956807', '60', '0', 'HEART_MOCK_DDL_PIPE', 'Y', NULL, NULL, NULL, NULL, NULL, NULL, NULL, NULL, NULL, NULL, NULL, NULL, NULL, NULL, NULL, NULL),\n    ('fe2f4c6d-6baf-40da-88c3-ab8e6050c1eb', 'MedHOK-CIL', 'MedHOK', 'Module_Link_MEDICARE', 'Module_Link_MEDICARE', 'csv', NULL, 'CIL-File', '1', '1900-01-01', '1900-01-01', '1900-01-01', '60', '0', 'HEART_MOCK_DDL_PIPE', 'Y', NULL, NULL, NULL, NULL, NULL, NULL, NULL, NULL, NULL, NULL, NULL, NULL, NULL, NULL, NULL, '^(?:.*/)?Module_Link_MEDICARE(?:_[0-9]+)\x7b3\x7d\\.csv$'),\n    ('fdc0c959-4888-4676-8659-a7eb6c6ba0e5', 'MedHOK-CIL', 'MedHOK', 'MMR_MEDICARE', 'MMR_MEDICARE', 'csv', NULL, 'CIL-File', '1', '1900-01-01', '1900-01-01', '1900-01-01', '0', '0', 'HEART_MOCK_DDL_PIPE', 'Y', NULL, NULL, NULL, NULL, NULL, NULL, NULL, NULL, NULL, NULL, NULL, NULL, NULL, NULL, NULL, '^(?:.*/)?MMR_MEDICARE(?:_[0-9]+)\x7b3\x7d\\.csv$'),\n    ('fdc0c959-4888-4676-8659-a7eb6c6ba0e5', NULL, 'medhok', 'MMR_MEDICARE', 'MMR_MEDICARE', 'csv', NULL, 'File', '1', '2026-01-03T12:03:47.5983373', '2026-01-03T12:04:16.2877240', '2026-01-03T12:04:16.2877502', '0', '0', 'HEART_MOCK_DDL_PIPE', 'Y', NULL, NULL, NULL, NULL, NULL, NULL, NULL, NULL, NULL, NULL, NULL, NULL, NULL, NULL, NULL, NULL),\n    ('fd87a1ef-a5fb-405a-afb1-0eed9e9f15b5', 'LEGACY_DATA - BI-RPT-TEST', NULL, NULL, NULL, NULL, NULL, 'SQL', '1', '2025-11-14T03:41:32.3870772', '2025-11-14 03:39:46.117', '2025-11-14 03:43:48.357 -0800', '5144591', '0', 'HEART_PARQUET_FORMAT', NULL, 'CLAIMS', 'dbo', 'AUDAUDITDETAIL', 'LOAD_DATETIME', '2025-11-14 03:39:46.117', 'FULL', false, NULL, 'BI-RPT-TEST', NULL, '1900-01-01', NULL, NULL, NULL, NULL, NULL),\n    ('fd7ab6ef-e63e-4d23-a803-87c7e9a73bdd', 'NPPES', NULL, NULL, NULL, NULL, NULL, 'SQL', '1', '2025-12-17T12:07:55.4608396', '2025-12-17 12:07:48.583', '2025-12-17 12:08:24.323 -0800', '61', '0', 'HEART_PARQUET_FORMAT', 'N', 'HCIEncounters', 'dbo', 'nppes_state', 'LOAD_DATETIME', '2025-12-17 12:07:48.583', 'FULL', false, NULL, 'DVBI-TEST', NULL, '1900-01-01', NULL, NULL, NULL, NULL, NULL),\n    ('fd497a02-267c-4eb0-bb4a-5fba3e63c70a', 'LEGACY', NULL, NULL, NULL, NULL, NULL, 'SQL', '1', '2025-12-09T06:13:12.9950369', '2025-12-09 06:13:02.317', '2025-12-09 06:13:42.301 -0800', '1952', '0', 'HEART_PARQUET_FORMAT', 'N', 'BIR_Objects', 'AEPOEP', 'rpt_AEPBudgetVsActual', 'LOAD_DATETIME', '2025-12-09 06:13:02.317', 'FULL', false, NULL, 'BI-RPT-PROD', NULL, '1900-01-01', NULL, NULL, NULL, NULL, NULL),\n    ('fd2173fe-d9cc-4469-89d6-f0a725134526', NULL, NULL, NULL, NULL, NULL, NULL, 'SQL', '1', '1900-01-01', '2025-08-30 17:37:41.203', '2025-08-30 17:38:18.922 -0700', '0', '0', 'HEART_PARQUET_FORMAT', 'Y', 'DWOBJECTS', 'dbo', 'tbl_Fusion_Report42', 'LOAD_DATETIME', '2025-08-30 17:37:41.203', 'FULL', false, NULL, 'DSTREAM-TEST', NULL, '1900-01-01', NULL, NULL, NULL, NULL, NULL),\n    ('fc35ad97-c233-436b-b4b7-eae7fad6e224', NULL, NULL, 'Genesys_Staging', NULL, NULL, NULL, 'csv', '1', '2025-09-22T05:11:42.4042370', '2025-09-22 05:11:34.827', '2025-09-22 05:12:29.903 -0700', '7', '0', 'HEART_PARQUET_FORMAT', NULL, 'GenesysODS', 'dbo', 'teams', 'SysInsertDateTime', '2025-09-22 04:00:21.430', 'FULL', false, NULL, 'SHAREDSQL-TEST', NULL, '1900-01-01', NULL, '0', NULL, NULL, NULL),\n    ('fc33de5c-1bba-4019-a847-b731413e2c24', 'MedHOK-CIL', 'MedHOK', 'Labresults_MEDICARE', 'Labresults_MEDICARE', 'csv', NULL, 'CIL-File', '1', '1900-01-01', '1900-01-01', '1900-01-01', '5423', '0', 'HEART_MOCK_DDL_PIPE', 'Y', NULL, NULL, NULL, NULL, NULL, NULL, NULL, NULL, NULL, NULL, NULL, NULL, NULL, NULL, NULL, '^(?:.*/)?Labresults_MEDICARE(?:_[0-9]+)\x7b3\x7d\\.csv$'),\n    ('fc33de5c-1bba-4019-a847-b731413e2c24', NULL, 'medhok', 'Labresults_MEDICARE', 'Labresults_MEDICARE', 'csv', NULL, 'File', '1', '2026-01-03T12:03:27.2254867', '2026-01-03T12:04:35.0319907', '2026-01-03T12:04:35.0320204', '5423', '0', 'HEART_MOCK_DDL_PIPE', 'Y', NULL, NULL, NULL, NULL, NULL, NULL, NULL, NULL, NULL, NULL, NULL, NULL, NULL, NULL, NULL, NULL),\n    ('fc30e0fe-0509-45e6-82b0-79e403054e01', NULL, NULL, NULL, NULL, NULL, NULL, 'SQL', '1', '2025-08-29T13:07:36.4057882', '1900-01-01', '1900-01-01', '0', '0', 'HEART_PARQUET_FORMAT', 'Y', 'BIDProcess', 'dbo', 'HIP_ckclm', 'LOAD_DATETIME', '1900-01-01', 'FULL', false, NULL, 'BIMILL-APP-TEST', NULL, '1900-01-01', NULL, NULL, NULL, NULL, NULL),\n    ('fc1dee5c-a7da-4c0d-899a-2bd31a261080', NULL, NULL, NULL, NULL, NULL, NULL, 'SQL', '1', '2025-08-29T13:49:28.1894248', '1900-01-01', '1900-01-01', '0', '0', 'HEART_PARQUET_FORMAT', 'Y', 'BIDProcess', 'dbo', 'outClaims_Repricer_01222023', 'LOAD_DATETIME', '1900-01-01', 'FULL', false, NULL, 'BIMILL-APP-TEST', NULL, '1900-01-01', NULL, NULL, NULL, NULL, NULL),\n    ('fbed8b02-4e6e-48e5-95ff-b7f5370ca9bc', NULL, 'ODSExtract', 'ODSExtract_ORAEXT_AP_Invoice_Distributions', 'AP_Invoice_Distributions', 'txt', NULL, 'CIL-File', '1', '1900-01-01', '1900-01-01', '1900-01-01', 'N/A', '0', 'HEART_MOCK_DDL_PIPE', 'Y', NULL, NULL, NULL, NULL, '1900-01-01', NULL, false, NULL, NULL, NULL, '1900-01-01', NULL, NULL, NULL, NULL, NULL),\n    ('fb9fd51b-e8d7-4053-ad3c-1c788c7127cd', 'MARA_XPLN', 'Milliman_MARA', 'XPLN', 'ModelOutput_XPLN', 'csv', NULL, 'File', '1', '2025-11-28T02:18:33.5802243', '2025-11-28T02:18:55.6906458', '2025-11-28T02:18:55.6906692', '0', '0', 'HEART_MOCK_DDL_PIPE_COMMA', 'Y', NULL, NULL, NULL, NULL, NULL, NULL, false, NULL, NULL, NULL, '1900-01-01', NULL, NULL, NULL, NULL, NULL),\n    ('fb9d2c2d-4734-4440-919d-b40026f071c4', 'LEGACY_DATA', NULL, NULL, NULL, NULL, NULL, 'SQL', '1', '1900-01-01', '2025-09-25 11:32:45.207', '2025-09-25 11:33:49.531 -0700', '0', NULL, 'HEART_PARQUET_FORMAT', 'Y', 'Care_Alert', 'dbo', 'member_chronic_conditions', 'LOAD_DATETIME', '2025-09-25 11:32:45.207', 'FULL', NULL, NULL, 'HCISYS-RPT-PROD', NULL, NULL, NULL, NULL, NULL, NULL, NULL),\n    ('fb28db06-00cf-4633-ace7-ac709b40e4e8', NULL, NULL, 'Genesys_Staging', NULL, NULL, NULL, 'csv', '1', '2025-09-22T05:02:15.5709761', '2025-09-22 05:02:06.710', '2025-09-22 05:03:12.437 -0700', '309', '0', 'HEART_PARQUET_FORMAT', NULL, 'GenesysODS', 'dbo', 'allContactLists_Backup', 'SysInsertDateTime', '2025-09-21 04:01:27.120', 'FULL', false, NULL, 'SHAREDSQL-TEST', NULL, '1900-01-01', NULL, '0', NULL, NULL, NULL),\n    ('fafbe32f-794b-4fa0-8925-49db5d076989', NULL, 'medhok', 'Careplan_Problems_MEDICARE', 'Careplan_Problems_MEDICARE', 'csv', NULL, 'File', '1', '2026-01-03T12:01:28.6027155', '2026-01-03T12:02:02.8469810', '2026-01-03T12:02:02.8470055', '473383', '0', 'HEART_MOCK_DDL_PIPE', 'Y', NULL, NULL, NULL, NULL, NULL, NULL, NULL, NULL, NULL, NULL, NULL, NULL, NULL, NULL, NULL, NULL),\n    ('fafbe32f-794b-4fa0-8925-49db5d076989', 'MedHOK-CIL', 'MedHOK', 'Careplan_Problems_MEDICARE', 'Careplan_Problems_MEDICARE', 'csv', NULL, 'CIL-File', '1', '1900-01-01', '1900-01-01', '1900-01-01', '473383', '0', 'HEART_MOCK_DDL_PIPE', 'Y', NULL, NULL, NULL, NULL, NULL, NULL, NULL, NULL, NULL, NULL, NULL, NULL, NULL, NULL, NULL, '^(?:.*/)?Careplan_Problems_MEDICARE(?:_[0-9]+)\x7b3\x7d\\.csv$'),\n    ('fad0233b-6110-4309-a935-916f67b68624', NULL, 'CBdB', 'Premium_Rates_Rider', 'Premium_Rates_Rider', NULL, NULL, 'csv', '1', '2025-05-09T14:13:05.1902512', '2025-05-09T14:14:26.5037505', '2025-05-09T14:14:26.5037725', '9', '0', 'HEART_MOCK_DDL_PIPE_COMMA', 'Y', NULL, NULL, NULL, NULL, NULL, NULL, false, NULL, NULL, NULL, '1900-01-01', NULL, '0', NULL, NULL, NULL),\n    ('faa2a8c4-ac8f-4574-a857-293ef464afb1', 'Path Azure SQL', NULL, NULL, NULL, NULL, NULL, 'Azure SQL', '1', '1900-01-01', '1900-01-01', '1900-01-01', '0', NULL, 'HEART_PARQUET_FORMAT', NULL, 'PATH_DEV', 'DBO', 'ProviderTerritory', 'CreatedDate', '1900-01-01', 'INC', false, NULL, 'uswtestpathsql.database.windows.net', NULL, '1900-01-01', NULL, NULL, NULL, NULL, NULL),\n    ('fa8467a3-3c85-4312-b202-d461e0be0a80', NULL, NULL, NULL, NULL, NULL, NULL, 'csv', '1', '1900-01-01', '2026-01-05 22:56:31.857', '2026-01-05 22:57:37.699 -0800', 'N/A', '0', 'HEART_PARQUET_FORMAT', 'Y', 'MDS', 'dbo', 'Geocoded_Address', 'Creation_Date', '2026-01-05 22:56:31.857', 'INC', false, NULL, 'BI-RPT-TEST', NULL, '1900-01-01', NULL, NULL, NULL, NULL, NULL),\n    ('f9e6d0d0-7c75-448c-b375-d83b944ada8e', 'LEGACY_DATA', NULL, NULL, NULL, NULL, NULL, 'SQL', '1', '2025-11-06T23:43:42.0810244', '2025-11-06 23:43:28.970', '2025-11-06 23:45:04.989 -0800', '420879', '0', 'HEART_PARQUET_FORMAT', NULL, 'prod', 'dbo', 'SD_AthenaBaseReport', 'LOAD_DATETIME', '2025-11-06 23:43:28.970', 'FULL', false, NULL, 'hcira-datamart', NULL, '1900-01-01', NULL, NULL, NULL, NULL, NULL),\n    ('f9b26699-6309-4d3e-8a85-c53fa74ea7c9', NULL, 'Milliman', NULL, NULL, NULL, NULL, 'SQL', '1', '2025-12-23T07:16:23.0815090', '1900-01-01', '1900-01-01', '0', '0', 'HEART_PARQUET_FORMAT', 'Y', 'SCANDS_STAGING', 'dbo', 'Mara_CxXPLN_InvalidClaim', 'LOAD_DATETIME', '1900-01-01', 'FULL', false, NULL, 'DS-STAGE-TEST', NULL, NULL, NULL, NULL, NULL, NULL, NULL),\n    ('f962bb29-e633-4524-ac31-94b00b0ab3bd', 'NPPES', NULL, NULL, NULL, NULL, NULL, 'SQL', '1', '2025-12-17T12:03:53.8340737', '2025-12-17 12:03:45.693', '2025-12-17 12:05:09.152 -0800', '6', '0', 'HEART_PARQUET_FORMAT', 'N', 'HCIEncounters', 'dbo', 'nppes_other_name_type', 'LOAD_DATETIME', '2025-12-17 12:03:45.693', 'FULL', false, NULL, 'DVBI-TEST', NULL, '1900-01-01', NULL, NULL, NULL, NULL, NULL),\n    ('f94eb0d5-4526-4584-89b4-7e9142175cae', NULL, NULL, NULL, NULL, NULL, NULL, 'SQL', '1', '1900-01-01', '2025-08-30 16:57:42.207', '2025-08-30 16:58:33.230 -0700', '0', '0', 'HEART_PARQUET_FORMAT', 'Y', 'SCANDS_Finance_Archive', '2024_BID', 'DimServiceDate', 'LOAD_DATETIME', '2025-08-30 16:57:42.207', 'FULL', false, NULL, 'DSTREAM-TEST', NULL, '1900-01-01', NULL, NULL, NULL, NULL, NULL),\n    ('f9413755-627e-4e0d-a554-a21c363fb4fb', 'Path Azure SQL', NULL, NULL, NULL, NULL, NULL, 'Azure SQL', '1', '1900-01-01', '1900-01-01', '1900-01-01', '0', '0', 'HEART_PARQUET_FORMAT', 'Y', 'PATH_DEV', 'dbo', 'OrgAppointmentTypeMapping', 'LOAD_DATETIME', '1900-01-01', 'FULL', false, NULL, 'uswtestpathsql.database.windows.net', NULL, '1900-01-01', NULL, NULL, NULL, NULL, NULL);\n" },
  { name := "METADATA_SQL_SERVER_LOOKUP", description := "Mock SQL Server metadata rows for table lookup filters", date_column := none, ddl := "\nCREATE OR REPLACE TABLE \x7btable_ref\x7d (\n    LOGICAL_NAME VARCHAR(16777216),\n    SERVER_NAME VARCHAR(255),\n    DATABASE_NAME VARCHAR(255),\n    SCHEMA_NAME VARCHAR(255),\n    SOURCE_TABLE_NAME VARCHAR(255),\n    SOURCE_TYPE VARCHAR(50)\n);\n", dml := some "\nINSERT INTO \x7btable_ref\x7d (\n    LOGICAL_NAME, SERVER_NAME, DATABASE_NAME, SCHEMA_NAME, SOURCE_TABLE_NAME, SOURCE_TYPE\n) VALUES\n    ('Claims Core', 'SHAREDSQL-TEST', 'CLAIMS', 'dbo', 'ClaimHeader', 'SQL_SERVER'),\n    ('Claims Core', 'SHAREDSQL-TEST', 'CLAIMS', 'dbo', 'ClaimLine', 'SQL_SERVER'),\n    ('Contact Center', 'SCAN-CX-TEST', 'GenesysODS', 'dbo', 'Calls', 'SQL_SERVER'),\n    ('Provider Network', 'BI-RPT-TEST', 'ProviderHub', 'dbo', 'Provider', 'SQL_SERVER'),\n    ('Enrollment', 'EDI-Test01', 'ElectronicEnrollment', 'dbo', 'MemberEnrollment', 'SQL_SERVER');\n" },
  { name := "METADATA_CONFIG_TABLE_ELT_ADHOC", description := "Adhoc metadata configuration table for on-demand ELT triggers", date_column := some "LAST_TRIGGER_TIMESTAMP", ddl := "\nCREATE OR REPLACE TABLE \x7btable_ref\x7d (\n    METADATA_CONFIG_KEY VARCHAR(16777216),\n    LOGICAL_NAME VARCHAR(16777216),\n    DATABASE_NAME VARCHAR(255),\n    SCHEMA_NAME VARCHAR(255),\n    SOURCE_TABLE_NAME VARCHAR(255),\n    LOAD_START_DATETIME TIMESTAMP,\n    LOAD_END_DATETIME TIMESTAMP,\n    LAST_TRIGGER_TIMESTAMP TIMESTAMP,\n    ERROR_STATUS VARCHAR(255),\n    PAYLOAD VARIANT\n);\n", dml := some "\nINSERT INTO \x7btable_ref\x7d (\n    METADATA_CONFIG_KEY, LOGICAL_NAME, DATABASE_NAME, SCHEMA_NAME, SOURCE_TABLE_NAME,\n    LOAD_START_DATETIME, LOAD_END_DATETIME, LAST_TRIGGER_TIMESTAMP, ERROR_STATUS\n) VALUES\n    ('adhoc-001', 'AgentCubedODS', 'AgentCubedODS', 'A3_CURR', 'AgencyManagementParty', '2026-01-27 08:00:00', '2026-01-27 08:15:00', '2026-01-27 07:55:00', 'COMPLETED'),\n    ('adhoc-002', 'MindfulODS', 'MindfulODS', 'dbo', 'Interactions', '2026-01-27 09:00:00', '2026-01-27 09:10:00', '2026-01-27 08:55:00', 'COMPLETED'),\n    ('adhoc-003', 'GenesysODS', 'GenesysODS', 'dbo', 'CallRecords', '2026-01-28 06:00:00', NULL, '2026-01-28 05:55:00', 'TRIGGERED_NOT_STARTED'),\n    ('adhoc-004', 'LEGACY', 'SCANDS_PROD', 'dbo', 'D_Site_Attributes', '2026-01-28 10:00:00', '2026-01-28 10:22:00', '2026-01-28 09:58:00', 'COMPLETED'),\n    ('adhoc-005', 'LEGACY', 'SCANDS_STAGING', 'dbo', 'CMSLTIValue', '2026-01-28 11:00:00', '2026-01-28 11:05:00', '2026-01-28 10:55:00', 'COMPLETED'),\n    ('adhoc-006', 'Excel_Test_CSV', 'SANDBOX', 'dbo', 'CareLinx_Member_Utilization_CSV', '2026-01-28 12:00:00', NULL, '2026-01-28 11:58:00', 'ERROR'),\n    ('adhoc-007', 'MedHOK-CIL', 'MedHOK', 'dbo', 'Intervention_MEDICARE', '2026-01-28 13:00:00', '2026-01-28 13:30:00', '2026-01-28 12:55:00', 'COMPLETED'),\n    ('adhoc-008', 'SupplementalBenefit', 'SupplementalBenefit', 'dbo', 'Astrana', '2026-01-28 14:00:00', NULL, '2026-01-28 13:58:00', 'TRIGGERED_NOT_STARTED'),\n    ('adhoc-009', 'AgentCubedODS', 'AgentCubedODS', 'A3_CURR', 'AgentProfile', '2026-01-28 15:00:00', '2026-01-28 15:45:00', '2026-01-28 14:55:00', 'COMPLETED'),\n    ('adhoc-010', 'GenesysODS', 'GenesysODS', 'dbo', 'AgentActivity', '2026-01-28 16:00:00', '2026-01-28 16:20:00', '2026-01-28 15:58:00', 'COMPLETED'),\n    ('adhoc-011', 'MindfulODS', 'MindfulODS', 'dbo', 'SurveyResponses', '2026-01-29 06:00:00', NULL, '2026-01-29 05:55:00', 'TRIGGERED_NOT_STARTED'),\n    ('adhoc-012', 'LEGACY', 'SCANDS_Finance', 'dbo', 'F_ClaimPayment', '2026-01-29 07:00:00', '2026-01-29 07:35:00', '2026-01-29 06:58:00', 'COMPLETED'),\n    ('adhoc-013', 'AgentCubedODS', 'AgentCubedODS', 'A3_CURR', 'PolicyHolder', '2026-01-29 08:00:00', NULL, '2026-01-29 07:55:00', 'FAILED'),\n    ('adhoc-014', 'LEGACY', 'SCANDS_PROD', 'dbo', 'B_MemberApplicationHistory', '2026-01-29 09:00:00', '2026-01-29 09:50:00', '2026-01-29 08:58:00', 'COMPLETED'),\n    ('adhoc-015', 'GenesysODS', 'GenesysODS', 'dbo', 'QueueMetrics', '2026-01-29 10:00:00', NULL, '2026-01-29 09:58:00', 'TRIGGERED_NOT_STARTED');\n" },
  { name := "METADATA_CONFIG_TABLE_ELT_ADHOC_VW", description := "View wrapper for adhoc metadata config table (DuckDB compatibility)", date_column := none, ddl := "\nCREATE OR REPLACE VIEW \x7btable_ref\x7d AS\nSELECT\n    METADATA_CONFIG_KEY,\n    LOGICAL_NAME,\n    DATABASE_NAME,\n    SCHEMA_NAME,\n    SOURCE_TABLE_NAME,\n    LOAD_START_DATETIME,\n    LOAD_END_DATETIME,\n    LAST_TRIGGER_TIMESTAMP,\n    ERROR_STATUS,\n    PAYLOAD,\n    'LOCAL' AS ENVIRONMENT\nFROM METADATA_CONFIG_TABLE_ELT_ADHOC;\n", dml := none },
  { name := "METADATA_SQL_SERVER_LOOKUP_VW", description := "View for SQL Server table lookup filters", date_column := none, ddl := "\nCREATE OR REPLACE VIEW \x7btable_ref\x7d AS\nSELECT\n    LOGICAL_NAME,\n    SERVER_NAME,\n    DATABASE_NAME,\n    SCHEMA_NAME,\n    SOURCE_TABLE_NAME,\n    SOURCE_TYPE\nFROM \x7bschema_prefix\x7dMETADATA_SQL_SERVER_LOOKUP\nWHERE UPPER(SOURCE_TYPE) = 'SQL_SERVER'\nORDER BY LOGICAL_NAME, SERVER_NAME, DATABASE_NAME, SCHEMA_NAME, SOURCE_TABLE_NAME;\n", dml := some "" },
  { name := "METADATA_SQL_SOURCES_VW", description := "Distinct SQL sources with display label for ingestion copilot", date_column := none, ddl := "\nCREATE OR REPLACE VIEW \x7btable_ref\x7d AS\nSELECT DISTINCT\n    LOGICAL_NAME,\n    DATABASE_NAME,\n    SCHEMA_NAME,\n    CONCAT(LOGICAL_NAME, ' | ', DATABASE_NAME, '.', SCHEMA_NAME) AS SOURCE_LABEL\nFROM \x7bschema_prefix\x7dMETADATA_CONFIG_TABLE_ELT\nWHERE UPPER(SOURCE_TYPE) = 'SQL'\n  AND LOGICAL_NAME IS NOT NULL\n  AND DATABASE_NAME IS NOT NULL\n  AND SCHEMA_NAME IS NOT NULL\nORDER BY LOGICAL_NAME, DATABASE_NAME, SCHEMA_NAME;\n", dml := some "" },
  { name := "METADATA_SQL_SOURCES_PICKLIST_VW", description := "Distinct SQL sources with server for picklists", date_column := none, ddl := "\nCREATE OR REPLACE VIEW \x7btable_ref\x7d AS\nSELECT DISTINCT\n        LOGICAL_NAME,\n        DATABASE_NAME,\n        SCHEMA_NAME,\n        SERVER_NAME,\n        CONCAT(COALESCE(SERVER_NAME, 'Unknown'), '.', DATABASE_NAME, '.', SCHEMA_NAME, ' - (', LOGICAL_NAME, ')') AS SOURCE_LABEL\nFROM \x7bschema_prefix\x7dMETADATA_CONFIG_TABLE_ELT\nWHERE UPPER(SOURCE_TYPE) = 'SQL'\n  AND LOGICAL_NAME IS NOT NULL\n  AND DATABASE_NAME IS NOT NULL\n    AND SCHEMA_NAME IS NOT NULL\nORDER BY DATABASE_NAME, SCHEMA_NAME, SERVER_NAME, LOGICAL_NAME;\n", dml := some "" },
  { name := "METADATA_SQL_TABLES_VW", description := "All SQL metadata rows with fully-qualified source table", date_column := none, ddl := "\nCREATE OR REPLACE VIEW \x7btable_ref\x7d AS\nSELECT\n    t.*,\n    CONCAT(t.DATABASE_NAME, '.', t.SCHEMA_NAME, '.', t.SOURCE_TABLE_NAME) AS QUALIFIED_SOURCE_TABLE\nFROM \x7bschema_prefix\x7dMETADATA_CONFIG_TABLE_ELT AS t\nWHERE UPPER(t.SOURCE_TYPE) = 'SQL';\n", dml := some "" },
  { name := "METADATA_SQL_DELTA_COLUMNS_VW", description := "Distinct delta columns per SQL source dimensions", date_column := none, ddl := "\nCREATE OR REPLACE VIEW \x7btable_ref\x7d AS\nSELECT DISTINCT\n    LOGICAL_NAME,\n    DATABASE_NAME,\n    SCHEMA_NAME,\n    SERVER_NAME,\n    DELTA_COLUMN\nFROM \x7bschema_prefix\x7dMETADATA_CONFIG_TABLE_ELT\nWHERE UPPER(SOURCE_TYPE) = 'SQL'\n  AND LOGICAL_NAME IS NOT NULL\n  AND DATABASE_NAME IS NOT NULL\n  AND SCHEMA_NAME IS NOT NULL\n  AND DELTA_COLUMN IS NOT NULL;\n", dml := some "" },
  { name := "METADATA_SQL_CHANGE_TRACKING_VW", description := "Distinct change tracking types per SQL source dimensions", date_column := none, ddl := "\nCREATE OR REPLACE VIEW \x7btable_ref\x7d AS\nSELECT DISTINCT\n        LOGICAL_NAME,\n        DATABASE_NAME,\n        SCHEMA_NAME,\n        SERVER_NAME,\n        CHANGE_TRACKING_TYPE\nFROM \x7bschema_prefix\x7dMETADATA_CONFIG_TABLE_ELT\nWHERE UPPER(SOURCE_TYPE) = 'SQL'\n    AND LOGICAL_NAME IS NOT NULL\n    AND DATABASE_NAME IS NOT NULL\n    AND SCHEMA_NAME IS NOT NULL\n    AND CHANGE_TRACKING_TYPE IS NOT NULL;\n", dml := some "" },
  { name := "ELT_JOB_RUN", description := "Job run history for ingestion pipelines", date_column := some "START_TIME", ddl := "\nCREATE OR REPLACE TABLE \x7btable_ref\x7d (\n    RUN_ID VARCHAR(100),\n    START_TIME TIMESTAMP_NTZ(9),\n    END_TIME TIMESTAMP_NTZ(9),\n    STATUS VARCHAR(50),\n    ROWS_PROCESSED NUMBER(38,0),\n    ERROR_COUNT NUMBER(38,0) DEFAULT 0,\n    EXECUTION_TIME NUMBER(38,0),\n    TRIGGER_SOURCE VARCHAR(255)\n);\n", dml := some "\nINSERT INTO \x7btable_ref\x7d (\n    RUN_ID, START_TIME, END_TIME, STATUS, ROWS_PROCESSED, ERROR_COUNT, EXECUTION_TIME, TRIGGER_SOURCE\n) VALUES\n    ('209216ce-38b2-4d70-bc9b-c78db2e14ba4', '2026-01-22 15:45:01.536', '2026-01-22 07:47:53.175', 'SUCCEDED', 0, 0, -28628, 'ScheduleTrigger'),\n    ('118c9ee1-29af-4832-8185-0c9d6f27eddc', '2026-01-22 13:45:01.177', '2026-01-22 05:48:37.523', 'SUCCEDED', 205, 0, -28584, 'ScheduleTrigger'),\n    ('20a53c60-3150-4a27-8014-8cc83f1fe299', '2026-01-22 12:45:01.014', '2026-01-22 04:48:10.066', 'SUCCEDED', 0, 0, -28611, 'ScheduleTrigger'),\n    ('bbde76cb-46c2-4e50-aa5e-b17c6cd716a7', '2026-01-22 06:45:00.596', '2026-01-21 22:47:50.877', 'SUCCEDED', 907, 0, -28630, 'ScheduleTrigger'),\n    ('2df4627e-7962-489e-a242-dfbde3542de6', '2026-01-22 03:19:47.142', '2026-01-21 19:29:34.526', 'SUCCEDED', 1655, 0, -28213, 'Manual'),\n    ('2df4627e-7962-489e-a242-dfbde3542de6', '2026-01-22 03:19:47.142', '2026-01-21 19:27:57.464', 'SUCCEDED', 5, 0, -28310, 'Manual'),\n    ('2df4627e-7962-489e-a242-dfbde3542de6', '2026-01-22 03:19:47.142', '2026-01-21 19:22:31.707', 'SUCCEDED', 178, 0, -28636, 'Manual'),\n    ('68c60ff5-b7fb-4182-8721-2e7980086e0e', '2026-01-22 02:57:51.070', '2026-01-21 19:07:06.970', 'SUCCEDED', 0, 0, -28245, 'Manual'),\n    ('68c60ff5-b7fb-4182-8721-2e7980086e0e', '2026-01-22 02:57:51.070', '2026-01-21 19:07:18.708', 'SUCCEDED', 0, 0, -28233, 'Manual'),\n    ('68c60ff5-b7fb-4182-8721-2e7980086e0e', '2026-01-22 02:57:51.070', '2026-01-21 19:01:48.783', 'SUCCEDED', 0, 0, -28563, 'Manual');\n" },
  { name := "ELT_JOB_RUN_METRICS_VW", description := "Aggregated job run metrics by trigger and status", date_column := none, ddl := "\nCREATE OR REPLACE VIEW \x7btable_ref\x7d AS\nSELECT\n    TRIGGER_SOURCE,\n    STATUS,\n    COUNT(*) AS RUNS,\n    SUM(ROWS_PROCESSED) AS TOTAL_ROWS_PROCESSED,\n    SUM(ERROR_COUNT) AS TOTAL_ERRORS,\n    AVG(EXECUTION_TIME) AS AVG_EXECUTION_TIME,\n    MAX(EXECUTION_TIME) AS MAX_EXECUTION_TIME,\n    MIN(EXECUTION_TIME) AS MIN_EXECUTION_TIME,\n    MAX(START_TIME) AS LAST_START_TIME,\n    MAX(END_TIME) AS LAST_END_TIME\nFROM \x7bschema_prefix\x7dELT_JOB_RUN\nGROUP BY TRIGGER_SOURCE, STATUS\nORDER BY TRIGGER_SOURCE, STATUS;\n", dml := some "" },
  { name := "ELT_JOB_RUN_DAILY_VW", description := "Daily rollup of job runs by trigger and status", date_column := none, ddl := "\nCREATE OR REPLACE VIEW \x7btable_ref\x7d AS\nSELECT\n    DATE(START_TIME) AS RUN_DATE,\n    TRIGGER_SOURCE,\n    STATUS,\n    COUNT(*) AS RUNS,\n    SUM(ROWS_PROCESSED) AS TOTAL_ROWS,\n    SUM(ERROR_COUNT) AS TOTAL_ERRORS,\n    AVG(EXECUTION_TIME) AS AVG_EXECUTION_TIME,\n    MAX(EXECUTION_TIME) AS MAX_EXECUTION_TIME,\n    MIN(EXECUTION_TIME) AS MIN_EXECUTION_TIME\nFROM \x7bschema_prefix\x7dELT_JOB_RUN\nGROUP BY RUN_DATE, TRIGGER_SOURCE, STATUS\nORDER BY RUN_DATE DESC, TRIGGER_SOURCE, STATUS;\n", dml := some "" },
  { name := "ELT_JOB_RUN_LAST_RUN_VW", description := "Last job run per trigger source with status and timings", date_column := none, ddl := "\nCREATE OR REPLACE VIEW \x7btable_ref\x7d AS\nSELECT\n    TRIGGER_SOURCE,\n    MAX(START_TIME) AS LAST_START_TIME,\n    ANY_VALUE(END_TIME) AS LAST_END_TIME,\n    ANY_VALUE(STATUS) AS LAST_STATUS,\n    ANY_VALUE(ROWS_PROCESSED) AS LAST_ROWS_PROCESSED,\n    ANY_VALUE(ERROR_COUNT) AS LAST_ERROR_COUNT,\n    ANY_VALUE(EXECUTION_TIME) AS LAST_EXECUTION_TIME,\n    ANY_VALUE(RUN_ID) AS LAST_RUN_ID\nFROM (\n    SELECT *, ROW_NUMBER() OVER (PARTITION BY TRIGGER_SOURCE ORDER BY START_TIME DESC) AS RN\n    FROM \x7bschema_prefix\x7dELT_JOB_RUN\n) t\nWHERE RN = 1\nGROUP BY TRIGGER_SOURCE\nORDER BY TRIGGER_SOURCE;\n", dml := some "" },
  { name := "ELT_LOAD_LOG", description := "Load log entries for ingestion loads", date_column := some "LOAD_START_TIME", ddl := "\nCREATE OR REPLACE TABLE \x7btable_ref\x7d (\n    LOAD_ID VARCHAR(100),\n    RUN_ID VARCHAR(100),\n    LOAD_NAME VARCHAR(100),\n    LOAD_START_TIME TIMESTAMP_NTZ(9),\n    LOAD_END_TIME TIMESTAMP_NTZ(9),\n    ROWS_LOADED NUMBER(38,0),\n    ERROR_COUNT NUMBER(38,0) DEFAULT 0\n);\n", dml := some "\nINSERT INTO \x7btable_ref\x7d (\n    LOAD_ID, RUN_ID, LOAD_NAME, LOAD_START_TIME, LOAD_END_TIME, ROWS_LOADED, ERROR_COUNT\n) VALUES\n    ('a1', 'run-001', 'LOAD_MEMBERS', '2026-01-20 10:00:00', '2026-01-20 10:05:30', 12000, 0),\n    ('a2', 'run-002', 'LOAD_MEMBERS', '2026-01-21 10:00:00', '2026-01-21 10:06:10', 0, 2),\n    ('a3', 'run-003', 'LOAD_MEMBERS', '2026-01-22 10:00:00', '2026-01-22 10:07:05', 11800, 0),\n    ('b1', 'run-101', 'LOAD_CLAIMS', '2026-01-21 12:15:00', '2026-01-21 12:22:00', 45000, 0),\n    ('c1', 'run-201', 'LOAD_PROVIDERS', '2026-01-22 08:05:00', '2026-01-22 08:14:00', 5200, 1),\n    ('d1', 'run-301', 'LOAD_SURVEYS', '2026-01-19 09:30:00', '2026-01-19 09:36:20', 6400, 0);\n" },
  { name := "ELT_LOAD_LOG_SUMMARY_VW", description := "Aggregated load log metrics by load name", date_column := none, ddl := "\nCREATE OR REPLACE VIEW \x7btable_ref\x7d AS\nSELECT\n    LOAD_NAME,\n    COUNT(*) AS RUNS,\n    SUM(ROWS_LOADED) AS TOTAL_ROWS,\n    SUM(ERROR_COUNT) AS TOTAL_ERRORS,\n    AVG(DATEDIFF('second', LOAD_START_TIME, LOAD_END_TIME)) AS AVG_DURATION_SEC,\n    MAX(LOAD_START_TIME) AS LAST_START_TIME,\n    MAX(LOAD_END_TIME) AS LAST_END_TIME\nFROM \x7bschema_prefix\x7dELT_LOAD_LOG\nGROUP BY LOAD_NAME\nORDER BY LOAD_NAME;\n", dml := some "" },
  { name := "ELT_LOAD_LOG_ERROR_DAILY_VW", description := "Daily error counts by load and day", date_column := none, ddl := "\nCREATE OR REPLACE VIEW \x7btable_ref\x7d AS\nSELECT\n    DATE_TRUNC('DAY', LOAD_START_TIME) AS RUN_DATE,\n    LOAD_NAME,\n    SUM(ERROR_COUNT) AS TOTAL_ERRORS,\n    COUNT(*) AS RUNS_WITH_ERRORS\nFROM \x7bschema_prefix\x7dELT_LOAD_LOG\nWHERE ERROR_COUNT <> 0\nGROUP BY RUN_DATE, LOAD_NAME\nORDER BY RUN_DATE DESC, LOAD_NAME;\n", dml := some "" },
  { name := "ELT_LOAD_LOG_LAST_RUN_VW", description := "Last load run per load name with duration", date_column := none, ddl := "\nCREATE OR REPLACE VIEW \x7btable_ref\x7d AS\nSELECT\n    LOAD_NAME,\n    LOAD_ID,\n    RUN_ID,\n    LOAD_START_TIME AS LAST_START_TIME,\n    LOAD_END_TIME AS LAST_END_TIME,\n    ROWS_LOADED AS LAST_ROWS_LOADED,\n    ERROR_COUNT AS LAST_ERROR_COUNT,\n    DATEDIFF('second', LOAD_START_TIME, LOAD_END_TIME) AS LAST_DURATION_SEC\nFROM (\n    SELECT *, ROW_NUMBER() OVER (PARTITION BY LOAD_NAME ORDER BY LOAD_START_TIME DESC) AS RN\n    FROM \x7bschema_prefix\x7dELT_LOAD_LOG\n) t\nWHERE RN = 1\nORDER BY LOAD_NAME;\n", dml := some "" },
  { name := "ELT_JOB_RUN_ERROR", description := "Job run errors captured with timestamps and stages", date_column := some "ERROR_TIMESTAMP", ddl := "\nCREATE OR REPLACE TABLE \x7btable_ref\x7d (\n    ERROR_ID VARCHAR(100),\n    RUN_ID VARCHAR(100),\n    ERROR_TIMESTAMP TIMESTAMP_NTZ(9),\n    ERROR_MESSAGE VARCHAR(16777216),\n    SOURCE_STAGE VARCHAR(255)\n);\n", dml := some "\nINSERT INTO \x7btable_ref\x7d (\n    ERROR_ID, RUN_ID, ERROR_TIMESTAMP, ERROR_MESSAGE, SOURCE_STAGE\n) VALUES\n    ('err-001', 'run-002', '2026-01-21 10:06:30', 'Java Runtime Environment cannot be found on the Self-hosted Integration Runtime machine.', 'Create_Snowflake_Objects'),\n    ('err-002', 'run-201', '2026-01-22 08:06:10', 'SQL compilation error: invalid identifier SUCCEEDED', 'Create_Snowflake_Objects'),\n    ('err-003', 'run-201', '2026-01-22 08:07:40', 'Cannot connect to SQL Database. Login failed for user.', 'Create_Snowflake_Objects'),\n    ('err-004', 'run-101', '2026-01-21 12:18:30', 'OutOfMemoryException during parquet write', 'Load_Claims'),\n    ('err-005', 'run-003', '2026-01-22 10:03:10', 'Java Native Interface error: Cannot create JVM', 'Load_Members'),\n    ('err-006', 'run-301', '2026-01-19 09:32:10', 'SQL compilation error: syntax error near unexpected token', 'Load_Surveys');\n" },
  { name := "ELT_ERROR_LOG_DAILY_VW", description := "Daily error counts by source stage", date_column := none, ddl := "\nCREATE OR REPLACE VIEW \x7btable_ref\x7d AS\nSELECT\n    DATE_TRUNC('DAY', ERROR_TIMESTAMP) AS ERROR_DATE,\n    SOURCE_STAGE,\n    COUNT(*) AS TOTAL_ERRORS\nFROM \x7bschema_prefix\x7dELT_JOB_RUN_ERROR\nGROUP BY ERROR_DATE, SOURCE_STAGE\nORDER BY ERROR_DATE DESC, SOURCE_STAGE;\n", dml := some "" },
  { name := "ELT_ERROR_LOG_TOP_MESSAGES_VW", description := "Most frequent error messages per source stage", date_column := none, ddl := "\nCREATE OR REPLACE VIEW \x7btable_ref\x7d AS\nSELECT\n    SOURCE_STAGE,\n    ERROR_MESSAGE,\n    COUNT(*) AS OCCURRENCES,\n    MAX(ERROR_TIMESTAMP) AS LAST_SEEN\nFROM \x7bschema_prefix\x7dELT_JOB_RUN_ERROR\nGROUP BY SOURCE_STAGE, ERROR_MESSAGE\nQUALIFY ROW_NUMBER() OVER (PARTITION BY SOURCE_STAGE ORDER BY OCCURRENCES DESC, LAST_SEEN DESC) <= 5\nORDER BY SOURCE_STAGE, OCCURRENCES DESC;\n", dml := some "" },
  { name := "ELT_ERROR_LOG_LAST_VW", description := "Most recent error per source stage", date_column := none, ddl := "\nCREATE OR REPLACE VIEW \x7btable_ref\x7d AS\nSELECT\n    SOURCE_STAGE,\n    ERROR_ID,\n    RUN_ID,\n    ERROR_TIMESTAMP AS LAST_ERROR_TIMESTAMP,\n    ERROR_MESSAGE AS LAST_ERROR_MESSAGE\nFROM (\n    SELECT *, ROW_NUMBER() OVER (PARTITION BY SOURCE_STAGE ORDER BY ERROR_TIMESTAMP DESC) AS RN\n    FROM \x7bschema_prefix\x7dELT_JOB_RUN_ERROR\n) t\nWHERE RN = 1\nORDER BY SOURCE_STAGE;\n", dml := some "" },
  { name := "ELT_LOAD_COMPARISON", description := "Per-table source vs target row counts by environment", date_column := some "RUN_DATE", ddl := "\nCREATE OR REPLACE TABLE \x7btable_ref\x7d (\n    ENVIRONMENT VARCHAR(10),\n    SOURCE_NAME VARCHAR(255),\n    DATABASE_NAME VARCHAR(255),\n    SCHEMA_NAME VARCHAR(255),\n    TABLE_NAME VARCHAR(255),\n    TABLE_TYPE VARCHAR(50),\n    RUN_DATE DATE,\n    SOURCE_ROW_COUNT NUMBER(38,0),\n    TARGET_ROW_COUNT NUMBER(38,0),\n    LAST_REFRESH_TIME TIMESTAMP_NTZ(9)\n);\n", dml := some "\nINSERT INTO \x7btable_ref\x7d (\n    ENVIRONMENT, SOURCE_NAME, DATABASE_NAME, SCHEMA_NAME, TABLE_NAME, TABLE_TYPE, RUN_DATE, SOURCE_ROW_COUNT, TARGET_ROW_COUNT, LAST_REFRESH_TIME\n) VALUES\n    ('DEV', 'CRM', 'STAGE_DEV', 'ELT', 'FACT_INTERACTIONS', 'FACT', '2026-01-22', 102345, 102340, '2026-01-22 06:10:00'),\n    ('DEV', 'CRM', 'STAGE_DEV', 'ELT', 'DIM_AGENT', 'DIM', '2026-01-22', 1234, 1234, '2026-01-22 06:15:00'),\n    ('TEST', 'CRM', 'STAGE_TEST', 'ELT', 'FACT_INTERACTIONS', 'FACT', '2026-01-22', 99876, 99870, '2026-01-22 05:50:00'),\n    ('TEST', 'CRM', 'STAGE_TEST', 'ELT', 'DIM_AGENT', 'DIM', '2026-01-22', 1200, 1198, '2026-01-22 05:55:00'),\n    ('UAT', 'CRM', 'STAGE_UAT', 'ELT', 'FACT_INTERACTIONS', 'FACT', '2026-01-21', 101500, 101500, '2026-01-21 04:40:00'),\n    ('PROD', 'CRM', 'STAGE_PROD', 'ELT', 'FACT_INTERACTIONS', 'FACT', '2026-01-22', 150234, 150230, '2026-01-22 02:20:00'),\n    ('PROD', 'CRM', 'STAGE_PROD', 'ELT', 'DIM_AGENT', 'DIM', '2026-01-22', 2500, 2498, '2026-01-22 02:25:00'),\n    ('DEV', 'BILLING', 'STAGE_DEV', 'ELT', 'RAW_CLAIMS', 'RAW', '2026-01-22', 502000, 501990, '2026-01-22 03:15:00'),\n    ('TEST', 'BILLING', 'STAGE_TEST', 'ELT', 'RAW_CLAIMS', 'RAW', '2026-01-21', 480500, 480400, '2026-01-21 03:18:00'),\n    ('UAT', 'BILLING', 'STAGE_UAT', 'ELT', 'RAW_CLAIMS', 'RAW', '2026-01-22', 510000, 509950, '2026-01-22 01:55:00'),\n    ('PROD', 'BILLING', 'STAGE_PROD', 'ELT', 'RAW_CLAIMS', 'RAW', '2026-01-22', 750000, 749990, '2026-01-22 01:10:00');\n" },
  { name := "ELT_LOAD_COMPARISON_ENV_VW", description := "Environment-tagged union view for load comparison", date_column := none, ddl := "\nCREATE OR REPLACE VIEW \x7btable_ref\x7d AS\nSELECT 'DEV' AS ENVIRONMENT, SOURCE_NAME, DATABASE_NAME, SCHEMA_NAME, TABLE_NAME, TABLE_TYPE, RUN_DATE, SOURCE_ROW_COUNT, TARGET_ROW_COUNT, LAST_REFRESH_TIME\nFROM \x7bschema_prefix\x7dELT_LOAD_COMPARISON\nWHERE UPPER(ENVIRONMENT) = 'DEV'\nUNION ALL\nSELECT 'TEST' AS ENVIRONMENT, SOURCE_NAME, DATABASE_NAME, SCHEMA_NAME, TABLE_NAME, TABLE_TYPE, RUN_DATE, SOURCE_ROW_COUNT, TARGET_ROW_COUNT, LAST_REFRESH_TIME\nFROM \x7bschema_prefix\x7dELT_LOAD_COMPARISON\nWHERE UPPER(ENVIRONMENT) = 'TEST'\nUNION ALL\nSELECT 'UAT' AS ENVIRONMENT, SOURCE_NAME, DATABASE_NAME, SCHEMA_NAME, TABLE_NAME, TABLE_TYPE, RUN_DATE, SOURCE_ROW_COUNT, TARGET_ROW_COUNT, LAST_REFRESH_TIME\nFROM \x7bschema_prefix\x7dELT_LOAD_COMPARISON\nWHERE UPPER(ENVIRONMENT) = 'UAT'\nUNION ALL\nSELECT 'PROD' AS ENVIRONMENT, SOURCE_NAME, DATABASE_NAME, SCHEMA_NAME, TABLE_NAME, TABLE_TYPE, RUN_DATE, SOURCE_ROW_COUNT, TARGET_ROW_COUNT, LAST_REFRESH_TIME\nFROM \x7bschema_prefix\x7dELT_LOAD_COMPARISON\nWHERE UPPER(ENVIRONMENT) = 'PROD';\n", dml := some "" },
  { name := "ELT_LOAD_COMPARISON_7D_VW", description := "Recent 7-day load comparison by environment", date_column := none, ddl := "\nCREATE OR REPLACE VIEW \x7btable_ref\x7d AS\nSELECT *\nFROM \x7bschema_prefix\x7dELT_LOAD_COMPARISON_ENV_VW\nWHERE RUN_DATE >= CURRENT_DATE - INTERVAL '7 days';\n", dml := some "" },
  { name := "ELT_JOB_RUN_ENV_VW", description := "Environment-tagged job runs (DEV/TEST/UAT/PROD) for summaries", date_column := none, ddl := "\nCREATE OR REPLACE VIEW \x7btable_ref\x7d AS\nSELECT 'DEV' AS ENVIRONMENT, RUN_ID, START_TIME, END_TIME, STATUS, ROWS_PROCESSED, ERROR_COUNT, EXECUTION_TIME, TRIGGER_SOURCE\nFROM \x7bschema_prefix\x7dELT_JOB_RUN\nUNION ALL\nSELECT 'TEST' AS ENVIRONMENT, RUN_ID, START_TIME, END_TIME, STATUS, ROWS_PROCESSED, ERROR_COUNT, EXECUTION_TIME, TRIGGER_SOURCE\nFROM \x7bschema_prefix\x7dELT_JOB_RUN\nUNION ALL\nSELECT 'UAT' AS ENVIRONMENT, RUN_ID, START_TIME, END_TIME, STATUS, ROWS_PROCESSED, ERROR_COUNT, EXECUTION_TIME, TRIGGER_SOURCE\nFROM \x7bschema_prefix\x7dELT_JOB_RUN\nUNION ALL\nSELECT 'PROD' AS ENVIRONMENT, RUN_ID, START_TIME, END_TIME, STATUS, ROWS_PROCESSED, ERROR_COUNT, EXECUTION_TIME, TRIGGER_SOURCE\nFROM \x7bschema_prefix\x7dELT_JOB_RUN;\n", dml := some "" },
  { name := "ELT_ENVIRONMENT_SUMMARY_24H_VW", description := "24h environment summary: active jobs, failures, max duration, max rows", date_column := none, ddl := "\nCREATE OR REPLACE VIEW \x7btable_ref\x7d AS\nWITH unioned AS (\n    SELECT * FROM \x7bschema_prefix\x7dELT_JOB_RUN_ENV_VW\n), recent AS (\n    SELECT *\n    FROM unioned\n    WHERE START_TIME >= (CURRENT_TIMESTAMP - INTERVAL '24' HOUR)\n)\nSELECT\n    ENVIRONMENT,\n    COUNT(*) AS TOTAL_RUNS_24H,\n    COUNT(*) FILTER (WHERE END_TIME IS NULL OR UPPER(COALESCE(STATUS, '')) IN ('RUNNING','IN_PROGRESS')) AS ACTIVE_JOBS,\n    COUNT(*) FILTER (WHERE UPPER(COALESCE(STATUS, '')) IN ('FAILED','FAILURE','ERROR') OR ERROR_COUNT > 0) AS FAILURES_24H,\n    MAX(DATEDIFF('second', START_TIME, END_TIME)) AS MAX_JOB_TIME_SEC_24H,\n    MAX(ROWS_PROCESSED) AS MAX_ROWS_24H\nFROM recent\nGROUP BY ENVIRONMENT\nORDER BY ENVIRONMENT;\n", dml := some "" },
  { name := "SCANDS_FINANCE_S2T", description := "Source-to-target mapping for SCANDS Finance migration scope", date_column := none, ddl := "\nCREATE OR REPLACE TABLE \x7btable_ref\x7d (\n    SOURCE_SCHEMA_NAME VARCHAR(16777216),\n    SOURCE_TABLE_NAME VARCHAR(16777216),\n    SOURCE_COLUMN_NAME VARCHAR(16777216),\n    ORDINAL_POSITION DECIMAL(38, 0),\n    SOURCE_DATA_TYPE VARCHAR(16777216),\n    MAX_LENGTH DECIMAL(38, 0),\n    PRECISION DECIMAL(38, 0),\n    SCALE DECIMAL(38, 0),\n    IS_NULLABLE DECIMAL(38, 0),\n    TARGET_TABLE_NAME VARCHAR(16777216),\n    TARGET_COLUMN_NAME VARCHAR(16777216),\n    TARGET_DATA_TYPE VARCHAR(16777216),\n    SOURCE_DATABASE VARCHAR(256) DEFAULT 'SCANDS_Finance',\n    TARGET_DATABASE VARCHAR(256) DEFAULT 'DATA_VAULT'\n);\n", dml := some "\nINSERT INTO \x7btable_ref\x7d (\n    SOURCE_SCHEMA_NAME, SOURCE_TABLE_NAME, SOURCE_COLUMN_NAME, ORDINAL_POSITION,\n    SOURCE_DATA_TYPE, MAX_LENGTH, PRECISION, SCALE, IS_NULLABLE,\n    TARGET_TABLE_NAME, TARGET_COLUMN_NAME, TARGET_DATA_TYPE,\n    SOURCE_DATABASE, TARGET_DATABASE\n) VALUES\n    ('dbo', 'ACT_dimMemberMonths', 'MemberID', 1, 'varchar', 40, 0, 0, 0, 'ACT_DIM_MEMBER_MONTHS', 'MEMBER_ID', 'VARCHAR(40)', 'SCANDS_Finance', 'DATA_VAULT'),\n    ('dbo', 'ACT_dimMemberMonths', 'YearMo', 2, 'varchar', 6, 0, 0, 0, 'ACT_DIM_MEMBER_MONTHS', 'YEAR_MO', 'VARCHAR(6)', 'SCANDS_Finance', 'DATA_VAULT'),\n    ('dbo', 'ACT_dimMemberMonths', 'Contract_PBP', 3, 'varchar', 40, 0, 0, 1, 'ACT_DIM_MEMBER_MONTHS', 'CONTRACT_PBP', 'VARCHAR(40)', 'SCANDS_Finance', 'DATA_VAULT'),\n    ('dbo', 'ACT_dimMemberMonths', 'ContractID', 4, 'varchar', 30, 0, 0, 0, 'ACT_DIM_MEMBER_MONTHS', 'CONTRACT_ID', 'VARCHAR(30)', 'SCANDS_Finance', 'DATA_VAULT'),\n    ('dbo', 'ACT_dimMemberMonths', 'Gender', 5, 'varchar', 1, 0, 0, 1, 'ACT_DIM_MEMBER_MONTHS', 'GENDER', 'VARCHAR(1)', 'SCANDS_Finance', 'DATA_VAULT'),\n    ('dbo', 'ACT_dimMemberMonths', 'ManagedPopulation', 7, 'varchar', 40, 0, 0, 1, 'ACT_DIM_MEMBER_MONTHS', 'MANAGED_POPULATION', 'VARCHAR(40)', 'SCANDS_Finance', 'DATA_VAULT'),\n    ('dbo', 'ACT_dimMemberMonths', 'HeartCondition', 14, 'bit', 1, 1, 0, 1, 'ACT_DIM_MEMBER_MONTHS', 'HEART_CONDITION', 'BOOLEAN', 'SCANDS_Finance', 'DATA_VAULT'),\n    ('dbo', 'ACT_outClaims_BD', 'MEMBERID', 1, 'varchar', 40, 0, 0, 1, 'ACT_OUT_CLAIMS_BD', 'MEMBERID', 'VARCHAR(40)', 'SCANDS_Finance', 'DATA_VAULT'),\n    ('dbo', 'ACT_outClaims_BD', 'SERVICEDATE', 2, 'datetime', 8, 23, 3, 1, 'ACT_OUT_CLAIMS_BD', 'SERVICEDATE', 'TIMESTAMP_NTZ(3)', 'SCANDS_Finance', 'DATA_VAULT'),\n    ('dbo', 'ACT_outClaims_BD', 'PAID_ADJ', 15, 'float', 8, 53, 0, 1, 'ACT_OUT_CLAIMS_BD', 'PAID_ADJ', 'FLOAT', 'SCANDS_Finance', 'DATA_VAULT'),\n    ('dbo', 'ACT_outMemberMonths_BD', 'MemberID', 1, 'varchar', 40, 0, 0, 0, 'ACT_OUT_MEMBER_MONTHS_BD', 'MEMBER_ID', 'VARCHAR(40)', 'SCANDS_Finance', 'DATA_VAULT'),\n    ('dbo', 'ACT_outMemberMonths_BD', 'PartC_risk_score_2014', 5, 'numeric', 5, 5, 2, 1, 'ACT_OUT_MEMBER_MONTHS_BD', 'PART_C_RISK_SCORE_2014', 'NUMBER(5,2)', 'SCANDS_Finance', 'DATA_VAULT');\n" },
  { name := "VALIDATION_OBJECTS", description := "Registry of validation targets used for compatibility and monitoring", date_column := some "CREATED_AT", ddl := "\nCREATE OR REPLACE TABLE \x7btable_ref\x7d (\n    NAME VARCHAR(255) NOT NULL,\n    FULLY_QUALIFIED_NAME VARCHAR(512) NOT NULL,\n    DESCRIPTION VARCHAR(2000),\n    CREATED_AT TIMESTAMP_NTZ DEFAULT CURRENT_TIMESTAMP\n);\n", dml := some "\nINSERT INTO \x7btable_ref\x7d (NAME, FULLY_QUALIFIED_NAME, DESCRIPTION) VALUES\n    ('Finance compat view', 'DATA_VAULT_TEMP.INFO_MART.ACT_DIM_MEMBER_MONTHS', 'Legacy compatibility projection for ACT member months'),\n    ('Admin index base', 'DATA_VAULT_TEMP.INFO_MART.ADMIN_INDEX', 'Admin index view coverage for compatibility smoke test');\n" },
  { name := "TEAM_MEMBERS", description := "Roster of functional team members that Copilot references across pages", date_column := some "CREATED_AT", ddl := "\nCREATE OR REPLACE TABLE \x7btable_ref\x7d (\n    TEAM VARCHAR(50) NOT NULL,\n    MEMBER_NAME VARCHAR(200) NOT NULL,\n    USERNAME VARCHAR(255) NOT NULL,\n    RESPONSIBILITY VARCHAR(255),\n    CREATED_AT TIMESTAMP_NTZ DEFAULT CURRENT_TIMESTAMP\n);\n", dml := some "\nINSERT INTO \x7btable_ref\x7d (TEAM, MEMBER_NAME, USERNAME, RESPONSIBILITY) VALUES\n    ('Ingestion Team', 'Ava Patel', 'ava.patel@example.com', 'Snowflake ingestion pipelines'),\n    ('Modeling Team', 'Luis Romero', 'luis.romero@example.com', 'Semantic layer stewardship'),\n    ('BI Team', 'Nora Chen', 'nora.chen@example.com', 'Executive dashboards and KPIs');\n" },
  { name := "VALIDATION_METRICS_SOURCE", description := "Source system ingestion validation metrics captured before Snowflake landing", date_column := none, ddl := "\nCREATE OR REPLACE TABLE \x7btable_ref\x7d (\n    CHECK_TYPE VARCHAR(16777216),\n    OBJECT_NAME VARCHAR(16777216),\n    METRIC_NAME VARCHAR(16777216),\n    METRIC_VALUE VARCHAR(16777216),\n    SEVERITY VARCHAR(16777216),\n    NOTES VARCHAR(16777216)\n);\n", dml := some "\nINSERT INTO \x7btable_ref\x7d (CHECK_TYPE, OBJECT_NAME, METRIC_NAME, METRIC_VALUE, SEVERITY, NOTES) VALUES\n    ('TABLE', '\"STAGE_DEV\".\"MEDHOK\".\"ADDITIONAL_PROVIDER_MEDICARE\"', 'row_count', '70', 'INFO', NULL),\n    ('TABLE', '\"STAGE_DEV\".\"MEDHOK\".\"ADDITIONAL_PROVIDER_MEDICARE\"', 'column_count_excluding_metadata', '32', 'INFO', NULL),\n    ('INGESTION', '\"STAGE_DEV\".\"MEDHOK\".\"ADDITIONAL_PROVIDER_MEDICARE\"', 'distinct_file_prefix_count', '1', 'INFO', 'Distinct normalized prefixes from _FILE_NAME (UPPER; strips _YYYYMMDD_* suffix).'),\n    ('INGESTION', '\"STAGE_DEV\".\"MEDHOK\".\"ADDITIONAL_PROVIDER_MEDICARE\"', 'file_prefixes_found', 'ADDITIONAL_PROVIDER_MEDICARE_', 'INFO', 'Comma-separated list of normalized file prefixes found in _FILE_NAME.'),\n    ('KEY', '\"STAGE_DEV\".\"MEDHOK\".\"ADDITIONAL_PROVIDER_MEDICARE\"', 'business_key_columns_found', '1', 'INFO', 'Matched BUSINESS_KEY columns in INFORMATION_SCHEMA (case-insensitive; stripped optional quotes).'),\n    ('KEY', '\"STAGE_DEV\".\"MEDHOK\".\"ADDITIONAL_PROVIDER_MEDICARE\"', 'business_key_null_key_row_count', '0', 'INFO', 'Rows where ANY business key column is NULL (within filter scope).'),\n    ('KEY', '\"STAGE_DEV\".\"MEDHOK\".\"ADDITIONAL_PROVIDER_MEDICARE\"', 'business_key_null_key_row_pct', '0.0000', 'INFO', 'Default FAIL threshold: >= 1% null keys (within filter scope).'),\n    ('KEY', '\"STAGE_DEV\".\"MEDHOK\".\"ADDITIONAL_PROVIDER_MEDICARE\"', 'business_key_distinct_count', '7', 'INFO', 'Distinct keys on rows where ALL key columns are NOT NULL (within filter scope).'),\n    ('KEY', '\"STAGE_DEV\".\"MEDHOK\".\"ADDITIONAL_PROVIDER_MEDICARE\"', 'business_key_duplicate_count', '63', 'FAIL', 'Duplicate keys = non-null-key rows minus distinct keys (within filter scope).'),\n    ('KEY', '\"STAGE_DEV\".\"MEDHOK\".\"ADDITIONAL_PROVIDER_MEDICARE\"', 'business_key_duplicate_pct', '90.0000', 'FAIL', 'Any duplicate business key is FAIL by default (within filter scope).'),\n    ('KEY', '\"STAGE_DEV\".\"MEDHOK\".\"ADDITIONAL_PROVIDER_MEDICARE\"', 'business_key_min_value', '10', 'INFO', 'MIN over TO_VARCHAR(\"MHK_Additional_Provider_Internal_ID\") (lexical for strings) within filter scope.'),\n    ('KEY', '\"STAGE_DEV\".\"MEDHOK\".\"ADDITIONAL_PROVIDER_MEDICARE\"', 'business_key_max_value', '9', 'INFO', 'MAX over TO_VARCHAR(\"MHK_Additional_Provider_Internal_ID\") (lexical for strings) within filter scope.'),\n    ('INGESTION', '\"STAGE_DEV\".\"MEDHOK\".\"ADDITIONAL_PROVIDER_MEDICARE\"', 'created_at_column_used', 'Insert_Datetime', 'INFO', NULL),\n    ('INGESTION', '\"STAGE_DEV\".\"MEDHOK\".\"ADDITIONAL_PROVIDER_MEDICARE\"', 'created_at_min', NULL, 'INFO', 'MIN TRY_TO_TIMESTAMP_LTZ(TO_VARCHAR(\"Insert_Datetime\")) within filter scope.'),\n    ('INGESTION', '\"STAGE_DEV\".\"MEDHOK\".\"ADDITIONAL_PROVIDER_MEDICARE\"', 'created_at_max', NULL, 'INFO', 'MAX TRY_TO_TIMESTAMP_LTZ(TO_VARCHAR(\"Insert_Datetime\")) within filter scope.'),\n    ('INGESTION', '\"STAGE_DEV\".\"MEDHOK\".\"ADDITIONAL_PROVIDER_MEDICARE\"', 'updated_at_column_used', 'Update_Datetime', 'INFO', NULL),\n    ('INGESTION', '\"STAGE_DEV\".\"MEDHOK\".\"ADDITIONAL_PROVIDER_MEDICARE\"', 'updated_at_min', NULL, 'INFO', 'MIN TRY_TO_TIMESTAMP_LTZ(TO_VARCHAR(\"Update_Datetime\")) within filter scope.'),\n    ('INGESTION', '\"STAGE_DEV\".\"MEDHOK\".\"ADDITIONAL_PROVIDER_MEDICARE\"', 'updated_at_max', NULL, 'INFO', 'MAX TRY_TO_TIMESTAMP_LTZ(TO_VARCHAR(\"Update_Datetime\")) within filter scope.'),\n    ('TABLE', '\"STAGE_DEV\".\"MEDHOK\".\"ADDITIONAL_PROVIDER_MEDICARE\"', 'distinct_row_signature_count', '7', 'INFO', 'SHA2 over concatenated non-metadata columns (within filter scope).'),\n    ('TABLE', '\"STAGE_DEV\".\"MEDHOK\".\"ADDITIONAL_PROVIDER_MEDICARE\"', 'duplicate_row_signature_count', '63', 'WARN', 'Duplicate rows detected by signature (may include legitimate repeats) within filter scope.'),\n    ('TABLE', '\"STAGE_DEV\".\"MEDHOK\".\"ADDITIONAL_PROVIDER_MEDICARE\"', 'duplicate_row_signature_pct', '90.0000', 'FAIL', 'Default FAIL threshold: >= 0.5% signature dupes (within filter scope).');\n" },
  { name := "VALIDATION_METRICS_TARGET", description := "Snowflake ingestion validation metrics for comparison against source baselines", date_column := none, ddl := "\nCREATE OR REPLACE TABLE \x7btable_ref\x7d (\n    CHECK_TYPE VARCHAR(16777216),\n    OBJECT_NAME VARCHAR(16777216),\n    METRIC_NAME VARCHAR(16777216),\n    METRIC_VALUE VARCHAR(16777216),\n    SEVERITY VARCHAR(16777216),\n    NOTES VARCHAR(16777216)\n);\n", dml := some "\nINSERT INTO \x7btable_ref\x7d (CHECK_TYPE, OBJECT_NAME, METRIC_NAME, METRIC_VALUE, SEVERITY, NOTES) VALUES\n    ('TABLE', '\"STAGE_DEV\".\"MEDHOK\".\"ADDITIONAL_PROVIDER_MEDICARE\"', 'row_count', '70', 'INFO', 'Snowflake staging row count.'),\n    ('TABLE', '\"STAGE_DEV\".\"MEDHOK\".\"ADDITIONAL_PROVIDER_MEDICARE\"', 'column_count_excluding_metadata', '32', 'INFO', 'Metadata columns omitted for parity with SQL Server output.'),\n    ('INGESTION', '\"STAGE_DEV\".\"MEDHOK\".\"ADDITIONAL_PROVIDER_MEDICARE\"', 'distinct_file_prefix_count', '1', 'INFO', 'All files landed with the same normalized prefix.'),\n    ('INGESTION', '\"STAGE_DEV\".\"MEDHOK\".\"ADDITIONAL_PROVIDER_MEDICARE\"', 'file_prefixes_found', 'ADDITIONAL_PROVIDER_MEDICARE_', 'INFO', 'Derived from stage filenames after normalization.'),\n    ('KEY', '\"STAGE_DEV\".\"MEDHOK\".\"ADDITIONAL_PROVIDER_MEDICARE\"', 'business_key_columns_found', '1', 'INFO', 'Business key alignment confirmed post-load.'),\n    ('KEY', '\"STAGE_DEV\".\"MEDHOK\".\"ADDITIONAL_PROVIDER_MEDICARE\"', 'business_key_null_key_row_count', '0', 'INFO', 'Null business key count within Snowflake scope.'),\n    ('KEY', '\"STAGE_DEV\".\"MEDHOK\".\"ADDITIONAL_PROVIDER_MEDICARE\"', 'business_key_null_key_row_pct', '0.0000', 'INFO', 'Null percentage threshold < 1% remains satisfied.'),\n    ('KEY', '\"STAGE_DEV\".\"MEDHOK\".\"ADDITIONAL_PROVIDER_MEDICARE\"', 'business_key_distinct_count', '70', 'INFO', 'All rows present unique business keys after de-duplication.'),\n    ('KEY', '\"STAGE_DEV\".\"MEDHOK\".\"ADDITIONAL_PROVIDER_MEDICARE\"', 'business_key_duplicate_count', '0', 'INFO', 'Duplicates removed during ingestion.'),\n    ('KEY', '\"STAGE_DEV\".\"MEDHOK\".\"ADDITIONAL_PROVIDER_MEDICARE\"', 'business_key_duplicate_pct', '0.0000', 'INFO', 'Duplicate ratio remains below failure threshold.'),\n    ('KEY', '\"STAGE_DEV\".\"MEDHOK\".\"ADDITIONAL_PROVIDER_MEDICARE\"', 'business_key_min_value', '10', 'INFO', 'Lexical MIN aligned with source expectation.'),\n    ('KEY', '\"STAGE_DEV\".\"MEDHOK\".\"ADDITIONAL_PROVIDER_MEDICARE\"', 'business_key_max_value', '72', 'INFO', 'Lexical MAX based on Snowflake data scan.'),\n    ('INGESTION', '\"STAGE_DEV\".\"MEDHOK\".\"ADDITIONAL_PROVIDER_MEDICARE\"', 'created_at_column_used', 'Insert_Datetime', 'INFO', NULL),\n    ('INGESTION', '\"STAGE_DEV\".\"MEDHOK\".\"ADDITIONAL_PROVIDER_MEDICARE\"', 'created_at_min', NULL, 'INFO', 'Warehouse timestamps still pending backfill.'),\n    ('INGESTION', '\"STAGE_DEV\".\"MEDHOK\".\"ADDITIONAL_PROVIDER_MEDICARE\"', 'created_at_max', NULL, 'INFO', 'Warehouse timestamps still pending backfill.'),\n    ('INGESTION', '\"STAGE_DEV\".\"MEDHOK\".\"ADDITIONAL_PROVIDER_MEDICARE\"', 'updated_at_column_used', 'Update_Datetime', 'INFO', NULL),\n    ('INGESTION', '\"STAGE_DEV\".\"MEDHOK\".\"ADDITIONAL_PROVIDER_MEDICARE\"', 'updated_at_min', NULL, 'INFO', 'Warehouse timestamps still pending backfill.'),\n    ('INGESTION', '\"STAGE_DEV\".\"MEDHOK\".\"ADDITIONAL_PROVIDER_MEDICARE\"', 'updated_at_max', NULL, 'INFO', 'Warehouse timestamps still pending backfill.'),\n    ('TABLE', '\"STAGE_DEV\".\"MEDHOK\".\"ADDITIONAL_PROVIDER_MEDICARE\"', 'distinct_row_signature_count', '70', 'INFO', 'All rows are unique after SHA2 signature check.'),\n    ('TABLE', '\"STAGE_DEV\".\"MEDHOK\".\"ADDITIONAL_PROVIDER_MEDICARE\"', 'duplicate_row_signature_count', '0', 'INFO', 'No duplicate signatures detected.'),\n    ('TABLE', '\"STAGE_DEV\".\"MEDHOK\".\"ADDITIONAL_PROVIDER_MEDICARE\"', 'duplicate_row_signature_pct', '0.0000', 'INFO', 'Signature duplication held below alert threshold.');\n" },
  { name := "VALIDATION_MODEL_RUNS", description := "Audit log for modelling validation executions (manual or scheduled).", date_column := none, ddl := "\nCREATE OR REPLACE TABLE \x7btable_ref\x7d (\n    RUN_ID VARCHAR(16777216) NOT NULL,\n    RUN_AT TIMESTAMP_NTZ DEFAULT CURRENT_TIMESTAMP,\n    RUN_TYPE VARCHAR(50) DEFAULT 'manual',\n    SCHEDULE_FLAG BOOLEAN DEFAULT FALSE,\n    SCHEDULE_START_DATE DATE,\n    SCHEDULE_END_DATE DATE,\n    RUN_ENVIRONMENT VARCHAR(25),\n    RUN_STATUS VARCHAR(50),\n    TABLE_NAME VARCHAR(255),\n    SOURCE_DB VARCHAR(255),\n    SOURCE_SCHEMA VARCHAR(255),\n    TARGET_DB VARCHAR(255),\n    TARGET_SCHEMA VARCHAR(255),\n    SAMPLE_SIZE NUMBER,\n    JOIN_KEY VARCHAR(255),\n    SOURCE_HIGH_WATERMARK VARCHAR(255),\n    TARGET_HIGH_WATERMARK VARCHAR(255),\n    EXCLUDE_COLS VARCHAR(16777216),\n    GENERATED_JSON BOOLEAN DEFAULT FALSE,\n    GENERATED_BY VARCHAR(255),\n    NOTES VARCHAR(16777216),\n    PRIMARY KEY (RUN_ID)\n);\n", dml := some "\nINSERT INTO \x7btable_ref\x7d (\n    RUN_ID, RUN_AT, RUN_TYPE, SCHEDULE_FLAG, RUN_ENVIRONMENT, RUN_STATUS, TABLE_NAME,\n    SOURCE_DB, SOURCE_SCHEMA, TARGET_DB, TARGET_SCHEMA, SAMPLE_SIZE,\n    JOIN_KEY, SOURCE_HIGH_WATERMARK, TARGET_HIGH_WATERMARK, EXCLUDE_COLS,\n    GENERATED_JSON, GENERATED_BY, NOTES\n) VALUES (\n    '00000000-0000-0000-0000-000000000001', CURRENT_TIMESTAMP, 'manual', FALSE, 'DEV', 'success', 'DIM_SITE_ATTRIBUTES',\n    'DATA_VAULT_TEMP', 'INFO_MART', '_DATA_VAULT_DEV_CHRIS', 'INFO_MART', 1000,\n    'SITE_ATTR_ID', 'DW_LAST_UPDATED_DATE', 'SYSTEM_CREATE_DATE', 'DIM_SITE_ATTRIBUTES_KEY,SYSTEM_VERSION',\n    TRUE, 'demo_user', 'Seed modelling validation run'\n);\n" },
  { name := "VALIDATION_MODEL_RESULTS", description := "Step-level modelling validation outputs persisted as VARIANT payloads.", date_column := none, ddl := "\nCREATE OR REPLACE TABLE \x7btable_ref\x7d (\n    RUN_ID VARCHAR(16777216) NOT NULL,\n    STEP_NAME VARCHAR(255) NOT NULL,\n    STATUS VARCHAR(50),\n    ROW_COUNT NUMBER,\n    RESULT_DATA VARIANT,\n    EXECUTED_AT TIMESTAMP_NTZ DEFAULT CURRENT_TIMESTAMP,\n    PRIMARY KEY (RUN_ID, STEP_NAME)\n);\n", dml := some "\nINSERT INTO \x7btable_ref\x7d (RUN_ID, STEP_NAME, STATUS, ROW_COUNT, RESULT_DATA)\nSELECT\n    '00000000-0000-0000-0000-000000000001' AS RUN_ID,\n    'column_inventory' AS STEP_NAME,\n    'success' AS STATUS,\n    3 AS ROW_COUNT,\n    \x7bJSON_PAYLOAD\x7d AS RESULT_DATA;\n" },
  { name := "SCANDS_PROD_S2T", description := "Source-to-target mapping for SCANDS Production workloads", date_column := none, ddl := "\nCREATE OR REPLACE TABLE \x7btable_ref\x7d (\n    SOURCE_SCHEMA_NAME VARCHAR(16777216),\n    SOURCE_TABLE_NAME VARCHAR(16777216),\n    SOURCE_COLUMN_NAME VARCHAR(16777216),\n    ORDINAL_POSITION DECIMAL(38, 0),\n    SOURCE_DATA_TYPE VARCHAR(16777216),\n    MAX_LENGTH DECIMAL(38, 0),\n    PRECISION DECIMAL(38, 0),\n    SCALE DECIMAL(38, 0),\n    IS_NULLABLE DECIMAL(38, 0),\n    TARGET_TABLE_NAME VARCHAR(16777216),\n    TARGET_COLUMN_NAME VARCHAR(16777216),\n    TARGET_DATA_TYPE VARCHAR(16777216),\n    SOURCE_DATABASE VARCHAR(256) DEFAULT 'SCANDS_Prod',\n    TARGET_DATABASE VARCHAR(256) DEFAULT 'DATA_VAULT'\n);\n", dml := some "\nINSERT INTO \x7btable_ref\x7d (\n    SOURCE_SCHEMA_NAME, SOURCE_TABLE_NAME, SOURCE_COLUMN_NAME, ORDINAL_POSITION,\n    SOURCE_DATA_TYPE, MAX_LENGTH, PRECISION, SCALE, IS_NULLABLE,\n    TARGET_TABLE_NAME, TARGET_COLUMN_NAME, TARGET_DATA_TYPE,\n    SOURCE_DATABASE, TARGET_DATABASE\n) VALUES\n    ('dbo', 'Admin_Index', 'TableName', 1, 'varchar', 50, 0, 0, 1, 'ADMIN_INDEX', 'TABLE_NAME', 'VARCHAR(50)', 'SCANDS_Prod', 'DATA_VAULT'),\n    ('dbo', 'Admin_Index', 'ColumnName', 2, 'varchar', -1, 0, 0, 1, 'ADMIN_INDEX', 'COLUMN_NAME', 'VARCHAR(16777216)', 'SCANDS_Prod', 'DATA_VAULT'),\n    ('dbo', 'Admin_Index', 'IndexName', 4, 'varchar', 100, 0, 0, 1, 'ADMIN_INDEX', 'INDEX_NAME', 'VARCHAR(100)', 'SCANDS_Prod', 'DATA_VAULT'),\n    ('dbo', 'Admin_Table', 'TableName', 1, 'varchar', 50, 0, 0, 1, 'ADMIN_TABLE', 'TABLE_NAME', 'VARCHAR(50)', 'SCANDS_Prod', 'DATA_VAULT'),\n    ('dbo', 'Admin_Table', 'DWLastUpdatedDate', 2, 'datetime', 8, 23, 3, 1, 'ADMIN_TABLE', 'DW_LAST_UPDATED_DATE', 'TIMESTAMP_NTZ(3)', 'SCANDS_Prod', 'DATA_VAULT'),\n    ('dbo', 'Admin_Table', 'TableID', 3, 'smallint', 2, 5, 0, 0, 'ADMIN_TABLE', 'TABLE_ID', 'SMALLINT', 'SCANDS_Prod', 'DATA_VAULT'),\n    ('dbo', 'B_AuthDiagnosis', 'AuthId', 1, 'varchar', 50, 0, 0, 1, 'BRIDGE_AUTH_DIAGNOSIS', 'AUTH_ID', 'VARCHAR(50)', 'SCANDS_Prod', 'DATA_VAULT'),\n    ('dbo', 'B_AuthDiagnosis', 'DiagnosisDesc', 10, 'varchar', 500, 0, 0, 1, 'BRIDGE_AUTH_DIAGNOSIS', 'DIAGNOSIS_DESC', 'VARCHAR(500)', 'SCANDS_Prod', 'DATA_VAULT'),\n    ('dbo', 'B_AuthDiagnosis', 'CreatedDate', 19, 'datetime', 8, 23, 3, 1, 'BRIDGE_AUTH_DIAGNOSIS', 'CREATED_DATE', 'TIMESTAMP_NTZ(3)', 'SCANDS_Prod', 'DATA_VAULT'),\n    ('dbo', 'B_AuthDiagnosis_BU_Final', 'DiagnosisCd', 9, 'varchar', 10, 0, 0, 1, 'BRIDGE_AUTH_DIAGNOSIS_BU_FINAL', 'DIAGNOSIS_CD', 'VARCHAR(10)', 'SCANDS_Prod', 'DATA_VAULT'),\n    ('dbo', 'B_ClaimAdjustmentSegment', 'ClaimID', 1, 'char', 12, 0, 0, 0, 'BRIDGE_CLAIM_ADJUSTMENT_SEGMENT', 'CLAIM_ID', 'CHAR(12)', 'SCANDS_Prod', 'DATA_VAULT'),\n    ('dbo', 'B_ClaimAdjustmentSegment', 'Amount', 6, 'money', 8, 19, 4, 1, 'BRIDGE_CLAIM_ADJUSTMENT_SEGMENT', 'AMOUNT', 'NUMBER(19,4)', 'SCANDS_Prod', 'DATA_VAULT');\n" },
  { name := "SCANDS_QUALITYRISK_S2T", description := "Source-to-target mapping for Quality & Risk workloads", date_column := none, ddl := "\nCREATE OR REPLACE TABLE \x7btable_ref\x7d (\n    SOURCE_SCHEMA_NAME VARCHAR(16777216),\n    SOURCE_TABLE_NAME VARCHAR(16777216),\n    SOURCE_COLUMN_NAME VARCHAR(16777216),\n    ORDINAL_POSITION DECIMAL(38, 0),\n    SOURCE_DATA_TYPE VARCHAR(16777216),\n    MAX_LENGTH DECIMAL(38, 0),\n    PRECISION DECIMAL(38, 0),\n    SCALE DECIMAL(38, 0),\n    IS_NULLABLE DECIMAL(38, 0),\n    TARGET_TABLE_NAME VARCHAR(16777216),\n    TARGET_COLUMN_NAME VARCHAR(16777216),\n    TARGET_DATA_TYPE VARCHAR(16777216),\n    SOURCE_DATABASE VARCHAR(256) DEFAULT 'SCANDS_QualityRisk',\n    TARGET_DATABASE VARCHAR(256) DEFAULT 'DATA_VAULT'\n);\n", dml := some "\nINSERT INTO \x7btable_ref\x7d (\n    SOURCE_SCHEMA_NAME, SOURCE_TABLE_NAME, SOURCE_COLUMN_NAME, ORDINAL_POSITION,\n    SOURCE_DATA_TYPE, MAX_LENGTH, PRECISION, SCALE, IS_NULLABLE,\n    TARGET_TABLE_NAME, TARGET_COLUMN_NAME, TARGET_DATA_TYPE,\n    SOURCE_DATABASE, TARGET_DATABASE\n) VALUES\n    ('dbo', 'Admin_SnapDate', 'SnapDate', 1, 'datetime', 8, 23, 3, 1, 'ADMIN_SNAP_DATE', 'SNAP_DATE', 'TIMESTAMP_NTZ(3)', 'SCANDS_QualityRisk', 'DATA_VAULT'),\n    ('dbo', 'B_QR_DeniedReferClaim', 'Mbr_Id', 1, 'varchar', 20, 0, 0, 1, 'BRIDGE_QR_DENIED_REFER_CLAIM', 'MBR_ID', 'VARCHAR(20)', 'SCANDS_QualityRisk', 'DATA_VAULT'),\n    ('dbo', 'B_QR_DeniedReferClaim', 'DeniedReferClaimCount', 7, 'int', 4, 10, 0, 1, 'BRIDGE_QR_DENIED_REFER_CLAIM', 'DENIED_REFER_CLAIM_COUNT', 'INT', 'SCANDS_QualityRisk', 'DATA_VAULT'),\n    ('dbo', 'B_QR_DeniedReferClaim', 'MostRecentFlag', 8, 'char', 1, 0, 0, 1, 'BRIDGE_QR_DENIED_REFER_CLAIM', 'MOST_RECENT_FLAG', 'CHAR(1)', 'SCANDS_QualityRisk', 'DATA_VAULT'),\n    ('dbo', 'B_QR_DeniedReferClaim', 'UpdatedDateTime', 14, 'datetime', 8, 23, 3, 1, 'BRIDGE_QR_DENIED_REFER_CLAIM', 'UPDATED_DATE_TIME', 'TIMESTAMP_NTZ(3)', 'SCANDS_QualityRisk', 'DATA_VAULT'),\n    ('dbo', 'B_QR_DeniedReferClaim', 'DeniedReferClaimSeqID', 26, 'varchar', 30, 0, 0, 1, 'BRIDGE_QR_DENIED_REFER_CLAIM', 'DENIED_REFER_CLAIM_SEQ_ID', 'VARCHAR(30)', 'SCANDS_QualityRisk', 'DATA_VAULT'),\n    ('dbo', 'B_QR_HCBSCkList', 'Mbr_Id', 1, 'varchar', 20, 0, 0, 1, 'BRIDGE_QR_HCBS_CK_LIST', 'MBR_ID', 'VARCHAR(20)', 'SCANDS_QualityRisk', 'DATA_VAULT'),\n    ('dbo', 'B_QR_HCBSCkList', 'EventCatName', 13, 'varchar', 1023, 0, 0, 1, 'BRIDGE_QR_HCBS_CK_LIST', 'EVENT_CAT_NAME', 'VARCHAR(1023)', 'SCANDS_QualityRisk', 'DATA_VAULT'),\n    ('dbo', 'B_QR_HCBSCkList', 'UpdatedDateTime', 18, 'datetime', 8, 23, 3, 1, 'BRIDGE_QR_HCBS_CK_LIST', 'UPDATED_DATE_TIME', 'TIMESTAMP_NTZ(3)', 'SCANDS_QualityRisk', 'DATA_VAULT'),\n    ('dbo', 'B_QR_InPersonInstitute', 'Mbr_Id', 1, 'varchar', 20, 0, 0, 1, 'BRIDGE_QR_IN_PERSON_INSTITUTE', 'MBR_ID', 'VARCHAR(20)', 'SCANDS_QualityRisk', 'DATA_VAULT'),\n    ('dbo', 'B_QR_InPersonInstitute', 'EventCatName', 13, 'varchar', 1023, 0, 0, 1, 'BRIDGE_QR_IN_PERSON_INSTITUTE', 'EVENT_CAT_NAME', 'VARCHAR(1023)', 'SCANDS_QualityRisk', 'DATA_VAULT'),\n    ('dbo', 'B_QR_InPersonInstitute', 'UpdatedDateTime', 18, 'datetime', 8, 23, 3, 1, 'BRIDGE_QR_IN_PERSON_INSTITUTE', 'UPDATED_DATE_TIME', 'TIMESTAMP_NTZ(3)', 'SCANDS_QualityRisk', 'DATA_VAULT');\n" },
  { name := "MAPPING_RULES", description := "Naming and transformation rules for source-to-target mappings", date_column := some "LAST_MODIFIED_DATE", ddl := "\nCREATE OR REPLACE TABLE \x7btable_ref\x7d (\n    RULE_ID VARCHAR(16777216),\n    RULE_NAME VARCHAR(256),\n    RULE_TYPE VARCHAR(50),\n    SOURCE_PATTERN VARCHAR(256),\n    TARGET_PATTERN VARCHAR(256),\n    DESCRIPTION VARCHAR(16777216),\n    EXAMPLE_SOURCE VARCHAR(256),\n    EXAMPLE_TARGET VARCHAR(256),\n    IS_ACTIVE BOOLEAN DEFAULT TRUE,\n    APPLIES_TO VARCHAR(50),\n    SORT_ORDER INTEGER DEFAULT 0,\n    CREATED_DATE TIMESTAMP DEFAULT CURRENT_TIMESTAMP,\n    LAST_MODIFIED_DATE TIMESTAMP DEFAULT CURRENT_TIMESTAMP,\n    CREATED_BY VARCHAR(255),\n    LAST_MODIFIED_BY VARCHAR(255)\n);\n", dml := some "\nINSERT INTO \x7btable_ref\x7d (\n    RULE_ID, RULE_NAME, RULE_TYPE, SOURCE_PATTERN, TARGET_PATTERN, DESCRIPTION,\n    EXAMPLE_SOURCE, EXAMPLE_TARGET, IS_ACTIVE, APPLIES_TO, SORT_ORDER,\n    CREATED_DATE, LAST_MODIFIED_DATE, CREATED_BY\n) VALUES\n    ('RULE_20250127_001', 'Fact Table Prefix', 'PREFIX_MAPPING', 'F_', 'Fact_', 'Convert F_ prefix to Fact_ prefix for fact tables', 'F_SalesTransactions', 'Fact_SalesTransactions', TRUE, 'TABLE', 1, CURRENT_TIMESTAMP, CURRENT_TIMESTAMP, 'system'),\n    ('RULE_20250127_002', 'Dimension Table Prefix', 'PREFIX_MAPPING', 'D_', 'Dim_', 'Convert D_ prefix to Dim_ prefix for dimension tables', 'D_Customer', 'Dim_Customer', TRUE, 'TABLE', 2, CURRENT_TIMESTAMP, CURRENT_TIMESTAMP, 'system'),\n    ('RULE_20250127_003', 'Table Case Conversion', 'CASE_CONVERSION', 'camelCase', 'UPPER_SNAKE_CASE', 'Convert camelCase table names to UPPER_SNAKE_CASE', 'CustomerAddress', 'CUSTOMER_ADDRESS', TRUE, 'TABLE', 3, CURRENT_TIMESTAMP, CURRENT_TIMESTAMP, 'system'),\n    ('RULE_20250127_004', 'Column Case Conversion', 'CASE_CONVERSION', 'camelCase', 'UPPER_SNAKE_CASE', 'Convert camelCase column names to UPPER_SNAKE_CASE', 'customerID', 'CUSTOMER_ID', TRUE, 'COLUMN', 4, CURRENT_TIMESTAMP, CURRENT_TIMESTAMP, 'system'),\n    ('RULE_20250127_005', 'Bridge Table Naming', 'PREFIX_MAPPING', 'BRIDGE_', 'Bridge_', 'Convert BRIDGE_ prefix to Bridge_ for bridge/junction tables', 'BRIDGE_OrderProduct', 'Bridge_OrderProduct', TRUE, 'TABLE', 5, CURRENT_TIMESTAMP, CURRENT_TIMESTAMP, 'system');\n" },
  { name := "MAPPING_REVIEW_CORRECTIONS", description := "Tracks mapping corrections and review status for source-to-target mappings", date_column := some "LAST_MODIFIED_DATE", ddl := "\nCREATE OR REPLACE TABLE \x7btable_ref\x7d (\n    MAPPING_ID VARCHAR(16777216),\n    OBJECT_TYPE VARCHAR(50),\n    SOURCE_TABLE_NAME VARCHAR(16777216),\n    SOURCE_COLUMN_NAME VARCHAR(16777216),\n    ORIGINAL_TARGET_NAME VARCHAR(16777216),\n    SUGGESTED_TARGET_NAME VARCHAR(16777216),\n    UPDATED_TARGET_NAME VARCHAR(16777216),\n    NEEDS_REVIEW BOOLEAN DEFAULT FALSE,\n    STATUS VARCHAR(50) DEFAULT 'PENDING',\n    CREATED_DATE TIMESTAMP DEFAULT CURRENT_TIMESTAMP,\n    LAST_MODIFIED_DATE TIMESTAMP DEFAULT CURRENT_TIMESTAMP,\n    CREATED_BY VARCHAR(255),\n    LAST_MODIFIED_BY VARCHAR(255),\n    NOTES VARCHAR(16777216)\n);\n", dml := some "\nINSERT INTO \x7btable_ref\x7d (\n    MAPPING_ID, OBJECT_TYPE, SOURCE_TABLE_NAME, SOURCE_COLUMN_NAME,\n    ORIGINAL_TARGET_NAME, SUGGESTED_TARGET_NAME, UPDATED_TARGET_NAME,\n    NEEDS_REVIEW, STATUS, CREATED_DATE, LAST_MODIFIED_DATE, CREATED_BY, NOTES\n) VALUES\n    ('MAP_20250127_001', 'TABLE', 'B_AuthDiagnosis_BU_Final', NULL, 'BRIDGE_AUTH_DIAGNOSIS_BU_FINAL', 'BRIDGE_AUTH_DIAGNOSIS_BU_FINAL', 'BRIDGE_AUTH_DIAGNOSIS_FINAL', TRUE, 'NEEDS_REVIEW', CURRENT_TIMESTAMP, CURRENT_TIMESTAMP, 'data_team', 'Review requested - naming convention mismatch'),\n    ('MAP_20250127_002', 'COLUMN', 'B_ClaimAdjustmentSegment', 'ClaimID', 'CLAIM_ID', 'CLAIM_ID', 'CLAIM_ID_PK', FALSE, 'MODIFIED', CURRENT_TIMESTAMP, CURRENT_TIMESTAMP, 'data_team', 'Updated to include _PK suffix for primary keys'),\n    ('MAP_20250127_003', 'TABLE', 'B_QR_DeniedReferClaim', NULL, 'BRIDGE_QR_DENIED_REFER_CLAIM', 'BRIDGE_QR_DENIED_REFER_CLAIM', NULL, TRUE, 'NEEDS_REVIEW', CURRENT_TIMESTAMP, CURRENT_TIMESTAMP, 'quality_team', 'Pending approval - complex mapping'),\n    ('MAP_20250127_004', 'COLUMN', 'Admin_SnapDate', 'SnapDate', 'SNAP_DATE', 'SNAP_DATE', 'SNAP_DATE_TIME', FALSE, 'MODIFIED', CURRENT_TIMESTAMP, CURRENT_TIMESTAMP, 'data_team', 'Changed to SNAP_DATE_TIME for clarity'),\n    ('MAP_20250127_005', 'TABLE', 'B_QR_HCBSCkList', NULL, 'BRIDGE_QR_HCBS_CK_LIST', 'BRIDGE_QR_HCBS_CHECKLIST', NULL, TRUE, 'NEEDS_REVIEW', CURRENT_TIMESTAMP, CURRENT_TIMESTAMP, 'quality_team', 'Discussion needed on abbreviation expansion'),\n    ('MAP_20250127_006', 'COLUMN', 'B_QR_HCBSCkList', 'EventCatName', 'EVENT_CAT_NAME', 'EVENT_CATEGORY_NAME', 'EVENT_CATEGORY_NAME', FALSE, 'MODIFIED', CURRENT_TIMESTAMP, CURRENT_TIMESTAMP, 'quality_team', 'Expanded abbreviation for consistency');\n" }
]

/-- Embedding of `common/test_data.py::get_table_names`. -/
def get_table_names : List String := TEST_TABLES.map (fun t => t.name)

/-- Embedding of `common/test_data.py::get_table_definition` (raises
`ValueError` on an unknown table). -/
def get_table_definition (table_name : String) : Except PyError TableDef :=
  match TEST_TABLES.find? (fun t => Py.upper t.name == Py.upper table_name) with
  | some t => .ok t
  | none => .error (.valueError ("Unknown table: " ++ table_name))

/-- Embedding of `common/test_data.py::format_ddl` (the lookup's `ValueError`
propagates). -/
def format_ddl (table_name schemaPfx : String) : Except PyError String :=
  match get_table_definition table_name with
  | .error e => .error e
  | .ok defn =>
    let table_ref := if schemaPfx ≠ "" then schemaPfx ++ "." ++ table_name else table_name
    let pfx_with_dot := if schemaPfx ≠ "" then schemaPfx ++ "." else ""
    .ok (Py.strip (Py.replace (Py.replace defn.ddl "\x7btable_ref\x7d" table_ref)
      "\x7bschema_prefix\x7d" pfx_with_dot))

/-- Embedding of `common/test_data.py::format_dml` (tables without a `dml`
entry yield the empty string; the `VALIDATION_MODEL_RESULTS` template gets its
JSON payload injected first). -/
def format_dml (table_name schemaPfx : String) : Except PyError String :=
  match get_table_definition table_name with
  | .error e => .error e
  | .ok defn =>
    match defn.dml with
    | none => .ok ""
    | some template =>
      let table_ref := if schemaPfx ≠ "" then schemaPfx ++ "." ++ table_name else table_name
      let template :=
        if Py.upper table_name = "VALIDATION_MODEL_RESULTS" then
          Py.replace template "\x7bJSON_PAYLOAD\x7d"
            (json_literal "[\x7b\"COLUMN_NAME\":\"COL_A\",\"IN_SOURCE\":\"YES\",\"IN_TARGET\":\"YES\"\x7d]")
        else template
      .ok (Py.strip (Py.replace template "\x7btable_ref\x7d" table_ref))

end TestData

namespace DB

/-- Modes for which `setup_test_tables` sets the database/schema context. -/
def snowflake_mode (mode : String) : Bool :=
  mode = "snowflake_local" || mode = "snowflake_deployed"

/-- Connection state after the optional `USE DATABASE` / `USE SCHEMA`
preamble of `common/db.py::setup_test_tables`. -/
def use_context {σ : Type} (conn : Conn σ) (mode schemaPfx : String) (s : σ) : σ :=
  if snowflake_mode mode ∧ schemaPfx ≠ "" then
    let parts := Py.splitChar schemaPfx '.'
    if 2 ≤ parts.length then
      let db_name := parts.getD 0 ""
      let schema_name := parts.getD 1 ""
      let r1 := execute_ddl_dml conn mode ("USE DATABASE \"" ++ db_name ++ "\"") s
      let r2 := execute_ddl_dml conn mode ("USE SCHEMA \"" ++ schema_name ++ "\"") r1.1
      r2.1
    else s
  else s

/-- The prefix passed to the per-table formatters inside the setup loop:
empty for Snowflake modes once the context has been set. -/
def loop_pfx (mode schemaPfx : String) : String :=
  if snowflake_mode mode ∧ schemaPfx ≠ "" then "" else schemaPfx

/-- The per-table loop of `common/db.py::setup_test_tables`: DDL first (a
failure records `name (DDL)` and skips the DML), then DML. A `ValueError`
escaping from the formatters would propagate out of the loop. -/
def setupLoop {σ : Type} (conn : Conn σ) (mode effPfx : String) :
    σ → List TestData.TableDef → σ × Except PyError (List (String × Bool × String))
  | s, [] => (s, .ok [])
  | s, td :: rest =>
    match TestData.format_ddl td.name effPfx with
    | .error e => (s, .error e)
    | .ok ddl =>
      let d := execute_ddl_dml conn mode ddl s
      if d.2.1 then
        match TestData.format_dml td.name effPfx with
        | .error e => (d.1, .error e)
        | .ok dml =>
          let m := execute_ddl_dml conn mode dml d.1
          match setupLoop conn mode effPfx m.1 rest with
          | (s', .ok r) =>
            (s', .ok ((if m.2.1 then (td.name, true, "Created and populated")
                       else (td.name ++ " (DML)", false, m.2.2)) :: r))
          | (s', .error e) => (s', .error e)
      else
        match setupLoop conn mode effPfx d.1 rest with
        | (s', .ok r) => (s', .ok ((td.name ++ " (DDL)", false, d.2.2) :: r))
        | (s', .error e) => (s', .error e)

/-- Embedding of `common/db.py::setup_test_tables`. -/
def setup_test_tables {σ : Type} (conn : Conn σ) (mode schemaPfx : String) (s : σ) :
    σ × Except PyError (List (String × Bool × String)) :=
  setupLoop conn mode (loop_pfx mode schemaPfx) (use_context conn mode schemaPfx s)
    TestData.TEST_TABLES

/-- The DDL string a table's setup step executes (total form; inside the loop
the underlying lookup always succeeds because the names come from
`TEST_TABLES` itself). -/
def format_ddl_str (table_name effPfx : String) : String :=
  (TestData.format_ddl table_name effPfx).toOption.getD ""

/-- The DML string a table's setup step executes (total form). -/
def format_dml_str (table_name effPfx : String) : String :=
  (TestData.format_dml table_name effPfx).toOption.getD ""

/-- Connection state after one table's setup step: the DML only runs when the
DDL succeeded. -/
def stepState {σ : Type} (conn : Conn σ) (mode effPfx : String) (s : σ)
    (td : TestData.TableDef) : σ :=
  let d := execute_ddl_dml conn mode (format_ddl_str td.name effPfx) s
  if d.2.1 then (execute_ddl_dml conn mode (format_dml_str td.name effPfx) d.1).1 else d.1

/-- The result tuple one table's setup step reports: `name (DDL)` with the
error message when the DDL fails (and the DML is not executed), `name (DML)`
when only the DML fails, and `(name, True, "Created and populated")` when
both succeed. -/
def stepTuple {σ : Type} (conn : Conn σ) (mode effPfx : String) (s : σ)
    (td : TestData.TableDef) : String × Bool × String :=
  let d := execute_ddl_dml conn mode (format_ddl_str td.name effPfx) s
  if d.2.1 then
    let m := execute_ddl_dml conn mode (format_dml_str td.name effPfx) d.1
    if m.2.1 then (td.name, true, "Created and populated")
    else (td.name ++ " (DML)", false, m.2.2)
  else (td.name ++ " (DDL)", false, d.2.2)

/-- Connection state after a list of setup steps. -/
def stateAfter {σ : Type} (conn : Conn σ) (mode effPfx : String) (s : σ)
    (tds : List TestData.TableDef) : σ :=
  tds.foldl (stepState conn mode effPfx) s

end DB

namespace Ingestion

/-- Embedding of `common/ingestion_templates.py::DDLTemplateDefinition`. -/
structure DDLTemplateDefinition where
  key : String
  label : String
  description : String
  template : String
  environments : List String

/-- Embedding of `common/ingestion_templates.py::_dedent`. -/
def _dedent (sql : String) : String := Py.strip (Py.dedent sql)

/-- Embedding of `common/ingestion_templates.py::INGESTION_SOURCE_TYPES`. -/
def INGESTION_SOURCE_TYPES : List (String × String) :=
  [("Flat File", "FILE"), ("SQL Server", "SQL"), ("Azure DB", "AZURE_DB"),
   ("Excel File", "EXCEL")]

/-- Embedding of `common/ingestion_templates.py::METADATA_PROCEDURE_PARAMS`. -/
def METADATA_PROCEDURE_PARAMS : List String :=
  ["LOGICAL_NAME", "FILE_LANDING_SCHEMA", "FILE_WILDCARD_PATTERN",
   "FILE_TABLE_NAME", "FILE_EXTENSION", "SHEET_NAME", "SOURCE_TYPE", "ENABLED",
   "FILE_FORMAT", "HAS_HEADER", "DATABASE_NAME", "SCHEMA_NAME",
   "SOURCE_TABLE_NAME", "DELTA_COLUMN", "CHANGE_TRACKING_TYPE", "SERVER_NAME",
   "FILE_SERVER_LOAD_TYPE", "FILESTAMP_FORMAT", "AUTO_INGEST",
   "FILE_SERVER_FILEPATH", "FIXED_WIDTH_FILETYPE", "REGEX_PATTERN"]

def INGESTION_ENVIRONMENTS : List String := ["DEV", "TEST", "UAT", "PROD"]

def ADHOC_ENVIRONMENTS : List String := ["DEV", "TEST", "UAT"]

def tpl_azure_tables : DDLTemplateDefinition :=
  { key := "azure_tables",
    label := "Azure DB Source Dictionary",
    description := "Dictionary of Azure SQL source tables (per environment).",
    template := "CREATE OR REPLACE TABLE DATA_VAULT_TEMP.AZURE_TABLES__ENV__ (\n    LOGICAL_NAME VARCHAR,\n    SERVER_NAME VARCHAR,\n    DATABASE_NAME VARCHAR,\n    SCHEMA_NAME VARCHAR,\n    SOURCE_TABLE_NAME VARCHAR,\n\n    SOURCE_TYPE VARCHAR DEFAULT 'AZURE_DB',\n    CREATED_DT TIMESTAMP DEFAULT CURRENT_TIMESTAMP,\n    UPDATED_DT TIMESTAMP\n)\nCOMMENT = 'Dictionary of all Azure DB source tables (__ENV__). Used for ingestion discovery and source-to-target validation.';",
    environments := INGESTION_ENVIRONMENTS }

def tpl_sql_server_tables : DDLTemplateDefinition :=
  { key := "sql_server_tables",
    label := "SQL Server Source Dictionary",
    description := "Dictionary of SQL Server source tables (per environment).",
    template := "CREATE OR REPLACE TABLE DATA_VAULT_TEMP.SQL_SERVER_TABLES__ENV__ (\n    LOGICAL_NAME VARCHAR,\n    SERVER_NAME VARCHAR,\n    DATABASE_NAME VARCHAR,\n    SCHEMA_NAME VARCHAR,\n    SOURCE_TABLE_NAME VARCHAR,\n\n    SOURCE_TYPE VARCHAR DEFAULT 'SQL_SERVER',\n    CREATED_DT TIMESTAMP DEFAULT CURRENT_TIMESTAMP,\n    UPDATED_DT TIMESTAMP\n)\nCOMMENT = 'Dictionary of all SQL Server source tables (__ENV__). Used for ingestion discovery and source-to-target validation.';",
    environments := INGESTION_ENVIRONMENTS }

def tpl_excel_files : DDLTemplateDefinition :=
  { key := "excel_files",
    label := "Excel File Dictionary",
    description := "Dictionary of Excel-based sources (per environment).",
    template := "CREATE OR REPLACE TABLE DATA_VAULT_TEMP.EXCEL_FILES__ENV__ (\n    LOGICAL_NAME VARCHAR,\n    FILE_CONTAINER VARCHAR,\n    FILE_BUCKET VARCHAR,\n    FILE_PATH_FROM_BUCKET VARCHAR,\n    FILE_TYPE VARCHAR,\n    FILE_WILDCARD_PATTERN VARCHAR,\n    FILE_EXTENSION VARCHAR,\n    SHEET_NAME VARCHAR,\n    FILE_FORMAT VARCHAR,\n    SOURCE_TYPE VARCHAR DEFAULT 'EXCEL',\n    CREATED_DT TIMESTAMP DEFAULT CURRENT_TIMESTAMP,\n    UPDATED_DT TIMESTAMP\n)\nCOMMENT = 'Dictionary of all Excel file-based sources (__ENV__). Used for file discovery, validation, and compatibility views.';",
    environments := INGESTION_ENVIRONMENTS }

def tpl_edw_tables : DDLTemplateDefinition :=
  { key := "edw_tables",
    label := "EDW Table Dictionary",
    description := "Dictionary of Enterprise Data Warehouse tables (per environment).",
    template := "CREATE OR REPLACE TABLE DATA_VAULT_TEMP.EDW_TABLES__ENV__ (\n    LOGICAL_NAME VARCHAR,\n    DATABASE_NAME VARCHAR,\n    SCHEMA_NAME VARCHAR,\n    SOURCE_TABLE_NAME VARCHAR,\n    SUBJECT_AREA VARCHAR,\n\n    SOURCE_TYPE VARCHAR DEFAULT 'EDW',\n    CREATED_DT TIMESTAMP DEFAULT CURRENT_TIMESTAMP,\n    UPDATED_DT TIMESTAMP\n)\nCOMMENT = 'Dictionary of all EDW tables (__ENV__). Used for ingestion discovery and lineage validation.';",
    environments := INGESTION_ENVIRONMENTS }

def tpl_source_files : DDLTemplateDefinition :=
  { key := "source_files",
    label := "Flat File Dictionary",
    description := "Dictionary of generic flat-file sources (per environment).",
    template := "CREATE OR REPLACE TABLE DATA_VAULT_TEMP.SOURCE_FILES__ENV__ (\n    LOGICAL_NAME VARCHAR,\n    FILE_CONTAINER VARCHAR,\n    FILE_BUCKET VARCHAR,\n    FILE_PATH_FROM_BUCKET VARCHAR,\n    FILE_TYPE VARCHAR,\n    FILE_WILDCARD_PATTERN VARCHAR,\n    FILE_EXTENSION VARCHAR,\n    FILE_FORMAT VARCHAR,\n    SOURCE_TYPE VARCHAR DEFAULT 'FILE',\n    CREATED_DT TIMESTAMP DEFAULT CURRENT_TIMESTAMP,\n    UPDATED_DT TIMESTAMP\n)\nCOMMENT = 'Dictionary of all flat-file sources (__ENV__). Used for file discovery, validation, and compatibility views.';",
    environments := INGESTION_ENVIRONMENTS }

def tpl_metadata_config_adhoc : DDLTemplateDefinition :=
  { key := "metadata_config_adhoc",
    label := "Metadata Config (Adhoc)",
    description := "Environment-specific adhoc metadata config table (not deployed to PROD).",
    template := "CREATE OR REPLACE TABLE STAGE__ENV__.ELT.METADATA_CONFIG_TABLE_ELT_ADHOC (\n    METADATA_CONFIG_KEY VARCHAR(16777216),\n    LOGICAL_NAME VARCHAR(16777216),\n    FILE_LANDING_SCHEMA VARCHAR(16777216),\n    FILE_WILDCARD_PATTERN VARCHAR(16777216),\n    FILE_TABLE_NAME VARCHAR(16777216),\n    FILE_EXTENSION VARCHAR(16777216),\n    SHEET_NAME VARCHAR(16777216),\n    SOURCE_TYPE VARCHAR(16777216),\n    ENABLED VARCHAR(16777216),\n    BLOB_LAST_LOAD_DT VARCHAR(16777216),\n    STAGE_LAST_LOAD_DT VARCHAR(16777216),\n    TARGET_LAST_LOAD_DT VARCHAR(16777216),\n    ROW_COUNT VARCHAR(16777216),\n    ERROR_STATUS VARCHAR(16777216),\n    FILE_FORMAT VARCHAR(50),\n    HAS_HEADER VARCHAR(16777216) DEFAULT 'Y',\n    DATABASE_NAME VARCHAR(255),\n    SCHEMA_NAME VARCHAR(255),\n    SOURCE_TABLE_NAME VARCHAR(255),\n    DELTA_COLUMN VARCHAR(255),\n    DELTA_VALUE VARCHAR(255),\n    CHANGE_TRACKING_TYPE VARCHAR(255),\n    PRIORITY_FLAG BOOLEAN,\n    PAYLOAD VARIANT,\n    SERVER_NAME VARCHAR(100),\n    FILE_SERVER_LOAD_TYPE VARCHAR(16777216),\n    LAST_MODIFIED_DATE_LOADED VARCHAR(16777216),\n    FILESTAMP_FORMAT VARCHAR(16777216),\n    AUTO_INGEST VARCHAR(16777216),\n    FILE_SERVER_FILEPATH VARCHAR(16777216),\n    FIXED_WIDTH_FILETYPE VARCHAR(16777216),\n    REGEX_PATTERN VARCHAR(16777216) DEFAULT ''\n)\nCOMMENT = 'Snowflake table for storing adhoc ingest metadata (__ENV__). ADF polls this table every hour to orchestrate on-demand loads.';",
    environments := ADHOC_ENVIRONMENTS }

def tpl_create_schema_dynamic : DDLTemplateDefinition :=
  { key := "create_schema_dynamic",
    label := "CREATE_SCHEMA_DYNAMIC Procedure",
    description := "Utility procedure for provisioning STAGE schemas with role grants.",
    template := "CREATE OR REPLACE PROCEDURE STAGE_DEV.ELT.CREATE_SCHEMA_DYNAMIC(\"ENVIRONMENT\" VARCHAR, \"DB_NAME\" VARCHAR, \"SCHEMA_NAME\" VARCHAR)\nRETURNS VARCHAR\nLANGUAGE PYTHON\nRUNTIME_VERSION = '3.11'\nPACKAGES = ('snowflake-snowpark-python')\nHANDLER = 'main'\nEXECUTE AS CALLER\nAS '\ndef create_schema_with_grants(snowpark_session, environment, db_name, schema_name):\n    \x23Set up variables\n    db_name = f\"\x7bdb_name\x7d_\x7benvironment\x7d\"\n    ea_sysadmin_role_name = f\"EA_\x7benvironment\x7d_SYSADMIN\"\n    ar_stage_full = f\"AR_\x7bdb_name\x7d_\x7bschema_name\x7d_FULL\"\n    ar_stage_read = f\"AR_\x7bdb_name\x7d_\x7bschema_name\x7d_READ\"\n    ar_stage_write = f\"AR_\x7bdb_name\x7d_\x7bschema_name\x7d_WRITE\"\n    fr_svc_loader = f\"FR_SVC_LOADER_\x7b''PROD'' if environment == ''PROD'' else ''NONPROD''\x7d\"\n\n    \x23 Create a list of SQL statements to execute\n    sql_statements = [\n        f\"USE ROLE \x7bea_sysadmin_role_name\x7d\",\n        f\"USE DATABASE \x7bdb_name\x7d\",\n        f\"CREATE SCHEMA IF NOT EXISTS \x7bschema_name\x7d WITH MANAGED ACCESS\",\n        f\"CREATE DATABASE ROLE IF NOT EXISTS \x7bar_stage_full\x7d\",\n        f\"CREATE DATABASE ROLE IF NOT EXISTS \x7bar_stage_read\x7d\",\n        f\"CREATE DATABASE ROLE IF NOT EXISTS \x7bar_stage_write\x7d\",\n        f\"GRANT DATABASE ROLE \x7bar_stage_full\x7d TO ROLE \x7bea_sysadmin_role_name\x7d\",\n        f\"GRANT USAGE, MONITOR ON DATABASE \x7bdb_name\x7d TO DATABASE ROLE \x7bar_stage_full\x7d\",\n        f\"GRANT USAGE, MONITOR ON SCHEMA \x7bschema_name\x7d TO DATABASE ROLE \x7bar_stage_full\x7d\",\n        f\"GRANT CREATE TABLE, CREATE VIEW, CREATE MATERIALIZED VIEW, CREATE STREAM, CREATE FUNCTION, CREATE PROCEDURE, CREATE SEQUENCE, CREATE TASK, CREATE FILE FORMAT, CREATE STAGE, CREATE EXTERNAL TABLE, CREATE PIPE, CREATE DYNAMIC TABLE, CREATE MATERIALIZED VIEW, CREATE STREAMLIT, CREATE ALERT, CREATE TAG, CREATE MASKING POLICY, CREATE ROW ACCESS POLICY ON SCHEMA \x7bschema_name\x7d TO DATABASE ROLE \x7bar_stage_full\x7d\",\n\n        \x23 Ownership grants\n        f\"GRANT OWNERSHIP ON ALL TABLES IN SCHEMA \x7bschema_name\x7d TO DATABASE ROLE \x7bar_stage_full\x7d REVOKE CURRENT GRANTS\",\n        f\"GRANT OWNERSHIP ON ALL EXTERNAL TABLES IN SCHEMA \x7bschema_name\x7d TO DATABASE ROLE \x7bar_stage_full\x7d REVOKE CURRENT GRANTS\",\n        f\"GRANT OWNERSHIP ON ALL VIEWS IN SCHEMA \x7bschema_name\x7d TO DATABASE ROLE \x7bar_stage_full\x7d REVOKE CURRENT GRANTS\",\n        f\"GRANT OWNERSHIP ON ALL STAGES IN SCHEMA \x7bschema_name\x7d TO DATABASE ROLE \x7bar_stage_full\x7d REVOKE CURRENT GRANTS\",\n        f\"GRANT OWNERSHIP ON ALL FILE FORMATS IN SCHEMA \x7bschema_name\x7d TO DATABASE ROLE \x7bar_stage_full\x7d REVOKE CURRENT GRANTS\",\n        f\"GRANT OWNERSHIP ON ALL STREAMS IN SCHEMA \x7bschema_name\x7d TO DATABASE ROLE \x7bar_stage_full\x7d REVOKE CURRENT GRANTS\",\n        f\"GRANT OWNERSHIP ON ALL PROCEDURES IN SCHEMA \x7bschema_name\x7d TO DATABASE ROLE \x7bar_stage_full\x7d REVOKE CURRENT GRANTS\",\n        f\"GRANT OWNERSHIP ON ALL FUNCTIONS IN SCHEMA \x7bschema_name\x7d TO DATABASE ROLE \x7bar_stage_full\x7d REVOKE CURRENT GRANTS\",\n        f\"GRANT OWNERSHIP ON ALL SEQUENCES IN SCHEMA \x7bschema_name\x7d TO DATABASE ROLE \x7bar_stage_full\x7d REVOKE CURRENT GRANTS\",\n\n        \x23 Subordinate role grants\n        f\"GRANT DATABASE ROLE \x7bar_stage_read\x7d TO DATABASE ROLE \x7bar_stage_full\x7d\",\n        f\"GRANT DATABASE ROLE \x7bar_stage_write\x7d TO DATABASE ROLE \x7bar_stage_full\x7d\",\n\n        \x23 READ role privileges\n        f\"GRANT USAGE, MONITOR ON DATABASE \x7bdb_name\x7d TO DATABASE ROLE \x7bar_stage_read\x7d\",\n        f\"GRANT USAGE, MONITOR ON SCHEMA \x7bschema_name\x7d TO DATABASE ROLE \x7bar_stage_read\x7d\",\n        f\"GRANT SELECT, REFERENCES ON ALL TABLES IN SCHEMA \x7bschema_name\x7d TO DATABASE ROLE \x7bar_stage_read\x7d\",\n        f\"GRANT SELECT, REFERENCES ON ALL VIEWS IN SCHEMA \x7bschema_name\x7d TO DATABASE ROLE \x7bar_stage_read\x7d\",\n        f\"GRANT SELECT ON ALL EXTERNAL TABLES IN SCHEMA \x7bschema_name\x7d TO DATABASE ROLE \x7bar_stage_read\x7d\",\n        f\"GRANT SELECT ON ALL DYNAMIC TABLES IN SCHEMA \x7bschema_name\x7d TO DATABASE ROLE \x7bar_stage_read\x7d\",\n        f\"GRANT SELECT ON ALL MATERIALIZED VIEWS IN SCHEMA \x7bschema_name\x7d TO DATABASE ROLE \x7bar_stage_read\x7d\",\n\n        \x23 WRITE role privileges\n        f\"GRANT USAGE, MONITOR ON DATABASE \x7bdb_name\x7d TO DATABASE ROLE \x7bar_stage_write\x7d\",\n        f\"GRANT USAGE, MONITOR ON SCHEMA \x7bschema_name\x7d TO DATABASE ROLE \x7bar_stage_write\x7d\",\n        f\"GRANT DELETE, INSERT, REFERENCES, TRUNCATE, UPDATE ON ALL TABLES IN SCHEMA \x7bschema_name\x7d TO DATABASE ROLE \x7bar_stage_write\x7d\",\n        f\"GRANT SELECT ON ALL STREAMS IN SCHEMA \x7bschema_name\x7d TO DATABASE ROLE \x7bar_stage_write\x7d\",\n        f\"GRANT USAGE, READ, WRITE ON ALL STAGES IN SCHEMA \x7bschema_name\x7d TO DATABASE ROLE \x7bar_stage_write\x7d\",\n        f\"GRANT USAGE ON ALL FILE FORMATS IN SCHEMA \x7bschema_name\x7d TO DATABASE ROLE \x7bar_stage_write\x7d\",\n        f\"GRANT USAGE ON ALL FUNCTIONS IN SCHEMA \x7bschema_name\x7d TO DATABASE ROLE \x7bar_stage_write\x7d\",\n        f\"GRANT USAGE ON ALL SEQUENCES IN SCHEMA \x7bschema_name\x7d TO DATABASE ROLE \x7bar_stage_write\x7d\",\n        f\"GRANT USAGE ON ALL PROCEDURES IN SCHEMA \x7bschema_name\x7d TO DATABASE ROLE \x7bar_stage_write\x7d\",\n        f\"GRANT MONITOR, OPERATE ON ALL TASKS IN SCHEMA \x7bschema_name\x7d TO DATABASE ROLE \x7bar_stage_write\x7d\",\n        f\"GRANT MONITOR, OPERATE ON ALL DYNAMIC TABLES IN SCHEMA \x7bschema_name\x7d TO DATABASE ROLE \x7bar_stage_write\x7d\",\n        f\"GRANT MONITOR, OPERATE ON ALL ALERTS IN SCHEMA \x7bschema_name\x7d TO DATABASE ROLE \x7bar_stage_write\x7d\",\n\n        f\"GRANT DATABASE ROLE \x7bar_stage_full\x7d TO ROLE \x7bfr_svc_loader\x7d\",\n\n        f\"GRANT USAGE ON SCHEMA \x7bdb_name\x7d.\x7bschema_name\x7d TO ROLE FR_ENGINEER_DATA_\x7benvironment\x7d\",\n        f\"GRANT SELECT ON ALL TABLES IN SCHEMA \x7bschema_name\x7d TO ROLE FR_ENGINEER_DATA_\x7benvironment\x7d\",\n        f\"GRANT SELECT ON FUTURE TABLES IN SCHEMA \x7bschema_name\x7d TO ROLE FR_ENGINEER_DATA_\x7benvironment\x7d\"\n    ]\n\n    \x23 Execute all SQL statements\n    for sql in sql_statements:\n        snowpark_session.sql(sql).collect()\n\ndef main(snowpark_session, environment, db_name, schema_name):\n    try:\n        \x23 Create the original schema\n        create_schema_with_grants(snowpark_session, environment, db_name, schema_name)\n\n        \x23 Create the landing schema\n        landing_schema_name = f\"\x7bschema_name\x7d_LANDING\"\n        create_schema_with_grants(snowpark_session, environment, db_name, landing_schema_name)\n\n        return f\"Both \x7bschema_name\x7d and \x7bschema_name\x7d_LANDING schemas created successfully\"\n    except Exception as e:\n        return f\"Error occurred: \x7bstr(e)\x7d\"\n';",
    environments := ["DEV"] }

def DDL_TEMPLATES : List DDLTemplateDefinition := [tpl_azure_tables, tpl_sql_server_tables, tpl_excel_files, tpl_edw_tables, tpl_source_files, tpl_metadata_config_adhoc, tpl_create_schema_dynamic]

/-- Embedding of `common/ingestion_templates.py::DDL_TEMPLATE_LOOKUP` (a dict
keyed by template key; keys are unique, so first-match lookup is faithful). -/
def DDL_TEMPLATE_LOOKUP (key : String) : Option DDLTemplateDefinition :=
  DDL_TEMPLATES.find? (fun t => t.key == key)

/-- Embedding of `common/ingestion_templates.py::render_ddl_sql`: `KeyError`
for an unknown key, `ValueError` for an environment the template does not
list, otherwise plain placeholder replacement. -/
def render_ddl_sql (key env : String) : Except PyError String :=
  let env_upper := Py.upper env
  match DDL_TEMPLATE_LOOKUP key with
  | none => .error (.keyError key)
  | some template =>
    if env_upper ∈ template.environments then
      .ok (Py.replace (Py.replace template.template "__ENV__" env_upper)
        "__env_lower__" (Py.lower env_upper))
    else .error (.valueError ("Template " ++ key ++ " not available for " ++ env_upper))

/-- Embedding of `common/ingestion_templates.py::get_source_type_code`
(a dict subscript: `KeyError` on an unknown label). -/
def get_source_type_code (label : String) : Except PyError String :=
  match INGESTION_SOURCE_TYPES.find? (fun p => p.1 == label) with
  | some p => .ok p.2
  | none => .error (.keyError label)

/-- Embedding of `common/ingestion_templates.py::sql_literal`. -/
def sql_literal (value : Option String) : String :=
  match value with
  | none => "NULL"
  | some v =>
    let stripped := Py.strip v
    if stripped = "" then "NULL"
    else "'" ++ Py.replace stripped "'" "''" ++ "'"

/-- Embedding of `common/ingestion_templates.py::sql_literal_allow_blank`. -/
def sql_literal_allow_blank (value : Option String) : String :=
  match value with
  | none => "''"
  | some v => "'" ++ Py.replace v "'" "''" ++ "'"

end Ingestion

namespace Ingestion

/-- The keyword arguments of
`common/ingestion_templates.py::build_adhoc_insert_sql`. -/
structure AdhocArgs where
  logical_name : String
  file_landing_schema : String
  file_wildcard_pattern : String
  file_table_name : String
  file_extension : String
  sheet_name : String
  source_type_label : String
  enabled_flag : Bool
  file_format : String
  has_header : String
  database_name : String
  schema_name : String
  source_table_name : String
  delta_column : String
  change_tracking_type : String
  server_name : String
  file_server_load_type : String
  filestamp_format : String
  auto_ingest : String
  file_server_filepath : String
  fixed_width_filetype : String
  regex_pattern : String
  requested_by : Option String
  notes : Option String
  priority_flag : Bool

/-- Embedding of `common/ingestion_templates.py::_metadata_assignments`:
the source-type label is resolved first (a dict subscript that can raise
`KeyError`), then every procedure parameter is paired with its quoted value
in `METADATA_PROCEDURE_PARAMS` order. -/
def _metadata_assignments (a : AdhocArgs) : Except PyError (List (String × String)) := do
  let source_type_code ← get_source_type_code a.source_type_label
  let normalized_header := if a.has_header ≠ "" then Py.upper a.has_header else ""
  let mapping : List (String × String) :=
    [("LOGICAL_NAME", sql_literal_allow_blank (some a.logical_name)),
     ("FILE_LANDING_SCHEMA", sql_literal_allow_blank (some a.file_landing_schema)),
     ("FILE_WILDCARD_PATTERN", sql_literal_allow_blank (some a.file_wildcard_pattern)),
     ("FILE_TABLE_NAME", sql_literal_allow_blank (some a.file_table_name)),
     ("FILE_EXTENSION", sql_literal_allow_blank (some a.file_extension)),
     ("SHEET_NAME", sql_literal_allow_blank (some a.sheet_name)),
     ("SOURCE_TYPE", sql_literal_allow_blank (some source_type_code)),
     ("ENABLED", sql_literal_allow_blank (some (if a.enabled_flag then "1" else "0"))),
     ("FILE_FORMAT", sql_literal_allow_blank (some a.file_format)),
     ("HAS_HEADER", sql_literal_allow_blank (some normalized_header)),
     ("DATABASE_NAME", sql_literal_allow_blank (some a.database_name)),
     ("SCHEMA_NAME", sql_literal_allow_blank (some a.schema_name)),
     ("SOURCE_TABLE_NAME", sql_literal_allow_blank (some a.source_table_name)),
     ("DELTA_COLUMN", sql_literal_allow_blank (some a.delta_column)),
     ("CHANGE_TRACKING_TYPE", sql_literal_allow_blank (some a.change_tracking_type)),
     ("SERVER_NAME", sql_literal_allow_blank (some a.server_name)),
     ("FILE_SERVER_LOAD_TYPE", sql_literal_allow_blank (some a.file_server_load_type)),
     ("FILESTAMP_FORMAT", sql_literal_allow_blank (some a.filestamp_format)),
     ("AUTO_INGEST", sql_literal_allow_blank (some a.auto_ingest)),
     ("FILE_SERVER_FILEPATH", sql_literal_allow_blank (some a.file_server_filepath)),
     ("FIXED_WIDTH_FILETYPE", sql_literal_allow_blank (some a.fixed_width_filetype)),
     ("REGEX_PATTERN", sql_literal_allow_blank (some a.regex_pattern))]
  pure (METADATA_PROCEDURE_PARAMS.map (fun p => (p, ((mapping.lookup p).getD ""))))

/-- Embedding of `common/ingestion_templates.py::_build_metadata_procedure_sql`
(pure string assembly; `textwrap.dedent` is applied to the interpolated
f-strings at call time, exactly as in the source). -/
def _build_metadata_procedure_sql (env_upper : String) (schema_name : String)
    (assignments : List (String × String)) (procedure_suffix : String)
    (requested_by notes : Option String) (priority_flag : Bool) : String :=
  let role := "EA_" ++ env_upper ++ "_SYSADMIN"
  let database := "STAGE_" ++ env_upper
  let warehouse := database ++ "_WH"
  let schema_hint := Py.upper (if schema_name ≠ "" then schema_name else "ELT")
  let preamble := Py.strip (_dedent
    ("\n        USE ROLE " ++ role ++ ";\n        USE DATABASE " ++ database ++
     ";\n        USE SCHEMA ELT;\n        USE WAREHOUSE " ++ warehouse ++
     ";\n        -- If you need a managed schema, uncomment:\n        -- CALL " ++
     database ++ ".ELT.CREATE_SCHEMA_DYNAMIC('" ++ env_upper ++ "', 'STAGE', '" ++
     schema_hint ++ "');\n        "))
  let set_lines := Py.join "\n"
    (assignments.map (fun nv => "SET " ++ Py.ljust nv.1 25 ++ " = " ++ nv.2 ++ ";"))
  let lookup_sql := Py.strip (_dedent
    ("\n        -- Check for existing metadata rows before calling the procedure\n        SELECT *\n        FROM " ++
     database ++
     ".ELT.METADATA_CONFIG_TABLE_ELT\n        WHERE LOWER(TRIM(COALESCE(SERVER_NAME, ''))) = LOWER(TRIM($SERVER_NAME))\n          AND LOWER(TRIM(COALESCE(SCHEMA_NAME, ''))) = LOWER(TRIM($SCHEMA_NAME))\n          AND LOWER(TRIM(COALESCE(SOURCE_TABLE_NAME, ''))) = LOWER(TRIM($SOURCE_TABLE_NAME));\n        "))
  let ann1 := if Py.truthy requested_by then
      ["-- Requested by: " ++ requested_by.getD ""] else []
  let ann2 := if priority_flag then ["-- Priority flag: TRUE (expedite queue)"] else []
  let ann3 := if Py.truthy notes then
      (let sanitized := Py.strip (Py.replace (notes.getD "") "\n" " ")
       if sanitized ≠ "" then ["-- Notes: " ++ sanitized] else [])
    else []
  let annotation_block := Py.join "\n" (ann1 ++ ann2 ++ ann3)
  let procedure_name := database ++ ".ELT." ++ procedure_suffix ++ "_" ++ env_upper
  let param_block := Py.join ",\n    " (assignments.map (fun nv => "$" ++ nv.1))
  let call_block := Py.strip (_dedent
    ("\n        CALL " ++ procedure_name ++ "(\n            " ++ param_block ++
     "\n        );\n        "))
  let sections := [preamble, set_lines, lookup_sql] ++
    (if annotation_block ≠ "" then [annotation_block] else []) ++ [call_block]
  Py.strip (Py.join "\n\n" (sections.filter (fun sec => sec ≠ "")))

/-- Embedding of `common/ingestion_templates.py::build_adhoc_insert_sql`:
rejects any environment outside `ADHOC_ENVIRONMENTS` with a `ValueError`
before building anything. -/
def build_adhoc_insert_sql (environment : String) (a : AdhocArgs) :
    Except PyError String := do
  let env_upper := Py.upper environment
  if env_upper ∈ ADHOC_ENVIRONMENTS then do
    let assignments ← _metadata_assignments a
    pure (_build_metadata_procedure_sql env_upper a.schema_name assignments
      "ADHOC_INSERT_METADATA_CONFIG_TABLE" a.requested_by a.notes a.priority_flag)
  else .error (.valueError "Adhoc metadata table is only deployed to DEV/TEST/UAT")

end Ingestion

namespace Deploy

/-- Embedding of the bundled deploy copy
`streamlit_cli_deploy/common/db.py::detect_runtime` (same environment model
as the primary copy). -/
def detect_runtime (e : Env) : String :=
  let explicit_mode := Py.lower (e.runtime_mode.getD "")
  if explicit_mode = "duckdb" then "duckdb"
  else if explicit_mode = "snowflake_local" then "snowflake_local"
  else if explicit_mode = "snowflake_deployed" then "snowflake_deployed"
  else
    match e.active_session with
    | .ok (some _) => "snowflake_deployed"
    | _ =>
      match e.secrets with
      | .ok snow_secrets =>
        if Py.truthy snow_secrets.account ∧ Py.truthy snow_secrets.user then
          "snowflake_local"
        else "duckdb"
      | .error _ => "duckdb"

/-- Attempt to match the tail of a single-quoted SQL literal, the regex
`'(?:''|[^'])*'` of `_SQL_STRING_LITERAL_SPLIT`, starting just after an
opening quote: greedily consume doubled quotes and non-quote characters,
backtracking to close at the earliest quote when the greedy continuation
cannot reach a closing quote. Returns the literal body and the remainder
after the closing quote. -/
def scanLit : List Char → Option (List Char × List Char)
  | [] => none
  | c :: cs =>
    if c = '\'' then
      match cs with
      | [] => some ([], [])
      | c2 :: cs2 =>
        if c2 = '\'' then
          match scanLit cs2 with
          | some (content, rest) => some ('\'' :: '\'' :: content, rest)
          | none => some ([], cs)
        else some ([], cs)
    else
      match scanLit cs with
      | some (content, rest) => some (c :: content, rest)
      | none => none

/-- A complete single-quoted literal with body `b`. -/
def litOf (b : List Char) : List Char := '\'' :: (b ++ ['\''])

/-- Leftmost-scanning split on `_SQL_STRING_LITERAL_SPLIT` matches: the
result alternates unmatched (even) segments with matched literal (odd)
segments, exactly like `re.split` with a capturing group. -/
def splitAux (acc : List Char) : List Char → List (List Char)
  | [] => [acc.reverse]
  | c :: cs =>
    if c = '\'' then
      match scanLit cs with
      | some (content, rest) =>
        if h : rest.length < cs.length then
          acc.reverse :: litOf content :: splitAux [] rest
        else splitAux (c :: acc) cs
      | none => splitAux (c :: acc) cs
    else splitAux (c :: acc) cs
termination_by l => l.length
decreasing_by
  all_goals simp only [List.length_cons]
  all_goals omega

/-- The odd-indexed (captured literal) segments of an alternating split. -/
def oddParts : List (List Char) → List (List Char)
  | [] => []
  | [_] => []
  | _ :: l :: rest => l :: oddParts rest

/-- Apply a rewriting function to the even-indexed (non-literal) segments. -/
def mapEvens (f : List Char → List Char) : List (List Char) → List (List Char)
  | [] => []
  | [e] => [f e]
  | e :: l :: rest => f e :: l :: mapEvens f rest

/-- Embedding of
`streamlit_cli_deploy/common/db.py::_substitute_outside_literals` for a
compiled pattern substitution `f`: split on string literals, rewrite only the
even segments, join back. -/
def subOutside (f : List Char → List Char) (l : List Char) : List Char :=
  (mapEvens f (splitAux [] l)).join

/-- Python regex `\w` on ASCII. -/
def isWordChar (c : Char) : Bool := c.isAlpha || c.isDigit || c = '_'

/-- Case-insensitive literal match: consume `p` from `l`, returning the rest. -/
def matchCI : List Char → List Char → Option (List Char)
  | [], l => some l
  | _ :: _, [] => none
  | p :: ps, c :: cs => if c.toLower = p.toLower then matchCI ps cs else none

/-- A `\b` boundary holds after a word character at this point. -/
def bndAfterWord : List Char → Bool
  | [] => true
  | c :: _ => !isWordChar c

/-- Generic non-overlapping leftmost `re.sub` driver. `tryM` attempts a match
at the current position (the leading `\b` having been checked by the driver)
and returns the replacement text, whether the character just before the
remainder is a non-word character, and the remainder. -/
def subDriver (tryM : List Char → Option (List Char × Bool × List Char)) :
    Bool → List Char → List Char
  | _, [] => []
  | bnd, c :: cs =>
    if bnd then
      match tryM (c :: cs) with
      | some (repl, bnd', rest) =>
        if h : rest.length < cs.length + 1 then repl ++ subDriver tryM bnd' rest
        else c :: subDriver tryM (!isWordChar c) cs
      | none => c :: subDriver tryM (!isWordChar c) cs
    else c :: subDriver tryM (!isWordChar c) cs
termination_by _ l => l.length
decreasing_by
  all_goals simp only [List.length_cons]
  all_goals omega

/-- Expect one specific character at the head. -/
def expectChar (ch : Char) : List Char → Option (List Char)
  | c :: cs => if c = ch then some cs else none
  | [] => none

/-- Regex `\\s*`: drop leading whitespace. -/
def dropWs (l : List Char) : List Char := l.dropWhile Char.isWhitespace

/-- Regex `\\d+` candidate: the leading digit run. -/
def digitsOf (l : List Char) : List Char := l.takeWhile Char.isDigit

/-- The input after its leading digit run. -/
def afterDigits (l : List Char) : List Char := l.drop (digitsOf l).length

/-- Regex `[^)]+` candidate: the leading run of non-`)` characters. -/
def groupOf (l : List Char) : List Char := l.takeWhile (fun c => c ≠ ')')

/-- The input after its leading non-`)` run. -/
def afterGroup (l : List Char) : List Char := l.drop (groupOf l).length

/-- Matcher for `\bVARIANT\b` (case-insensitive) with replacement `JSON`. -/
def tryVariant (l : List Char) : Option (List Char × Bool × List Char) :=
  match matchCI "VARIANT".data l with
  | some rest => if bndAfterWord rest then some ("JSON".data, false, rest) else none
  | none => none

/-- Matcher for `\bTIMESTAMP_NTZ\s*\(\s*\d+\s*\)` with replacement
`TIMESTAMP`. -/
def tryTsParen (l : List Char) : Option (List Char × Bool × List Char) :=
  match matchCI "TIMESTAMP_NTZ".data l with
  | none => none
  | some r1 =>
    match expectChar '(' (dropWs r1) with
    | none => none
    | some r2 =>
      if digitsOf (dropWs r2) = [] then none
      else
        match expectChar ')' (dropWs (afterDigits (dropWs r2))) with
        | none => none
        | some r4 => some ("TIMESTAMP".data, true, r4)

/-- Matcher for `\bTIMESTAMP_NTZ\b` with replacement `TIMESTAMP`. -/
def tryTs (l : List Char) : Option (List Char × Bool × List Char) :=
  match matchCI "TIMESTAMP_NTZ".data l with
  | some rest => if bndAfterWord rest then some ("TIMESTAMP".data, false, rest) else none
  | none => none

/-- Matcher for `\bNUMBER\s*\(\s*(\d+)\s*,\s*(\d+)\s*\)` with replacement
`DECIMAL(\1,\2)`. -/
def tryNumParen (l : List Char) : Option (List Char × Bool × List Char) :=
  match matchCI "NUMBER".data l with
  | none => none
  | some r1 =>
    match expectChar '(' (dropWs r1) with
    | none => none
    | some r2 =>
      if digitsOf (dropWs r2) = [] then none
      else
        match expectChar ',' (dropWs (afterDigits (dropWs r2))) with
        | none => none
        | some r4 =>
          if digitsOf (dropWs r4) = [] then none
          else
            match expectChar ')' (dropWs (afterDigits (dropWs r4))) with
            | none => none
            | some r6 =>
              some ("DECIMAL(".data ++ digitsOf (dropWs r2) ++ [','] ++
                digitsOf (dropWs r4) ++ [')'], true, r6)

/-- Matcher for `\bNUMBER\b` with replacement `DOUBLE`. -/
def tryNum (l : List Char) : Option (List Char × Bool × List Char) :=
  match matchCI "NUMBER".data l with
  | some rest => if bndAfterWord rest then some ("DOUBLE".data, false, rest) else none
  | none => none

/-- Matcher for `\bPARSE_JSON\s*\(([^)]+)\)` with replacement
`CAST(\1 AS JSON)`. -/
def tryParseJson (l : List Char) : Option (List Char × Bool × List Char) :=
  match matchCI "PARSE_JSON".data l with
  | none => none
  | some r1 =>
    match expectChar '(' (dropWs r1) with
    | none => none
    | some r2 =>
      if groupOf r2 = [] then none
      else
        match expectChar ')' (afterGroup r2) with
        | none => none
        | some r3 =>
          some ("CAST(".data ++ groupOf r2 ++ " AS JSON)".data, true, r3)

/-- One full `pattern.sub` pass for `\bVARIANT\b`. -/
def subVariant (l : List Char) : List Char := subDriver tryVariant true l

/-- One full `pattern.sub` pass for `\bTIMESTAMP_NTZ\s*\(\s*\d+\s*\)`. -/
def subTsParen (l : List Char) : List Char := subDriver tryTsParen true l

/-- One full `pattern.sub` pass for `\bTIMESTAMP_NTZ\b`. -/
def subTs (l : List Char) : List Char := subDriver tryTs true l

/-- One full `pattern.sub` pass for `\bNUMBER\s*\(...\)`. -/
def subNumParen (l : List Char) : List Char := subDriver tryNumParen true l

/-- One full `pattern.sub` pass for `\bNUMBER\b`. -/
def subNum (l : List Char) : List Char := subDriver tryNum true l

/-- One full `pattern.sub` pass for `\bPARSE_JSON\s*\(([^)]+)\)`. -/
def subParseJson (l : List Char) : List Char := subDriver tryParseJson true l

/-- The `_DUCKDB_TYPE_REPLACEMENTS` table, in source order. -/
def typeRepls : List (List Char → List Char) :=
  [subVariant, subTsParen, subTs, subNumParen, subNum]

/-- Embedding of
`streamlit_cli_deploy/common/db.py::_normalize_create_for_duckdb`. -/
def _normalize_create_for_duckdb (sql : String) : String :=
  let stripped := Py.lstrip sql
  if "CREATE".data.isPrefixOf (Py.upper stripped).data then
    String.mk (typeRepls.foldl (fun acc f => subOutside f acc) sql.data)
  else sql

/-- Embedding of
`streamlit_cli_deploy/common/db.py::_normalize_for_duckdb`: the CREATE-only
type rewrites followed by the function rewrites (`PARSE_JSON`). -/
def _normalize_for_duckdb (sql : String) : String :=
  let normalized := _normalize_create_for_duckdb sql
  String.mk (subOutside subParseJson normalized.data)

/-- The sequence of single-quoted literal segments of a SQL string, as
produced by splitting on `_SQL_STRING_LITERAL_SPLIT`. -/
def litSegments (s : String) : List String :=
  (oddParts (splitAux [] s.data)).map String.mk

end Deploy

/-- The three runtime mode tags. -/
def runtimeTags : List String := ["duckdb", "snowflake_local", "snowflake_deployed"]

namespace DB

/-- The list of per-table result tuples produced by threading the connection
state through the setup steps. -/
def stepTuples {σ : Type} (conn : Conn σ) (mode effPfx : String) :
    σ → List TestData.TableDef → List (String × Bool × String)
  | _, [] => []
  | s, td :: rest => stepTuple conn mode effPfx s td ::
      stepTuples conn mode effPfx (stepState conn mode effPfx s td) rest

end DB

namespace Ingestion

/-- A concrete, fully populated argument record for `build_adhoc_insert_sql`,
used to instantiate the universally quantified statements about it. -/
def sampleArgs : AdhocArgs :=
  { logical_name := "LN", file_landing_schema := "FLS", file_wildcard_pattern := "W",
    file_table_name := "FT", file_extension := "csv", sheet_name := "",
    source_type_label := "Flat File", enabled_flag := true, file_format := "FF",
    has_header := "y", database_name := "DBN", schema_name := "ELT",
    source_table_name := "SRC", delta_column := "DC", change_tracking_type := "FULL",
    server_name := "SRV", file_server_load_type := "", filestamp_format := "",
    auto_ingest := "", file_server_filepath := "", fixed_width_filetype := "",
    regex_pattern := "", requested_by := none, notes := none, priority_flag := false }

end Ingestion

namespace Deploy

/-- A character list without any single quote. -/
def noQuote (l : List Char) : Prop := '\'' ∉ l

instance (l : List Char) : Decidable (noQuote l) := by
  unfold noQuote; infer_instance

/-- The single-quote characters of a list, in order. -/
def quotes (l : List Char) : List Char := l.filter (fun c => c = '\'')

/-- Wellformed body of a matched literal: a sequence of doubled quotes and
non-quote characters. -/
def wfBody : List Char → Bool
  | [] => true
  | '\'' :: '\'' :: cs => wfBody cs
  | '\'' :: _ => false
  | _ :: cs => wfBody cs

/-- Shape of the remainder returned by `scanLit`: empty, starting with a
non-quote, or a lone stray quote followed by quote-free text. -/
def restShape (r : List Char) : Prop :=
  r = [] ∨ (∃ c cs, r = c :: cs ∧ c ≠ '\'') ∨ (∃ v, r = '\'' :: v ∧ noQuote v)

end Deploy

/-- Claim C10: the two copies of the runtime detector are equivalent — for
every environment state, `detect_runtime` in `src/common/db.py` and
`detect_runtime` in the bundled deploy copy return the same mode tag. -/
theorem claim_C10 (e : Env) : DB.detect_runtime e = Deploy.detect_runtime e := rfl

/-- Claim C7: template rendering is deterministic — two calls of
`render_ddl_sql` (resp. `build_adhoc_insert_sql`) with equal argument values
return equal results; the output depends only on the arguments. -/
theorem claim_C7 (k e k' e' : String) (a a' : Ingestion.AdhocArgs) :
    (k = k' → e = e' → Ingestion.render_ddl_sql k e = Ingestion.render_ddl_sql k' e')
  ∧ (e = e' → a = a' →
      Ingestion.build_adhoc_insert_sql e a = Ingestion.build_adhoc_insert_sql e' a') := by
  constructor
  · intro h1 h2; rw [h1, h2]
  · intro h1 h2; rw [h1, h2]

/-- Witness for C7 at concrete arguments. -/
theorem claim_C7_witness :
    (("azure_tables" : String) = "azure_tables" ∧ ("DEV" : String) = "DEV" ∧
      Ingestion.sampleArgs = Ingestion.sampleArgs) ∧
    Ingestion.render_ddl_sql "azure_tables" "DEV" =
      Ingestion.render_ddl_sql "azure_tables" "DEV" ∧
    Ingestion.build_adhoc_insert_sql "DEV" Ingestion.sampleArgs =
      Ingestion.build_adhoc_insert_sql "DEV" Ingestion.sampleArgs :=
  ⟨⟨rfl, rfl, rfl⟩,
   (claim_C7 "azure_tables" "DEV" "azure_tables" "DEV"
      Ingestion.sampleArgs Ingestion.sampleArgs).1 rfl rfl,
   (claim_C7 "azure_tables" "DEV" "azure_tables" "DEV"
      Ingestion.sampleArgs Ingestion.sampleArgs).2 rfl rfl⟩

/-- Claim C2: the two literal-quoting helpers implement the two documented
blank policies — `sql_literal` maps `None` and blank-stripping strings to
`NULL` and otherwise wraps the stripped value with embedded single quotes
doubled; `sql_literal_allow_blank` maps `None` and `""` to `''` and otherwise
wraps the unstripped value with single quotes doubled; no other escaping. -/
theorem claim_C2 (s : String) :
    Ingestion.sql_literal none = "NULL"
  ∧ Ingestion.sql_literal (some s) =
      (if Py.strip s = "" then "NULL"
       else "'" ++ Py.replace (Py.strip s) "'" "''" ++ "'")
  ∧ Ingestion.sql_literal_allow_blank none = "''"
  ∧ Ingestion.sql_literal_allow_blank (some "") = "''"
  ∧ Ingestion.sql_literal_allow_blank (some s) = "'" ++ Py.replace s "'" "''" ++ "'" := by
  refine ⟨rfl, rfl, rfl, ?_, rfl⟩
  show "'" ++ Py.replace "" "'" "''" ++ "'" = "''"
  simp [Py.replace, Py.replaceL]

/-- Claim C3: `execute_ddl_dml` never raises — for each known mode tag it
wraps the corresponding driver call into `(True, "OK")` on success and
`(False, str(e))` on a driver exception, and an unknown mode tag yields
`(False, "Unknown mode: ...")` without touching the driver. -/
theorem claim_C3 {σ : Type} (conn : Conn σ) (mode sql : String) (s : σ) :
    (mode = "duckdb" → DB.execute_ddl_dml conn mode sql s =
      (match conn.execute s sql with
       | (s', .ok _) => (s', (true, "OK"))
       | (s', .error e) => (s', (false, e))))
  ∧ (mode = "snowflake_deployed" → DB.execute_ddl_dml conn mode sql s =
      (match conn.sql_collect s sql with
       | (s', .ok _) => (s', (true, "OK"))
       | (s', .error e) => (s', (false, e))))
  ∧ (mode = "snowflake_local" → DB.execute_ddl_dml conn mode sql s =
      (match conn.cursor_execute s sql with
       | (s', .ok _) => (s', (true, "OK"))
       | (s', .error e) => (s', (false, e))))
  ∧ (mode ∉ runtimeTags →
      DB.execute_ddl_dml conn mode sql s = (s, (false, "Unknown mode: " ++ mode))) := by
  refine ⟨?_, ?_, ?_, ?_⟩
  · intro h; subst h; rfl
  · intro h; subst h; rfl
  · intro h; subst h; rfl
  · intro h
    have h1 : mode ≠ "duckdb" := by intro hc; exact h (by simp [runtimeTags, hc])
    have h2 : mode ≠ "snowflake_local" := by intro hc; exact h (by simp [runtimeTags, hc])
    have h3 : mode ≠ "snowflake_deployed" := by intro hc; exact h (by simp [runtimeTags, hc])
    simp [DB.execute_ddl_dml, h1, h2, h3]

/-- Witness for C3 at a concrete failing driver in duckdb mode and at an
unknown mode. -/
theorem claim_C3_witness :
    (("duckdb" : String) = "duckdb" ∧ ("mysql" : String) ∉ runtimeTags) ∧
    DB.execute_ddl_dml
      (Conn.mk (σ := Unit) (fun s _ => (s, .error "boom"))
        (fun s _ => (s, .ok ())) (fun s _ => (s, .ok ()))) "duckdb" "SELECT 1" () =
      ((), (false, "boom")) ∧
    DB.execute_ddl_dml
      (Conn.mk (σ := Unit) (fun s _ => (s, .error "boom"))
        (fun s _ => (s, .ok ())) (fun s _ => (s, .ok ()))) "mysql" "SELECT 1" () =
      ((), (false, "Unknown mode: mysql")) := by
  refine ⟨⟨rfl, by decide⟩, ?_, ?_⟩
  · exact (claim_C3 _ "duckdb" "SELECT 1" ()).1 rfl
  · have := (claim_C3 (Conn.mk (σ := Unit) (fun s _ => (s, .error "boom"))
      (fun s _ => (s, .ok ())) (fun s _ => (s, .ok ()))) "mysql" "SELECT 1" ()).2.2.2
        (by decide)
    simpa using this

/-- Claim C6: `get_testtable_query` returns the bare `TESTTABLE` query for
duckdb mode and, for both warehouse modes, the same query qualified with
`get_snowflake_table_prefix`, whose value is the session-state database and
schema (stripped, with the defaults substituted for absent or empty values)
joined by a dot. -/
theorem claim_C6 (st : SessionState) :
    DB.get_testtable_query st "duckdb" = "SELECT * FROM TESTTABLE LIMIT 100"
  ∧ (∀ mode, mode = "snowflake_local" ∨ mode = "snowflake_deployed" →
      DB.get_testtable_query st mode =
        "SELECT * FROM " ++ DB.get_snowflake_table_prefix st ++ ".TESTTABLE LIMIT 100")
  ∧ DB.get_snowflake_table_prefix st =
      Py.strip (if st.test_data_database.getD "" = ""
                then DB.DEFAULT_SNOWFLAKE_DATABASE else st.test_data_database.getD "") ++
      "." ++
      Py.strip (if st.test_data_schema.getD "" = ""
                then DB.DEFAULT_SNOWFLAKE_SCHEMA else st.test_data_schema.getD "") := by
  refine ⟨rfl, ?_, rfl⟩
  rintro mode (h | h) <;> subst h <;> rfl

/-- Witness for C6 at a concrete session state and warehouse mode. -/
theorem claim_C6_witness :
    (("snowflake_local" : String) = "snowflake_local" ∨
      ("snowflake_local" : String) = "snowflake_deployed") ∧
    DB.get_testtable_query (SessionState.mk (some "DB1") none) "snowflake_local" =
      "SELECT * FROM " ++ DB.get_snowflake_table_prefix (SessionState.mk (some "DB1") none) ++
        ".TESTTABLE LIMIT 100" :=
  ⟨Or.inl rfl,
   (claim_C6 (SessionState.mk (some "DB1") none)).2.1 "snowflake_local" (Or.inl rfl)⟩


/-- Claim C1: `detect_runtime` always returns one of the three mode tags and
resolves in priority order — an explicit `RUNTIME_MODE` value (lower-cased)
equal to a tag wins without consulting any other source, then an active
warehouse session selects `snowflake_deployed`, then stored credentials with
both account and user select `snowflake_local`, otherwise `duckdb`. -/
theorem claim_C1 (e : Env) :
    DB.detect_runtime e ∈ runtimeTags
  ∧ (∀ m, m ∈ runtimeTags → Py.lower (e.runtime_mode.getD "") = m →
      DB.detect_runtime e = m)
  ∧ (∀ e' : Env, e'.runtime_mode = e.runtime_mode →
      Py.lower (e.runtime_mode.getD "") ∈ runtimeTags →
      DB.detect_runtime e' = DB.detect_runtime e)
  ∧ (Py.lower (e.runtime_mode.getD "") ∉ runtimeTags →
      e.active_session = .ok (some ()) → DB.detect_runtime e = "snowflake_deployed")
  ∧ (Py.lower (e.runtime_mode.getD "") ∉ runtimeTags →
      e.active_session ≠ .ok (some ()) →
      (∃ sec, e.secrets = .ok sec ∧ Py.truthy sec.account ∧ Py.truthy sec.user) →
      DB.detect_runtime e = "snowflake_local")
  ∧ (Py.lower (e.runtime_mode.getD "") ∉ runtimeTags →
      e.active_session ≠ .ok (some ()) →
      (¬ ∃ sec, e.secrets = .ok sec ∧ Py.truthy sec.account ∧ Py.truthy sec.user) →
      DB.detect_runtime e = "duckdb") := by
  have hover : ∀ (x : Env) m, m ∈ runtimeTags → Py.lower (x.runtime_mode.getD "") = m →
      DB.detect_runtime x = m := by
    intro x m hm hlm
    simp only [runtimeTags, List.mem_cons, List.not_mem_nil, or_false] at hm
    rcases hm with rfl | rfl | rfl <;> simp [DB.detect_runtime, hlm]
  by_cases hin : Py.lower (e.runtime_mode.getD "") ∈ runtimeTags
  · have hd := hover e _ hin rfl
    refine ⟨by rw [hd]; exact hin, hover e, ?_, ?_, ?_, ?_⟩
    · intro e' he' _
      have heq : Py.lower (e'.runtime_mode.getD "") = Py.lower (e.runtime_mode.getD "") := by
        rw [he']
      have hd' := hover e' _ hin heq
      rw [hd', hd]
    · intro hno; exact absurd hin hno
    · intro hno; exact absurd hin hno
    · intro hno; exact absurd hin hno
  · have h1 : Py.lower (e.runtime_mode.getD "") ≠ "duckdb" := fun hc =>
      hin (by rw [hc]; simp [runtimeTags])
    have h2 : Py.lower (e.runtime_mode.getD "") ≠ "snowflake_local" := fun hc =>
      hin (by rw [hc]; simp [runtimeTags])
    have h3 : Py.lower (e.runtime_mode.getD "") ≠ "snowflake_deployed" := fun hc =>
      hin (by rw [hc]; simp [runtimeTags])
    have hd : DB.detect_runtime e =
        (match e.active_session with
         | .ok (some _) => "snowflake_deployed"
         | _ =>
           match e.secrets with
           | .ok snow_secrets =>
             if Py.truthy snow_secrets.account ∧ Py.truthy snow_secrets.user then
               "snowflake_local"
             else "duckdb"
           | .error _ => "duckdb") := by
      simp [DB.detect_runtime, h1, h2, h3]
    have hsecCase : (match e.secrets with
         | .ok snow_secrets =>
           if Py.truthy snow_secrets.account ∧ Py.truthy snow_secrets.user then
             ("snowflake_local" : String)
           else "duckdb"
         | .error _ => "duckdb") ∈ runtimeTags := by
      cases e.secrets with
      | error u => simp [runtimeTags]
      | ok sec =>
        by_cases hc : Py.truthy sec.account ∧ Py.truthy sec.user <;> simp [hc, runtimeTags]
    refine ⟨?_, hover e, ?_, ?_, ?_, ?_⟩
    · rw [hd]
      cases e.active_session with
      | error u => exact hsecCase
      | ok os =>
        cases os with
        | none => exact hsecCase
        | some u => simp [runtimeTags]
    · intro e' _ habs; exact absurd habs hin
    · intro _ hsess; rw [hd, hsess]
    · intro _ hns hsec
      rcases hsec with ⟨sec, hsec, ha, hu⟩
      rw [hd]
      cases hsa : e.active_session with
      | error u => rw [hsec]; simp [ha, hu]
      | ok os =>
        cases os with
        | none => rw [hsec]; simp [ha, hu]
        | some u => exact absurd hsa hns
    · intro _ hns hsec
      rw [hd]
      cases hsa : e.active_session with
      | error u =>
        cases hse : e.secrets with
        | error u2 => simp
        | ok sec =>
          have hc : ¬ (Py.truthy sec.account ∧ Py.truthy sec.user) := fun hcc =>
            hsec ⟨sec, hse, hcc.1, hcc.2⟩
          simp [hc]
      | ok os =>
        cases os with
        | none =>
          cases hse : e.secrets with
          | error u2 => simp
          | ok sec =>
            have hc : ¬ (Py.truthy sec.account ∧ Py.truthy sec.user) := fun hcc =>
              hsec ⟨sec, hse, hcc.1, hcc.2⟩
            simp [hc]
        | some u => exact absurd hsa hns

/-- Witness for C1: an explicit `RUNTIME_MODE=DUCKDB` override wins, and with
no override an active warehouse session selects `snowflake_deployed`. -/
theorem claim_C1_witness :
    (("duckdb" : String) ∈ runtimeTags ∧
      Py.lower ((some "DUCKDB" : Option String).getD "") = "duckdb" ∧
      Py.lower ((none : Option String).getD "") ∉ runtimeTags) ∧
    DB.detect_runtime (Env.mk (some "DUCKDB") (.error ()) (.error ())) = "duckdb" ∧
    DB.detect_runtime (Env.mk none (.ok (some ())) (.error ())) = "snowflake_deployed" :=
  ⟨⟨by decide, by decide, by decide⟩,
   (claim_C1 (Env.mk (some "DUCKDB") (.error ()) (.error ()))).2.1 "duckdb"
     (by decide) (by decide),
   (claim_C1 (Env.mk none (.ok (some ())) (.error ()))).2.2.2.1 (by decide) rfl⟩

/-- Counterexample to C4 as stated: `render_ddl_sql` does have a failure
mode — for the known key `metadata_config_adhoc` and the environment `PROD`
(which the template does not list) it raises a `ValueError` instead of
returning a SQL string. -/
theorem claim_C4_counterexample :
    Ingestion.render_ddl_sql "metadata_config_adhoc" "PROD" =
      .error (.valueError "Template metadata_config_adhoc not available for PROD") := by
  rfl

/-- Claim C4 (amended): `render_ddl_sql` raises `KeyError` for a key not in
`DDL_TEMPLATE_LOOKUP` and `ValueError` for an environment the template does
not list; for a known key and a listed environment it returns the template
text with `__ENV__` and `__env_lower__` replaced by plain string replacement,
with no other failure mode. -/
theorem claim_C4_amended (key env : String) :
    (Ingestion.DDL_TEMPLATE_LOOKUP key = none →
      Ingestion.render_ddl_sql key env = .error (.keyError key))
  ∧ (∀ t, Ingestion.DDL_TEMPLATE_LOOKUP key = some t →
      Py.upper env ∈ t.environments →
      Ingestion.render_ddl_sql key env =
        .ok (Py.replace (Py.replace t.template "__ENV__" (Py.upper env))
          "__env_lower__" (Py.lower (Py.upper env))))
  ∧ (∀ t, Ingestion.DDL_TEMPLATE_LOOKUP key = some t →
      Py.upper env ∉ t.environments →
      Ingestion.render_ddl_sql key env =
        .error (.valueError ("Template " ++ key ++ " not available for " ++ Py.upper env))) := by
  refine ⟨?_, ?_, ?_⟩
  · intro hnone
    simp [Ingestion.render_ddl_sql, hnone]
  · intro t ht hmem
    simp [Ingestion.render_ddl_sql, ht, hmem]
  · intro t ht hmem
    simp [Ingestion.render_ddl_sql, ht, hmem]

/-- Witness for the amended C4 at the key `azure_tables` and environment
`DEV`. -/
theorem claim_C4_witness :
    (Ingestion.DDL_TEMPLATE_LOOKUP "azure_tables" = some Ingestion.tpl_azure_tables ∧
      Py.upper "DEV" ∈ Ingestion.tpl_azure_tables.environments) ∧
    Ingestion.render_ddl_sql "azure_tables" "DEV" =
      .ok (Py.replace (Py.replace Ingestion.tpl_azure_tables.template "__ENV__"
            (Py.upper "DEV")) "__env_lower__" (Py.lower (Py.upper "DEV"))) :=
  ⟨⟨rfl, by decide⟩,
   (claim_C4_amended "azure_tables" "DEV").2.1 Ingestion.tpl_azure_tables rfl (by decide)⟩

/-- Counterexample to C8 as stated: even for the accepted environment `DEV`,
`build_adhoc_insert_sql` can raise — an unknown source-type label makes the
dictionary subscript in `get_source_type_code` raise a `KeyError`. -/
theorem claim_C8_counterexample :
    Ingestion.build_adhoc_insert_sql "DEV"
      { Ingestion.sampleArgs with source_type_label := "bogus" } =
      .error (.keyError "bogus") := by
  rfl

/-- Claim C8 (amended): `build_adhoc_insert_sql` raises a `ValueError`
exactly when the upper-cased environment is not one of DEV, TEST, UAT; for
every environment in that set whose source-type label is one of the four
known labels it returns a SQL script string without raising. -/
theorem claim_C8_amended (env : String) (a : Ingestion.AdhocArgs) :
    ((∃ m, Ingestion.build_adhoc_insert_sql env a = .error (.valueError m)) ↔
      Py.upper env ∉ Ingestion.ADHOC_ENVIRONMENTS)
  ∧ (Py.upper env ∈ Ingestion.ADHOC_ENVIRONMENTS →
      (∃ c, Ingestion.INGESTION_SOURCE_TYPES.find?
        (fun p => p.1 == a.source_type_label) = some c) →
      ∃ sql, Ingestion.build_adhoc_insert_sql env a = .ok sql) := by
  constructor
  · constructor
    · rintro ⟨m, hm⟩ hmem
      rw [Ingestion.build_adhoc_insert_sql] at hm
      simp only [hmem, if_pos] at hm
      rw [Ingestion._metadata_assignments] at hm
      cases hfind : Ingestion.INGESTION_SOURCE_TYPES.find?
          (fun p => p.1 == a.source_type_label) with
      | none =>
        rw [Ingestion.get_source_type_code, hfind] at hm
        injection hm with h2
        cases h2
      | some c =>
        rw [Ingestion.get_source_type_code, hfind] at hm
        exact Except.noConfusion hm
    · intro hmem
      refine ⟨"Adhoc metadata table is only deployed to DEV/TEST/UAT", ?_⟩
      rw [Ingestion.build_adhoc_insert_sql]
      simp [hmem]
  · intro hmem hfind
    rcases hfind with ⟨c, hc⟩
    simp only [Ingestion.build_adhoc_insert_sql, Ingestion._metadata_assignments,
      Ingestion.get_source_type_code, hc, hmem, if_pos]
    exact ⟨_, rfl⟩

/-- Witness for the amended C8 at environment `DEV` and the known label
`Flat File`. -/
theorem claim_C8_witness :
    (Py.upper "DEV" ∈ Ingestion.ADHOC_ENVIRONMENTS ∧
      Ingestion.INGESTION_SOURCE_TYPES.find?
        (fun p => p.1 == Ingestion.sampleArgs.source_type_label) =
        some ("Flat File", "FILE")) ∧
    (∃ sql, Ingestion.build_adhoc_insert_sql "DEV" Ingestion.sampleArgs = .ok sql) :=
  ⟨⟨by decide, rfl⟩,
   (claim_C8_amended "DEV" Ingestion.sampleArgs).2 (by decide)
     ⟨("Flat File", "FILE"), rfl⟩⟩

/-- Any table taken from `TEST_TABLES` itself is found by
`get_table_definition`. -/
theorem get_table_definition_ok {td : TestData.TableDef}
    (h : td ∈ TestData.TEST_TABLES) :
    ∃ e, TestData.get_table_definition td.name = .ok e := by
  have hsome : (TestData.TEST_TABLES.find?
      (fun t => Py.upper t.name == Py.upper td.name)).isSome := by
    rw [List.find?_isSome]
    exact ⟨td, h, by simp⟩
  rcases Option.isSome_iff_exists.mp hsome with ⟨e, he⟩
  exact ⟨e, by simp [TestData.get_table_definition, he]⟩

/-- For tables of `TEST_TABLES`, `format_ddl` cannot raise. -/
theorem format_ddl_ok {td : TestData.TableDef} (h : td ∈ TestData.TEST_TABLES)
    (p : String) : TestData.format_ddl td.name p = .ok (DB.format_ddl_str td.name p) := by
  rcases get_table_definition_ok h with ⟨e, he⟩
  have hfd : ∃ x, TestData.format_ddl td.name p = .ok x := by
    simp only [TestData.format_ddl, he]
    exact ⟨_, rfl⟩
  rcases hfd with ⟨x, hx⟩
  rw [hx]
  simp [DB.format_ddl_str, hx, Except.toOption]

/-- For tables of `TEST_TABLES`, `format_dml` cannot raise. -/
theorem format_dml_ok {td : TestData.TableDef} (h : td ∈ TestData.TEST_TABLES)
    (p : String) : TestData.format_dml td.name p = .ok (DB.format_dml_str td.name p) := by
  rcases get_table_definition_ok h with ⟨e, he⟩
  have hfd : ∃ x, TestData.format_dml td.name p = .ok x := by
    simp only [TestData.format_dml, he]
    cases hdm : e.dml with
    | none => exact ⟨_, rfl⟩
    | some t => exact ⟨_, rfl⟩
  rcases hfd with ⟨x, hx⟩
  rw [hx]
  simp [DB.format_dml_str, hx, Except.toOption]

/-- The setup loop over tables drawn from `TEST_TABLES` never raises and
produces exactly the threaded step tuples. -/
theorem setupLoop_ok {σ : Type} (conn : Conn σ) (mode p : String)
    (tds : List TestData.TableDef) (hsub : ∀ td ∈ tds, td ∈ TestData.TEST_TABLES) :
    ∀ s : σ, DB.setupLoop conn mode p s tds =
      (DB.stateAfter conn mode p s tds, .ok (DB.stepTuples conn mode p s tds)) := by
  induction tds with
  | nil => intro s; rfl
  | cons td rest ih =>
    intro s
    have hmem : td ∈ TestData.TEST_TABLES := hsub td (by simp)
    have hddl := format_ddl_ok hmem p
    have hdml := format_dml_ok hmem p
    have ih' := ih (fun t ht => hsub t (by simp [ht]))
    by_cases hb : (DB.execute_ddl_dml conn mode (DB.format_ddl_str td.name p) s).2.1
    · simp only [DB.setupLoop, hddl, hdml, hb, if_pos,
        ih' ((DB.execute_ddl_dml conn mode (DB.format_dml_str td.name p)
          (DB.execute_ddl_dml conn mode (DB.format_ddl_str td.name p) s).1).1),
        DB.stateAfter, List.foldl_cons, DB.stepTuples, DB.stepTuple, DB.stepState]
    · simp only [DB.setupLoop, hddl, hb, Bool.false_eq_true, if_false,
        ih' ((DB.execute_ddl_dml conn mode (DB.format_ddl_str td.name p) s).1),
        DB.stateAfter, List.foldl_cons, DB.stepTuples, DB.stepTuple, DB.stepState]

/-- The step-tuple list has one entry per table. -/
theorem stepTuples_length {σ : Type} (conn : Conn σ) (mode p : String) :
    ∀ (tds : List TestData.TableDef) (s : σ),
      (DB.stepTuples conn mode p s tds).length = tds.length := by
  intro tds
  induction tds with
  | nil => intro s; rfl
  | cons td rest ih => intro s; simp [DB.stepTuples, ih]

/-- Index-wise characterization of the step-tuple list. -/
theorem stepTuples_getD {σ : Type} (conn : Conn σ) (mode p : String) :
    ∀ (tds : List TestData.TableDef) (s : σ) (i : Nat),
      (DB.stepTuples conn mode p s tds).getD i ("", false, "") =
        (if i < tds.length then
          DB.stepTuple conn mode p (DB.stateAfter conn mode p s (tds.take i))
            (tds.getD i (TestData.TableDef.mk "" "" none "" none))
        else ("", false, "")) := by
  intro tds
  induction tds with
  | nil => intro s i; simp [DB.stepTuples]
  | cons td rest ih =>
    intro s i
    cases i with
    | zero => simp [DB.stepTuples, DB.stateAfter]
    | succ n =>
      have := ih (DB.stepState conn mode p s td) n
      simp only [DB.stepTuples, List.getD_cons_succ, this, List.take_succ_cons,
        List.length_cons, Nat.succ_lt_succ_iff, DB.stateAfter, List.foldl_cons]

/-- Claim C5: `setup_test_tables` never raises and returns exactly one
`(name, success, message)` tuple per entry of `TEST_TABLES`, in definition
order: a DDL failure yields `(name (DDL), False, message)` with the DML not
executed (the connection state threads straight past it), a DML-only failure
yields `(name (DML), False, message)`, and success yields
`(name, True, "Created and populated")` — as packaged by `stepTuple`, with
the connection state threaded by `stepState`. -/
theorem claim_C5 {σ : Type} (conn : Conn σ) (mode schemaPfx : String) (s : σ) :
    ∃ r, DB.setup_test_tables conn mode schemaPfx s =
        (DB.stateAfter conn mode (DB.loop_pfx mode schemaPfx)
          (DB.use_context conn mode schemaPfx s) TestData.TEST_TABLES, .ok r)
    ∧ r.length = TestData.TEST_TABLES.length
    ∧ ∀ i, r.getD i ("", false, "") =
        (if i < TestData.TEST_TABLES.length then
          DB.stepTuple conn mode (DB.loop_pfx mode schemaPfx)
            (DB.stateAfter conn mode (DB.loop_pfx mode schemaPfx)
              (DB.use_context conn mode schemaPfx s) (TestData.TEST_TABLES.take i))
            (TestData.TEST_TABLES.getD i (TestData.TableDef.mk "" "" none "" none))
        else ("", false, "")) := by
  refine ⟨DB.stepTuples conn mode (DB.loop_pfx mode schemaPfx)
    (DB.use_context conn mode schemaPfx s) TestData.TEST_TABLES, ?_, ?_, ?_⟩
  · rw [DB.setup_test_tables]
    exact setupLoop_ok conn mode (DB.loop_pfx mode schemaPfx) TestData.TEST_TABLES
      (fun _ h => h) (DB.use_context conn mode schemaPfx s)
  · exact stepTuples_length conn mode (DB.loop_pfx mode schemaPfx) TestData.TEST_TABLES
      (DB.use_context conn mode schemaPfx s)
  · intro i
    exact stepTuples_getD conn mode (DB.loop_pfx mode schemaPfx) TestData.TEST_TABLES
      (DB.use_context conn mode schemaPfx s) i

/-- Quote-freeness of a cons. -/
theorem dq_noQuote_cons {c : Char} {cs : List Char} :
    Deploy.noQuote (c :: cs) ↔ c ≠ '\'' ∧ Deploy.noQuote cs := by
  simp [Deploy.noQuote, eq_comm]

/-- Quote-freeness of an append. -/
theorem dq_noQuote_append {a b : List Char} :
    Deploy.noQuote (a ++ b) ↔ Deploy.noQuote a ∧ Deploy.noQuote b := by
  simp [Deploy.noQuote, not_or]

/-- Having no quote characters is the same as filtering out none. -/
theorem dq_quotes_nil_iff : ∀ {l : List Char},
    Deploy.quotes l = [] ↔ Deploy.noQuote l := by
  intro l
  induction l with
  | nil => simp [Deploy.quotes, Deploy.noQuote]
  | cons c cs ih =>
    by_cases hc : c = '\''
    · subst hc
      simp [Deploy.quotes, List.filter_cons, Deploy.noQuote]
    · rw [dq_noQuote_cons]
      simp only [Deploy.quotes, List.filter_cons, decide_eq_true_eq, if_neg hc]
      constructor
      · intro h; exact ⟨hc, ih.mp h⟩
      · rintro ⟨_, h⟩; exact ih.mpr h

/-- Quotes distribute over append. -/
theorem dq_quotes_append (a b : List Char) :
    Deploy.quotes (a ++ b) = Deploy.quotes a ++ Deploy.quotes b := by
  simp [Deploy.quotes]

/-- A list that is not quote-free splits at its first quote. -/
theorem dq_quote_decomp : ∀ {l : List Char}, ¬ Deploy.noQuote l →
    ∃ u v, l = u ++ '\'' :: v ∧ Deploy.noQuote u := by
  intro l
  induction l with
  | nil => intro h; exact absurd (by simp [Deploy.noQuote]) h
  | cons c cs ih =>
    intro h
    by_cases hc : c = '\''
    · exact ⟨[], cs, by simp [hc], by simp [Deploy.noQuote]⟩
    · have : ¬ Deploy.noQuote cs := fun hq => h (dq_noQuote_cons.mpr ⟨hc, hq⟩)
      rcases ih this with ⟨u, v, hl, hu⟩
      exact ⟨c :: u, v, by simp [hl], dq_noQuote_cons.mpr ⟨hc, hu⟩⟩

/-- A list with exactly one quote splits around it into quote-free halves. -/
theorem dq_quotes_one : ∀ {l : List Char}, Deploy.quotes l = ['\''] →
    ∃ u v, l = u ++ '\'' :: v ∧ Deploy.noQuote u ∧ Deploy.noQuote v := by
  intro l
  induction l with
  | nil => intro h; simp [Deploy.quotes] at h
  | cons c cs ih =>
    intro h
    by_cases hc : c = '\''
    · subst hc
      have hcs : Deploy.quotes cs = [] := by
        have h2 : '\'' :: Deploy.quotes cs = ['\''] := by
          simpa [Deploy.quotes, List.filter_cons] using h
        simpa using h2
      exact ⟨[], cs, by simp, by simp [Deploy.noQuote], dq_quotes_nil_iff.mp hcs⟩
    · have hcs : Deploy.quotes cs = ['\''] := by
        simpa [Deploy.quotes, List.filter_cons, hc] using h
      rcases ih hcs with ⟨u, v, hl, hu, hv⟩
      exact ⟨c :: u, v, by simp [hl], dq_noQuote_cons.mpr ⟨hc, hu⟩, hv⟩

/-- A non-quote head passes through `wfBody`. -/
theorem dq_wfBody_cons {c : Char} (hc : c ≠ '\'') (cs : List Char) :
    Deploy.wfBody (c :: cs) = Deploy.wfBody cs := by
  cases cs with
  | nil => simp [Deploy.wfBody, hc]
  | cons c2 cs2 =>
    by_cases h2 : c2 = '\'' <;> simp [Deploy.wfBody, hc, h2]


/-- Unfolding: `scanLit` on empty input. -/
theorem dq_scanLit_nil : Deploy.scanLit [] = none := rfl

/-- Unfolding: `scanLit` on a lone closing quote. -/
theorem dq_scanLit_one : Deploy.scanLit ['\''] = some ([], []) := rfl

/-- Unfolding: `scanLit` at a doubled quote tries the greedy continuation and
falls back to closing at the first quote. -/
theorem dq_scanLit_pair (cs : List Char) :
    Deploy.scanLit ('\'' :: '\'' :: cs) =
      (match Deploy.scanLit cs with
       | some (content, rest) => some ('\'' :: '\'' :: content, rest)
       | none => some ([], '\'' :: cs)) := rfl

/-- Unfolding: `scanLit` at a quote followed by a non-quote closes there. -/
theorem dq_scanLit_single {c : Char} (hc : c ≠ '\'') (cs : List Char) :
    Deploy.scanLit ('\'' :: c :: cs) = some ([], c :: cs) := by
  rw [Deploy.scanLit.eq_def]
  simp [hc]

/-- Unfolding: `scanLit` consumes a non-quote character into the body. -/
theorem dq_scanLit_nonq {c : Char} (hc : c ≠ '\'') (cs : List Char) :
    Deploy.scanLit (c :: cs) =
      (match Deploy.scanLit cs with
       | some (content, rest) => some (c :: content, rest)
       | none => none) := by
  rw [Deploy.scanLit.eq_def]
  simp [hc]

/-- `scanLit` fails exactly on quote-free input: any quote can close the
(possibly empty) literal body. -/
theorem dq_scanLit_none_iff : ∀ cs : List Char,
    Deploy.scanLit cs = none ↔ Deploy.noQuote cs := by
  intro cs
  induction cs using Deploy.scanLit.induct with
  | case1 => simp [dq_scanLit_nil, Deploy.noQuote]
  | case2 => simp [dq_scanLit_one, Deploy.noQuote]
  | case3 cs content rest hs ih =>
    rw [dq_scanLit_pair, hs]
    simp [Deploy.noQuote]
  | case4 cs hs ih =>
    rw [dq_scanLit_pair, hs]
    simp [Deploy.noQuote]
  | case5 c cs hc => simp [dq_scanLit_single hc, Deploy.noQuote]
  | case6 c cs hc content rest hs ih =>
    rw [dq_scanLit_nonq hc, hs]
    have hncs : ¬ Deploy.noQuote cs := fun hq => by
      rw [ih.mpr hq] at hs; exact Option.noConfusion hs
    simp [dq_noQuote_cons, hncs]
  | case7 c cs hc hs ih =>
    rw [dq_scanLit_nonq hc, hs]
    simp [dq_noQuote_cons, hc, ih.mp hs]

/-- Soundness of `scanLit`: a successful scan decomposes its input into a
wellformed body, the closing quote, and a well-shaped remainder. -/
theorem dq_scanLit_spec : ∀ cs b r, Deploy.scanLit cs = some (b, r) →
    cs = b ++ '\'' :: r ∧ Deploy.wfBody b = true ∧ Deploy.restShape r := by
  intro cs
  induction cs using Deploy.scanLit.induct with
  | case1 => intro b r h; simp [dq_scanLit_nil] at h
  | case2 =>
    intro b r h
    rw [dq_scanLit_one] at h
    simp only [Option.some.injEq, Prod.mk.injEq] at h
    obtain ⟨hb, hr⟩ := h
    subst hb; subst hr
    exact ⟨rfl, rfl, Or.inl rfl⟩
  | case3 cs content rest hs ih =>
    intro b r h
    rw [dq_scanLit_pair, hs] at h
    simp only [Option.some.injEq, Prod.mk.injEq] at h
    obtain ⟨hb, hr⟩ := h
    subst hb; subst hr
    rcases ih content rest hs with ⟨hcs, hwf, hrs⟩
    refine ⟨by rw [hcs]; simp, ?_, hrs⟩
    simpa [Deploy.wfBody] using hwf
  | case4 cs hs ih =>
    intro b r h
    rw [dq_scanLit_pair, hs] at h
    simp only [Option.some.injEq, Prod.mk.injEq] at h
    obtain ⟨hb, hr⟩ := h
    subst hb; subst hr
    have hnq : Deploy.noQuote cs := (dq_scanLit_none_iff cs).mp hs
    exact ⟨rfl, rfl, Or.inr (Or.inr ⟨cs, rfl, hnq⟩)⟩
  | case5 c cs hc =>
    intro b r h
    rw [dq_scanLit_single hc] at h
    simp only [Option.some.injEq, Prod.mk.injEq] at h
    obtain ⟨hb, hr⟩ := h
    subst hb; subst hr
    exact ⟨rfl, rfl, Or.inr (Or.inl ⟨c, cs, rfl, hc⟩)⟩
  | case6 c cs hc content rest hs ih =>
    intro b r h
    rw [dq_scanLit_nonq hc, hs] at h
    simp only [Option.some.injEq, Prod.mk.injEq] at h
    obtain ⟨hb, hr⟩ := h
    subst hb; subst hr
    rcases ih content rest hs with ⟨hcs, hwf, hrs⟩
    refine ⟨by rw [hcs]; simp, ?_, hrs⟩
    rw [dq_wfBody_cons hc]
    exact hwf
  | case7 c cs hc hs ih =>
    intro b r h
    rw [dq_scanLit_nonq hc, hs] at h
    exact Option.noConfusion h

/-- Completeness of `scanLit`: a wellformed body followed by the closing
quote and a well-shaped remainder scans back to exactly that split. -/
theorem dq_scanLit_complete : ∀ b, Deploy.wfBody b = true → ∀ r, Deploy.restShape r →
    Deploy.scanLit (b ++ '\'' :: r) = some (b, r) := by
  intro b
  induction b using Deploy.wfBody.induct with
  | case1 =>
    intro _ r hr
    rcases hr with rfl | ⟨c, cs, rfl, hc⟩ | ⟨v, rfl, hv⟩
    · exact dq_scanLit_one
    · exact dq_scanLit_single hc cs
    · have hnone : Deploy.scanLit v = none := (dq_scanLit_none_iff v).mpr hv
      show Deploy.scanLit ('\'' :: '\'' :: v) = _
      rw [dq_scanLit_pair, hnone]
  | case2 b' ih =>
    intro hwf r hr
    have hwf' : Deploy.wfBody b' = true := by simpa [Deploy.wfBody] using hwf
    have hrec := ih hwf' r hr
    show Deploy.scanLit ('\'' :: '\'' :: (b' ++ '\'' :: r)) = _
    rw [dq_scanLit_pair, hrec]
  | case3 tail htail =>
    intro hwf r hr
    exfalso
    cases tail with
    | nil => simp [Deploy.wfBody] at hwf
    | cons c2 cs2 =>
      by_cases h2 : c2 = '\''
      · exact htail cs2 (by rw [h2])
      · simp [Deploy.wfBody, h2] at hwf
  | case4 head cs hpat hhead ih =>
    intro hwf r hr
    have hc : head ≠ '\'' := fun h => hhead h
    have hwf' : Deploy.wfBody cs = true := by rwa [dq_wfBody_cons hc] at hwf
    have hrec := ih hwf' r hr
    show Deploy.scanLit (head :: (cs ++ '\'' :: r)) = _
    rw [dq_scanLit_nonq hc, hrec]

/-- Unfolding: `splitAux` on empty input flushes the accumulator. -/
theorem dq_splitAux_nil (acc : List Char) :
    Deploy.splitAux acc [] = [acc.reverse] := by
  rw [Deploy.splitAux.eq_def]

/-- Unfolding: `splitAux` at a quote whose tail scans to a literal emits the
pending segment and the literal. -/
theorem dq_splitAux_quote_some {cs b r : List Char}
    (hs : Deploy.scanLit cs = some (b, r)) (hlt : r.length < cs.length)
    (acc : List Char) :
    Deploy.splitAux acc ('\'' :: cs) =
      acc.reverse :: Deploy.litOf b :: Deploy.splitAux [] r := by
  rw [Deploy.splitAux.eq_def]
  simp [hs, hlt]

/-- Unfolding: `splitAux` at a quote with no literal in the tail keeps the
quote in the pending segment. -/
theorem dq_splitAux_quote_none {cs : List Char} (hs : Deploy.scanLit cs = none)
    (acc : List Char) :
    Deploy.splitAux acc ('\'' :: cs) = Deploy.splitAux ('\'' :: acc) cs := by
  rw [Deploy.splitAux.eq_def]
  simp [hs]

/-- Unfolding: `splitAux` pushes a non-quote character. -/
theorem dq_splitAux_nonq {c : Char} (hc : c ≠ '\'') (cs acc : List Char) :
    Deploy.splitAux acc (c :: cs) = Deploy.splitAux (c :: acc) cs := by
  rw [Deploy.splitAux.eq_def]
  simp [hc]

/-- Splitting quote-free input yields a single unmatched segment. -/
theorem dq_splitAux_noQuote : ∀ t : List Char, Deploy.noQuote t →
    ∀ acc, Deploy.splitAux acc t = [acc.reverse ++ t] := by
  intro t
  induction t with
  | nil => intro _ acc; simp [dq_splitAux_nil]
  | cons c cs ih =>
    intro hq acc
    obtain ⟨hc, hcs⟩ := dq_noQuote_cons.mp hq
    rw [dq_splitAux_nonq hc, ih hcs]
    simp

/-- Splitting a stray quote (with quote-free text on both sides) yields a
single unmatched segment. -/
theorem dq_splitAux_stray : ∀ u : List Char, Deploy.noQuote u →
    ∀ v, Deploy.noQuote v → ∀ acc,
      Deploy.splitAux acc (u ++ '\'' :: v) = [acc.reverse ++ (u ++ '\'' :: v)] := by
  intro u
  induction u with
  | nil =>
    intro _ v hv acc
    have hnone : Deploy.scanLit v = none := (dq_scanLit_none_iff v).mpr hv
    rw [List.nil_append, dq_splitAux_quote_none hnone, dq_splitAux_noQuote v hv]
    simp
  | cons c u' ih =>
    intro hq v hv acc
    obtain ⟨hc, hu'⟩ := dq_noQuote_cons.mp hq
    rw [List.cons_append, dq_splitAux_nonq hc, ih hu' v hv]
    simp

/-- Splitting a quote-free prefix, a literal, and a remainder emits the
prefix and the literal and continues on the remainder. -/
theorem dq_splitAux_lit : ∀ u : List Char, Deploy.noQuote u →
    ∀ v b r, Deploy.scanLit v = some (b, r) → ∀ acc,
      Deploy.splitAux acc (u ++ '\'' :: v) =
        (acc.reverse ++ u) :: Deploy.litOf b :: Deploy.splitAux [] r := by
  intro u
  induction u with
  | nil =>
    intro _ v b r hs acc
    have hv := (dq_scanLit_spec v b r hs).1
    have hlt : r.length < v.length := by
      rw [hv]; simp only [List.length_append, List.length_cons]; omega
    rw [List.nil_append, dq_splitAux_quote_some hs hlt]
    simp
  | cons c u' ih =>
    intro hq v b r hs acc
    obtain ⟨hc, hu'⟩ := dq_noQuote_cons.mp hq
    rw [List.cons_append, dq_splitAux_nonq hc, ih hu' v b r hs]
    simp

/-- Quotes of a list headed by a quote. -/
theorem dq_quotes_quote_cons (v : List Char) :
    Deploy.quotes ('\'' :: v) = '\'' :: Deploy.quotes v := by
  simp [Deploy.quotes, List.filter_cons]

/-- A quote-free rewrite of the even segments preserves the remainder shape
of a split. -/
theorem dq_restShape_subOutside (f : List Char → List Char)
    (hA : ∀ l, Deploy.quotes (f l) = Deploy.quotes l)
    (hB : ∀ l, l ≠ [] → f l ≠ [])
    (hC : f [] = []) :
    ∀ r, Deploy.restShape r → Deploy.restShape (Deploy.subOutside f r) := by
  have hnq : ∀ l, Deploy.noQuote l → Deploy.noQuote (f l) := by
    intro l hl
    exact dq_quotes_nil_iff.mp (by rw [hA]; exact dq_quotes_nil_iff.mpr hl)
  have hone : ∀ l, Deploy.quotes l = ['\''] → Deploy.restShape (f l) := by
    intro l hl
    have hqf : Deploy.quotes (f l) = ['\''] := by rw [hA]; exact hl
    rcases dq_quotes_one hqf with ⟨u', v', hfe, hu', hv'⟩
    rw [hfe]
    cases u' with
    | nil => exact Or.inr (Or.inr ⟨v', by simp, hv'⟩)
    | cons d ds =>
      exact Or.inr (Or.inl ⟨d, ds ++ '\'' :: v', by simp, (dq_noQuote_cons.mp hu').1⟩)
  have hstray : ∀ u v, Deploy.noQuote u → Deploy.noQuote v →
      Deploy.quotes (u ++ '\'' :: v) = ['\''] := by
    intro u v hu hv
    rw [dq_quotes_append, dq_quotes_nil_iff.mpr hu, List.nil_append,
      dq_quotes_quote_cons, dq_quotes_nil_iff.mpr hv]
  intro r hr
  rcases hr with rfl | ⟨c, cs, rfl, hc⟩ | ⟨v, rfl, hv⟩
  · show Deploy.restShape (Deploy.subOutside f [])
    have : Deploy.subOutside f [] = [] := by
      simp [Deploy.subOutside, dq_splitAux_nil, Deploy.mapEvens, hC]
    rw [this]
    exact Or.inl rfl
  · by_cases hq : Deploy.noQuote (c :: cs)
    · have hso : Deploy.subOutside f (c :: cs) = f (c :: cs) := by
        simp [Deploy.subOutside, dq_splitAux_noQuote _ hq [], Deploy.mapEvens]
      rw [hso]
      have hne : f (c :: cs) ≠ [] := hB _ (by simp)
      have hq2 : Deploy.noQuote (f (c :: cs)) := hnq _ hq
      cases hf : f (c :: cs) with
      | nil => exact absurd hf hne
      | cons d ds =>
        refine Or.inr (Or.inl ⟨d, ds, rfl, ?_⟩)
        rw [hf] at hq2
        exact (dq_noQuote_cons.mp hq2).1
    · rcases dq_quote_decomp hq with ⟨u, v2, heq, hu⟩
      rcases hsv : Deploy.scanLit v2 with _ | ⟨b, r2⟩
      · have hv2 : Deploy.noQuote v2 := (dq_scanLit_none_iff v2).mp hsv
        have hso : Deploy.subOutside f (c :: cs) = f (c :: cs) := by
          simp [Deploy.subOutside, heq, dq_splitAux_stray u hu v2 hv2 [], Deploy.mapEvens]
        rw [hso]
        have : Deploy.quotes (c :: cs) = ['\''] := by rw [heq]; exact hstray u v2 hu hv2
        exact hone _ this
      · have hune : u ≠ [] := by
          intro h0
          rw [h0] at heq
          simp at heq
          exact hc heq.1
        have hso : Deploy.subOutside f (c :: cs) =
            f u ++ Deploy.litOf b ++ (Deploy.mapEvens f (Deploy.splitAux [] r2)).join := by
          simp [Deploy.subOutside, heq, dq_splitAux_lit u hu v2 b r2 hsv [],
            Deploy.mapEvens]
        rw [hso]
        have hfu_ne := hB u hune
        have hfu_nq : Deploy.noQuote (f u) := hnq _ hu
        cases hf : f u with
        | nil => exact absurd hf hfu_ne
        | cons d ds =>
          refine Or.inr (Or.inl ⟨d, ds ++ Deploy.litOf b ++
            (Deploy.mapEvens f (Deploy.splitAux [] r2)).join, by simp, ?_⟩)
          rw [hf] at hfu_nq
          exact (dq_noQuote_cons.mp hfu_nq).1
  · have hstray' := dq_splitAux_stray [] (by simp [Deploy.noQuote]) v hv []
    simp only [List.nil_append, List.reverse_nil] at hstray'
    have hso : Deploy.subOutside f ('\'' :: v) = f ('\'' :: v) := by
      simp [Deploy.subOutside, hstray', Deploy.mapEvens]
    rw [hso]
    have : Deploy.quotes ('\'' :: v) = ['\''] := hstray [] v (by simp [Deploy.noQuote]) hv
    exact hone _ this

/-- Master lemma: rewriting only the unmatched segments with a function that
preserves the quote characters, non-emptiness, and the empty list leaves the
sequence of captured literal segments unchanged after re-splitting. -/
theorem dq_subOutside_odds (f : List Char → List Char)
    (hA : ∀ l, Deploy.quotes (f l) = Deploy.quotes l)
    (hB : ∀ l, l ≠ [] → f l ≠ [])
    (hC : f [] = []) :
    ∀ l, Deploy.oddParts (Deploy.splitAux [] (Deploy.subOutside f l)) =
         Deploy.oddParts (Deploy.splitAux [] l) := by
  have hnq : ∀ l, Deploy.noQuote l → Deploy.noQuote (f l) := by
    intro l hl
    exact dq_quotes_nil_iff.mp (by rw [hA]; exact dq_quotes_nil_iff.mpr hl)
  suffices h : ∀ n (l : List Char), l.length ≤ n →
      Deploy.oddParts (Deploy.splitAux [] (Deploy.subOutside f l)) =
      Deploy.oddParts (Deploy.splitAux [] l) from fun l => h l.length l le_rfl
  intro n
  induction n with
  | zero =>
    intro l hl
    have h0 : l = [] := List.eq_nil_of_length_eq_zero (Nat.le_zero.mp hl)
    subst h0
    have : Deploy.subOutside f [] = [] := by
      simp [Deploy.subOutside, dq_splitAux_nil, Deploy.mapEvens, hC]
    rw [this]
  | succ n ihn =>
    intro l hl
    by_cases hq : Deploy.noQuote l
    · have hso : Deploy.subOutside f l = f l := by
        simp [Deploy.subOutside, dq_splitAux_noQuote l hq [], Deploy.mapEvens]
      rw [hso, dq_splitAux_noQuote l hq [], dq_splitAux_noQuote (f l) (hnq l hq) []]
      rfl
    · rcases dq_quote_decomp hq with ⟨u, v, heq, hu⟩
      subst heq
      rcases hsv : Deploy.scanLit v with _ | ⟨b, r⟩
      · have hv : Deploy.noQuote v := (dq_scanLit_none_iff v).mp hsv
        have hso : Deploy.subOutside f (u ++ '\'' :: v) = f (u ++ '\'' :: v) := by
          simp [Deploy.subOutside, dq_splitAux_stray u hu v hv [], Deploy.mapEvens]
        have hql : Deploy.quotes (u ++ '\'' :: v) = ['\''] := by
          rw [dq_quotes_append, dq_quotes_nil_iff.mpr hu, List.nil_append,
            dq_quotes_quote_cons, dq_quotes_nil_iff.mpr hv]
        have hqf : Deploy.quotes (f (u ++ '\'' :: v)) = ['\''] := by rw [hA]; exact hql
        rcases dq_quotes_one hqf with ⟨u', v', hfe, hu', hv'⟩
        rw [hso, hfe, dq_splitAux_stray u' hu' v' hv' [],
          dq_splitAux_stray u hu v hv []]
        rfl
      · obtain ⟨hveq, hwf, hrs⟩ := dq_scanLit_spec v b r hsv
        have hso : Deploy.subOutside f (u ++ '\'' :: v) =
            f u ++ '\'' :: (b ++ '\'' :: Deploy.subOutside f r) := by
          simp [Deploy.subOutside, dq_splitAux_lit u hu v b r hsv [],
            Deploy.mapEvens, Deploy.litOf]
        have hJ := dq_restShape_subOutside f hA hB hC r hrs
        have hscan2 : Deploy.scanLit (b ++ '\'' :: Deploy.subOutside f r) =
            some (b, Deploy.subOutside f r) := dq_scanLit_complete b hwf _ hJ
        have hlen : r.length ≤ n := by
          rw [hveq] at hl
          simp only [List.length_append, List.length_cons] at hl
          omega
        rw [hso, dq_splitAux_lit (f u) (hnq u hu) _ b _ hscan2 [],
          dq_splitAux_lit u hu v b r hsv []]
        show Deploy.litOf b :: Deploy.oddParts (Deploy.splitAux [] (Deploy.subOutside f r)) =
          Deploy.litOf b :: Deploy.oddParts (Deploy.splitAux [] r)
        rw [ihn r hlen]

/-- Quotes of a cons. -/
theorem dq_quotes_cons (c : Char) (l : List Char) :
    Deploy.quotes (c :: l) =
      (if c = '\'' then ['\''] else []) ++ Deploy.quotes l := by
  by_cases hc : c = '\'' <;> simp [Deploy.quotes, List.filter_cons, hc]

/-- Unfolding: the substitution driver on empty input. -/
theorem dq_subDriver_nil (tryM : List Char → Option (List Char × Bool × List Char))
    (bnd : Bool) : Deploy.subDriver tryM bnd [] = [] := by
  rw [Deploy.subDriver.eq_def]

/-- Unfolding: a successful match at a boundary emits the replacement. -/
theorem dq_subDriver_some {tryM : List Char → Option (List Char × Bool × List Char)}
    {c : Char} {cs repl : List Char} {bnd' : Bool} {rest : List Char}
    (h : tryM (c :: cs) = some (repl, bnd', rest))
    (hlt : rest.length < cs.length + 1) :
    Deploy.subDriver tryM true (c :: cs) = repl ++ Deploy.subDriver tryM bnd' rest := by
  rw [Deploy.subDriver.eq_def]
  simp [h, hlt]

/-- Unfolding: no match at a boundary copies the character. -/
theorem dq_subDriver_none {tryM : List Char → Option (List Char × Bool × List Char)}
    {c : Char} {cs : List Char} (h : tryM (c :: cs) = none) :
    Deploy.subDriver tryM true (c :: cs) =
      c :: Deploy.subDriver tryM (!Deploy.isWordChar c) cs := by
  rw [Deploy.subDriver.eq_def]
  simp [h]

/-- Unfolding: inside a word no match is attempted. -/
theorem dq_subDriver_false (tryM : List Char → Option (List Char × Bool × List Char))
    (c : Char) (cs : List Char) :
    Deploy.subDriver tryM false (c :: cs) =
      c :: Deploy.subDriver tryM (!Deploy.isWordChar c) cs := by
  rw [Deploy.subDriver.eq_def]
  simp

/-- The substitution driver preserves the sequence of quote characters when
every replacement carries exactly the quotes of its matched segment. -/
theorem dq_subDriver_quotes (tryM : List Char → Option (List Char × Bool × List Char))
    (HT : ∀ c cs repl bnd' rest, tryM (c :: cs) = some (repl, bnd', rest) →
      ∃ seg, c :: cs = seg ++ rest ∧ seg ≠ [] ∧
        Deploy.quotes repl = Deploy.quotes seg) :
    ∀ l bnd, Deploy.quotes (Deploy.subDriver tryM bnd l) = Deploy.quotes l := by
  suffices h : ∀ n (l : List Char), l.length ≤ n → ∀ bnd,
      Deploy.quotes (Deploy.subDriver tryM bnd l) = Deploy.quotes l from
    fun l => h l.length l le_rfl
  intro n
  induction n with
  | zero =>
    intro l hl bnd
    have h0 : l = [] := List.eq_nil_of_length_eq_zero (Nat.le_zero.mp hl)
    subst h0
    rw [dq_subDriver_nil]
  | succ n ihn =>
    intro l hl bnd
    cases l with
    | nil => rw [dq_subDriver_nil]
    | cons c cs =>
      have hcs : cs.length ≤ n := by
        simp only [List.length_cons] at hl; omega
      cases bnd with
      | false =>
        rw [dq_subDriver_false, dq_quotes_cons, dq_quotes_cons, ihn cs hcs]
      | true =>
        cases htry : tryM (c :: cs) with
        | none =>
          rw [dq_subDriver_none htry, dq_quotes_cons, dq_quotes_cons, ihn cs hcs]
        | some val =>
          obtain ⟨repl, bnd', rest⟩ := val
          rcases HT c cs repl bnd' rest htry with ⟨seg, hseg, hne, hq⟩
          have hlt : rest.length < cs.length + 1 := by
            have := congrArg List.length hseg
            simp only [List.length_cons, List.length_append] at this
            have : seg.length ≥ 1 := by
              cases seg with
              | nil => exact absurd rfl hne
              | cons _ _ => simp
            omega
          have hrest : rest.length ≤ n := by
            have := congrArg List.length hseg
            simp only [List.length_cons, List.length_append] at this
            have hs1 : seg.length ≥ 1 := by
              cases seg with
              | nil => exact absurd rfl hne
              | cons _ _ => simp
            omega
          rw [dq_subDriver_some htry hlt, dq_quotes_append, hq,
            ihn rest hrest, ← dq_quotes_append, ← hseg]

/-- The substitution driver maps non-empty input to non-empty output when
replacements are non-empty. -/
theorem dq_subDriver_ne_nil (tryM : List Char → Option (List Char × Bool × List Char))
    (HR : ∀ c cs repl bnd' rest, tryM (c :: cs) = some (repl, bnd', rest) → repl ≠ [])
    (bnd : Bool) (c : Char) (cs : List Char) :
    Deploy.subDriver tryM bnd (c :: cs) ≠ [] := by
  cases bnd with
  | false => rw [dq_subDriver_false]; simp
  | true =>
    cases htry : tryM (c :: cs) with
    | none => rw [dq_subDriver_none htry]; simp
    | some val =>
      obtain ⟨repl, bnd', rest⟩ := val
      by_cases hlt : rest.length < cs.length + 1
      · rw [dq_subDriver_some htry hlt]
        have := HR c cs repl bnd' rest htry
        intro hcontra
        rcases List.append_eq_nil.mp hcontra with ⟨h1, _⟩
        exact this h1
      · rw [Deploy.subDriver.eq_def]
        simp [htry, hlt]

/-- A case-insensitive match against a pattern without quote-like characters
consumes a quote-free prefix of the pattern's length. -/
theorem dq_matchCI_spec : ∀ p l r, Deploy.matchCI p l = some r →
    (∀ k ∈ p, k.toLower ≠ '\'') →
    ∃ seg, l = seg ++ r ∧ Deploy.noQuote seg ∧ seg.length = p.length := by
  intro p
  induction p with
  | nil =>
    intro l r h _
    simp only [Deploy.matchCI, Option.some.injEq] at h
    exact ⟨[], by simp [h], by simp [Deploy.noQuote], rfl⟩
  | cons k ks ih =>
    intro l r h hp
    cases l with
    | nil => simp [Deploy.matchCI] at h
    | cons c cs =>
      simp only [Deploy.matchCI] at h
      split at h
      case isTrue hck =>
        rcases ih cs r h (fun k2 hk2 => hp k2 (by simp [hk2])) with ⟨seg, hseg, hq, hlen⟩
        refine ⟨c :: seg, by simp [hseg], ?_, by simp [hlen]⟩
        rw [dq_noQuote_cons]
        refine ⟨?_, hq⟩
        intro hc
        subst hc
        have : Char.toLower '\'' = '\'' := by decide
        rw [this] at hck
        exact hp k (by simp) hck.symm
      case isFalse => exact Option.noConfusion h

/-- A `takeWhile` over a predicate false at the quote keeps quotes out. -/
theorem dq_noQuote_takeWhile (q : Char → Bool) (hq : q '\'' = false) (l : List Char) :
    Deploy.noQuote (l.takeWhile q) := by
  intro hmem
  have := List.mem_takeWhile_imp hmem
  rw [hq] at this
  exact Bool.noConfusion this

/-- Dropping the length of the matched `takeWhile` prefix is `dropWhile`. -/
theorem dq_drop_takeWhile (q : Char → Bool) :
    ∀ l : List Char, l.drop (l.takeWhile q).length = l.dropWhile q := by
  intro l
  induction l with
  | nil => rfl
  | cons c cs ih =>
    by_cases h : q c
    · simp [List.takeWhile_cons, List.dropWhile_cons, h, ih]
    · simp [List.takeWhile_cons, List.dropWhile_cons, h]

/-- Taking then dropping reassembles the list. -/
theorem dq_takeWhile_drop (q : Char → Bool) (l : List Char) :
    l.takeWhile q ++ l.drop (l.takeWhile q).length = l := by
  rw [dq_drop_takeWhile]
  exact List.takeWhile_append_dropWhile q l

/-- The matched-segment property of the `\bVARIANT\b` matcher. -/
theorem dq_tryVariant_spec : ∀ c cs repl bnd' rest,
    Deploy.tryVariant (c :: cs) = some (repl, bnd', rest) →
    repl ≠ [] ∧ ∃ seg, c :: cs = seg ++ rest ∧ seg ≠ [] ∧
      Deploy.quotes repl = Deploy.quotes seg := by
  intro c cs repl bnd' rest h
  rw [Deploy.tryVariant] at h
  cases hm : Deploy.matchCI "VARIANT".data (c :: cs) with
  | none => rw [hm] at h; exact Option.noConfusion h
  | some r0 =>
    rw [hm] at h
    have h2 : (if Deploy.bndAfterWord r0 = true then
        some ("JSON".data, false, r0) else none) = some (repl, bnd', rest) := h
    by_cases hb : Deploy.bndAfterWord r0 = true
    · rw [if_pos hb] at h2
      simp only [Option.some.injEq, Prod.mk.injEq] at h2
      obtain ⟨hrepl, hbnd, hrest⟩ := h2
      subst hrepl; subst hrest
      rcases dq_matchCI_spec _ _ _ hm (by decide) with ⟨seg, hseg, hq, hlen⟩
      refine ⟨by simp, seg, hseg, ?_, ?_⟩
      · intro h0; rw [h0] at hlen; simp at hlen
      · rw [dq_quotes_nil_iff.mpr hq]; rfl
    · rw [if_neg hb] at h2
      exact Option.noConfusion h2

/-- The matched-segment property of the `\bTIMESTAMP_NTZ\b` matcher. -/
theorem dq_tryTs_spec : ∀ c cs repl bnd' rest,
    Deploy.tryTs (c :: cs) = some (repl, bnd', rest) →
    repl ≠ [] ∧ ∃ seg, c :: cs = seg ++ rest ∧ seg ≠ [] ∧
      Deploy.quotes repl = Deploy.quotes seg := by
  intro c cs repl bnd' rest h
  rw [Deploy.tryTs] at h
  cases hm : Deploy.matchCI "TIMESTAMP_NTZ".data (c :: cs) with
  | none => rw [hm] at h; exact Option.noConfusion h
  | some r0 =>
    rw [hm] at h
    have h2 : (if Deploy.bndAfterWord r0 = true then
        some ("TIMESTAMP".data, false, r0) else none) = some (repl, bnd', rest) := h
    by_cases hb : Deploy.bndAfterWord r0 = true
    · rw [if_pos hb] at h2
      simp only [Option.some.injEq, Prod.mk.injEq] at h2
      obtain ⟨hrepl, hbnd, hrest⟩ := h2
      subst hrepl; subst hrest
      rcases dq_matchCI_spec _ _ _ hm (by decide) with ⟨seg, hseg, hq, hlen⟩
      refine ⟨by simp, seg, hseg, ?_, ?_⟩
      · intro h0; rw [h0] at hlen; simp at hlen
      · rw [dq_quotes_nil_iff.mpr hq]; rfl
    · rw [if_neg hb] at h2
      exact Option.noConfusion h2

/-- The matched-segment property of the `\bNUMBER\b` matcher. -/
theorem dq_tryNum_spec : ∀ c cs repl bnd' rest,
    Deploy.tryNum (c :: cs) = some (repl, bnd', rest) →
    repl ≠ [] ∧ ∃ seg, c :: cs = seg ++ rest ∧ seg ≠ [] ∧
      Deploy.quotes repl = Deploy.quotes seg := by
  intro c cs repl bnd' rest h
  rw [Deploy.tryNum] at h
  cases hm : Deploy.matchCI "NUMBER".data (c :: cs) with
  | none => rw [hm] at h; exact Option.noConfusion h
  | some r0 =>
    rw [hm] at h
    have h2 : (if Deploy.bndAfterWord r0 = true then
        some ("DOUBLE".data, false, r0) else none) = some (repl, bnd', rest) := h
    by_cases hb : Deploy.bndAfterWord r0 = true
    · rw [if_pos hb] at h2
      simp only [Option.some.injEq, Prod.mk.injEq] at h2
      obtain ⟨hrepl, hbnd, hrest⟩ := h2
      subst hrepl; subst hrest
      rcases dq_matchCI_spec _ _ _ hm (by decide) with ⟨seg, hseg, hq, hlen⟩
      refine ⟨by simp, seg, hseg, ?_, ?_⟩
      · intro h0; rw [h0] at hlen; simp at hlen
      · rw [dq_quotes_nil_iff.mpr hq]; rfl
    · rw [if_neg hb] at h2
      exact Option.noConfusion h2

/-- Soundness of the single-character expectation. -/
theorem dq_expectChar_spec {ch : Char} : ∀ {l r : List Char},
    Deploy.expectChar ch l = some r → l = ch :: r := by
  intro l r h
  cases l with
  | nil => exact Option.noConfusion h
  | cons c cs =>
    simp only [Deploy.expectChar] at h
    split at h
    next hc =>
      subst hc
      injection h with h2
      rw [h2]
    next => exact Option.noConfusion h

/-- Whitespace-drop decomposition. -/
theorem dq_dropWs_decomp (l : List Char) :
    l = l.takeWhile Char.isWhitespace ++ Deploy.dropWs l :=
  (List.takeWhile_append_dropWhile Char.isWhitespace l).symm

/-- Digit-run decomposition. -/
theorem dq_afterDigits_decomp (l : List Char) :
    l = Deploy.digitsOf l ++ Deploy.afterDigits l :=
  (dq_takeWhile_drop Char.isDigit l).symm

/-- Group-run decomposition. -/
theorem dq_afterGroup_decomp (l : List Char) :
    l = Deploy.groupOf l ++ Deploy.afterGroup l :=
  (dq_takeWhile_drop (fun c => c ≠ ')') l).symm

/-- Whitespace runs contain no quote. -/
theorem dq_noQuote_ws (l : List Char) :
    Deploy.noQuote (l.takeWhile Char.isWhitespace) :=
  dq_noQuote_takeWhile Char.isWhitespace (by decide) l

/-- Digit runs contain no quote. -/
theorem dq_noQuote_digits (l : List Char) : Deploy.noQuote (Deploy.digitsOf l) :=
  dq_noQuote_takeWhile Char.isDigit (by decide) l

/-- The matched-segment property of the `\bTIMESTAMP_NTZ\s*\(\s*\d+\s*\)`
matcher. -/
theorem dq_tryTsParen_spec : ∀ c cs repl bnd' rest,
    Deploy.tryTsParen (c :: cs) = some (repl, bnd', rest) →
    repl ≠ [] ∧ ∃ seg, c :: cs = seg ++ rest ∧ seg ≠ [] ∧
      Deploy.quotes repl = Deploy.quotes seg := by
  intro c cs repl bnd' rest h
  rw [Deploy.tryTsParen] at h
  cases hm : Deploy.matchCI "TIMESTAMP_NTZ".data (c :: cs) with
  | none => rw [hm] at h; exact Option.noConfusion h
  | some r1 =>
    rw [hm] at h
    have h1 : (match Deploy.expectChar '(' (Deploy.dropWs r1) with
      | none => none
      | some r2 =>
        if Deploy.digitsOf (Deploy.dropWs r2) = [] then none
        else
          match Deploy.expectChar ')'
              (Deploy.dropWs (Deploy.afterDigits (Deploy.dropWs r2))) with
          | none => none
          | some r4 => some ("TIMESTAMP".data, true, r4)) = some (repl, bnd', rest) := h
    cases hp1 : Deploy.expectChar '(' (Deploy.dropWs r1) with
    | none => rw [hp1] at h1; exact Option.noConfusion h1
    | some r2 =>
      rw [hp1] at h1
      have h2 : (if Deploy.digitsOf (Deploy.dropWs r2) = [] then none
        else
          match Deploy.expectChar ')'
              (Deploy.dropWs (Deploy.afterDigits (Deploy.dropWs r2))) with
          | none => none
          | some r4 => some ("TIMESTAMP".data, true, r4)) = some (repl, bnd', rest) := h1
      by_cases hdg : Deploy.digitsOf (Deploy.dropWs r2) = []
      · rw [if_pos hdg] at h2; exact Option.noConfusion h2
      · rw [if_neg hdg] at h2
        cases hp2 : Deploy.expectChar ')'
            (Deploy.dropWs (Deploy.afterDigits (Deploy.dropWs r2))) with
        | none =>
          rw [hp2] at h2
          exact Option.noConfusion h2
        | some r4 =>
          rw [hp2] at h2
          have h3 : some (("TIMESTAMP".data, true, r4) :
              List Char × Bool × List Char) = some (repl, bnd', rest) := h2
          simp only [Option.some.injEq, Prod.mk.injEq] at h3
          obtain ⟨hrepl, _, hrest⟩ := h3
          subst hrepl; subst hrest
          rcases dq_matchCI_spec _ _ _ hm (by decide) with ⟨seg0, hseg0, hq0, hlen0⟩
          refine ⟨by simp, seg0 ++ r1.takeWhile Char.isWhitespace ++ '(' ::
            (r2.takeWhile Char.isWhitespace ++ Deploy.digitsOf (Deploy.dropWs r2) ++
             ((Deploy.afterDigits (Deploy.dropWs r2)).takeWhile Char.isWhitespace ++
              [')'])), ?_, ?_, ?_⟩
          · rw [hseg0]
            conv =>
              lhs
              rw [dq_dropWs_decomp r1, dq_expectChar_spec hp1,
                dq_dropWs_decomp r2]
              rw [show Deploy.dropWs r2 =
                Deploy.digitsOf (Deploy.dropWs r2) ++
                  Deploy.afterDigits (Deploy.dropWs r2) from
                dq_afterDigits_decomp (Deploy.dropWs r2)]
              rw [dq_dropWs_decomp (Deploy.afterDigits (Deploy.dropWs r2)),
                dq_expectChar_spec hp2]
            simp
          · simp
          · rw [dq_quotes_nil_iff.mpr, dq_quotes_nil_iff.mpr]
            · repeat rw [dq_noQuote_append]
              refine ⟨⟨hq0, dq_noQuote_ws r1⟩, ?_⟩
              rw [dq_noQuote_cons]
              refine ⟨by decide, ?_⟩
              repeat rw [dq_noQuote_append]
              refine ⟨⟨dq_noQuote_ws r2, dq_noQuote_digits _⟩,
                dq_noQuote_ws _, ?_⟩
              rw [dq_noQuote_cons]
              exact ⟨by decide, by simp [Deploy.noQuote]⟩
            · simp [Deploy.noQuote]

/-- The matched-segment property of the
`\bNUMBER\s*\(\s*(\d+)\s*,\s*(\d+)\s*\)` matcher. -/
theorem dq_tryNumParen_spec : ∀ c cs repl bnd' rest,
    Deploy.tryNumParen (c :: cs) = some (repl, bnd', rest) →
    repl ≠ [] ∧ ∃ seg, c :: cs = seg ++ rest ∧ seg ≠ [] ∧
      Deploy.quotes repl = Deploy.quotes seg := by
  intro c cs repl bnd' rest h
  rw [Deploy.tryNumParen] at h
  cases hm : Deploy.matchCI "NUMBER".data (c :: cs) with
  | none => rw [hm] at h; exact Option.noConfusion h
  | some r1 =>
    rw [hm] at h
    have h1 : (match Deploy.expectChar '(' (Deploy.dropWs r1) with
      | none => none
      | some r2 =>
        if Deploy.digitsOf (Deploy.dropWs r2) = [] then none
        else
          match Deploy.expectChar ','
              (Deploy.dropWs (Deploy.afterDigits (Deploy.dropWs r2))) with
          | none => none
          | some r4 =>
            if Deploy.digitsOf (Deploy.dropWs r4) = [] then none
            else
              match Deploy.expectChar ')'
                  (Deploy.dropWs (Deploy.afterDigits (Deploy.dropWs r4))) with
              | none => none
              | some r6 =>
                some ("DECIMAL(".data ++ Deploy.digitsOf (Deploy.dropWs r2) ++
                  [','] ++ Deploy.digitsOf (Deploy.dropWs r4) ++ [')'], true, r6))
        = some (repl, bnd', rest) := h
    cases hp1 : Deploy.expectChar '(' (Deploy.dropWs r1) with
    | none => rw [hp1] at h1; exact Option.noConfusion h1
    | some r2 =>
      rw [hp1] at h1
      have h2 : (if Deploy.digitsOf (Deploy.dropWs r2) = [] then none
        else
          match Deploy.expectChar ','
              (Deploy.dropWs (Deploy.afterDigits (Deploy.dropWs r2))) with
          | none => none
          | some r4 =>
            if Deploy.digitsOf (Deploy.dropWs r4) = [] then none
            else
              match Deploy.expectChar ')'
                  (Deploy.dropWs (Deploy.afterDigits (Deploy.dropWs r4))) with
              | none => none
              | some r6 =>
                some ("DECIMAL(".data ++ Deploy.digitsOf (Deploy.dropWs r2) ++
                  [','] ++ Deploy.digitsOf (Deploy.dropWs r4) ++ [')'], true, r6))
        = some (repl, bnd', rest) := h1
      by_cases hdg : Deploy.digitsOf (Deploy.dropWs r2) = []
      · rw [if_pos hdg] at h2; exact Option.noConfusion h2
      · rw [if_neg hdg] at h2
        cases hp2 : Deploy.expectChar ','
            (Deploy.dropWs (Deploy.afterDigits (Deploy.dropWs r2))) with
        | none => rw [hp2] at h2; exact Option.noConfusion h2
        | some r4 =>
          rw [hp2] at h2
          have h3 : (if Deploy.digitsOf (Deploy.dropWs r4) = [] then none
            else
              match Deploy.expectChar ')'
                  (Deploy.dropWs (Deploy.afterDigits (Deploy.dropWs r4))) with
              | none => none
              | some r6 =>
                some ("DECIMAL(".data ++ Deploy.digitsOf (Deploy.dropWs r2) ++
                  [','] ++ Deploy.digitsOf (Deploy.dropWs r4) ++ [')'], true, r6))
            = some (repl, bnd', rest) := h2
          by_cases hdg2 : Deploy.digitsOf (Deploy.dropWs r4) = []
          · rw [if_pos hdg2] at h3; exact Option.noConfusion h3
          · rw [if_neg hdg2] at h3
            cases hp3 : Deploy.expectChar ')'
                (Deploy.dropWs (Deploy.afterDigits (Deploy.dropWs r4))) with
            | none => rw [hp3] at h3; exact Option.noConfusion h3
            | some r6 =>
              rw [hp3] at h3
              have h4 : some (("DECIMAL(".data ++
                  Deploy.digitsOf (Deploy.dropWs r2) ++ [','] ++
                  Deploy.digitsOf (Deploy.dropWs r4) ++ [')'],
                  true, r6) : List Char × Bool × List Char)
                  = some (repl, bnd', rest) := h3
              simp only [Option.some.injEq, Prod.mk.injEq] at h4
              obtain ⟨hrepl, _, hrest⟩ := h4
              subst hrepl; subst hrest
              rcases dq_matchCI_spec _ _ _ hm (by decide) with
                ⟨seg0, hseg0, hq0, hlen0⟩
              refine ⟨by simp, seg0 ++ r1.takeWhile Char.isWhitespace ++ '(' ::
                (r2.takeWhile Char.isWhitespace ++
                 Deploy.digitsOf (Deploy.dropWs r2) ++
                 ((Deploy.afterDigits (Deploy.dropWs r2)).takeWhile
                    Char.isWhitespace ++ ',' ::
                  (r4.takeWhile Char.isWhitespace ++
                   Deploy.digitsOf (Deploy.dropWs r4) ++
                   ((Deploy.afterDigits (Deploy.dropWs r4)).takeWhile
                      Char.isWhitespace ++ [')'])))), ?_, ?_, ?_⟩
              · rw [hseg0]
                conv =>
                  lhs
                  rw [dq_dropWs_decomp r1, dq_expectChar_spec hp1,
                    dq_dropWs_decomp r2]
                  rw [show Deploy.dropWs r2 =
                    Deploy.digitsOf (Deploy.dropWs r2) ++
                      Deploy.afterDigits (Deploy.dropWs r2) from
                    dq_afterDigits_decomp (Deploy.dropWs r2)]
                  rw [dq_dropWs_decomp (Deploy.afterDigits (Deploy.dropWs r2)),
                    dq_expectChar_spec hp2, dq_dropWs_decomp r4]
                  rw [show Deploy.dropWs r4 =
                    Deploy.digitsOf (Deploy.dropWs r4) ++
                      Deploy.afterDigits (Deploy.dropWs r4) from
                    dq_afterDigits_decomp (Deploy.dropWs r4)]
                  rw [dq_dropWs_decomp (Deploy.afterDigits (Deploy.dropWs r4)),
                    dq_expectChar_spec hp3]
                simp
              · simp
              · rw [dq_quotes_nil_iff.mpr, dq_quotes_nil_iff.mpr]
                · repeat rw [dq_noQuote_append]
                  refine ⟨⟨hq0, dq_noQuote_ws r1⟩, ?_⟩
                  rw [dq_noQuote_cons]
                  refine ⟨by decide, ?_⟩
                  repeat rw [dq_noQuote_append]
                  refine ⟨⟨dq_noQuote_ws r2, dq_noQuote_digits _⟩,
                    dq_noQuote_ws _, ?_⟩
                  rw [dq_noQuote_cons]
                  refine ⟨by decide, ?_⟩
                  repeat rw [dq_noQuote_append]
                  refine ⟨⟨dq_noQuote_ws r4, dq_noQuote_digits _⟩,
                    dq_noQuote_ws _, ?_⟩
                  rw [dq_noQuote_cons]
                  exact ⟨by decide, by simp [Deploy.noQuote]⟩
                · repeat rw [dq_noQuote_append]
                  refine ⟨⟨⟨⟨by decide, dq_noQuote_digits _⟩,
                    by simp [Deploy.noQuote]⟩, dq_noQuote_digits _⟩,
                    by simp [Deploy.noQuote]⟩

/-- The matched-segment property of the `\bPARSE_JSON\s*\(([^)]+)\)` matcher:
the captured group is copied verbatim into the replacement, so the quote
characters of the replacement are exactly those of the matched segment. -/
theorem dq_tryParseJson_spec : ∀ c cs repl bnd' rest,
    Deploy.tryParseJson (c :: cs) = some (repl, bnd', rest) →
    repl ≠ [] ∧ ∃ seg, c :: cs = seg ++ rest ∧ seg ≠ [] ∧
      Deploy.quotes repl = Deploy.quotes seg := by
  intro c cs repl bnd' rest h
  rw [Deploy.tryParseJson] at h
  cases hm : Deploy.matchCI "PARSE_JSON".data (c :: cs) with
  | none => rw [hm] at h; exact Option.noConfusion h
  | some r1 =>
    rw [hm] at h
    have h1 : (match Deploy.expectChar '(' (Deploy.dropWs r1) with
      | none => none
      | some r2 =>
        if Deploy.groupOf r2 = [] then none
        else
          match Deploy.expectChar ')' (Deploy.afterGroup r2) with
          | none => none
          | some r3 =>
            some ("CAST(".data ++ Deploy.groupOf r2 ++ " AS JSON)".data,
              true, r3)) = some (repl, bnd', rest) := h
    cases hp1 : Deploy.expectChar '(' (Deploy.dropWs r1) with
    | none => rw [hp1] at h1; exact Option.noConfusion h1
    | some r2 =>
      rw [hp1] at h1
      have h2 : (if Deploy.groupOf r2 = [] then none
        else
          match Deploy.expectChar ')' (Deploy.afterGroup r2) with
          | none => none
          | some r3 =>
            some ("CAST(".data ++ Deploy.groupOf r2 ++ " AS JSON)".data,
              true, r3)) = some (repl, bnd', rest) := h1
      by_cases hg : Deploy.groupOf r2 = []
      · rw [if_pos hg] at h2; exact Option.noConfusion h2
      · rw [if_neg hg] at h2
        cases hp2 : Deploy.expectChar ')' (Deploy.afterGroup r2) with
        | none => rw [hp2] at h2; exact Option.noConfusion h2
        | some r3 =>
          rw [hp2] at h2
          have h3 : some (("CAST(".data ++ Deploy.groupOf r2 ++
              " AS JSON)".data, true, r3) : List Char × Bool × List Char)
              = some (repl, bnd', rest) := h2
          simp only [Option.some.injEq, Prod.mk.injEq] at h3
          obtain ⟨hrepl, _, hrest⟩ := h3
          subst hrepl; subst hrest
          rcases dq_matchCI_spec _ _ _ hm (by decide) with
            ⟨seg0, hseg0, hq0, hlen0⟩
          refine ⟨by simp, seg0 ++ r1.takeWhile Char.isWhitespace ++ '(' ::
            (Deploy.groupOf r2 ++ [')']), ?_, ?_, ?_⟩
          · rw [hseg0]
            conv =>
              lhs
              rw [dq_dropWs_decomp r1, dq_expectChar_spec hp1,
                dq_afterGroup_decomp r2, dq_expectChar_spec hp2]
            simp
          · simp
          · simp only [dq_quotes_append, dq_quotes_cons,
              dq_quotes_nil_iff.mpr hq0,
              dq_quotes_nil_iff.mpr (dq_noQuote_ws r1)]
            simp [Deploy.quotes]

/-- A full substitution pass whose matcher satisfies the matched-segment
property leaves the captured literal segments of the re-split unchanged. -/
theorem dq_sub_pass (tryM : List Char → Option (List Char × Bool × List Char))
    (HT : ∀ c cs repl bnd' rest, tryM (c :: cs) = some (repl, bnd', rest) →
      repl ≠ [] ∧ ∃ seg, c :: cs = seg ++ rest ∧ seg ≠ [] ∧
        Deploy.quotes repl = Deploy.quotes seg) :
    ∀ l, Deploy.oddParts (Deploy.splitAux []
        (Deploy.subOutside (Deploy.subDriver tryM true) l)) =
      Deploy.oddParts (Deploy.splitAux [] l) := by
  refine dq_subOutside_odds _
    (fun l => dq_subDriver_quotes tryM
      (fun c cs repl bnd' rest h => (HT c cs repl bnd' rest h).2) l true)
    ?_ (dq_subDriver_nil tryM true)
  intro l hl
  cases l with
  | nil => exact absurd rfl hl
  | cons c cs =>
    exact dq_subDriver_ne_nil tryM
      (fun c cs repl bnd' rest h => (HT c cs repl bnd' rest h).1) true c cs

/-- The `\bVARIANT\b` pass preserves literal segments. -/
theorem dq_pass_variant : ∀ l, Deploy.oddParts (Deploy.splitAux []
      (Deploy.subOutside Deploy.subVariant l)) =
    Deploy.oddParts (Deploy.splitAux [] l) :=
  dq_sub_pass Deploy.tryVariant dq_tryVariant_spec

/-- The `\bTIMESTAMP_NTZ\s*\(\s*\d+\s*\)` pass preserves literal segments. -/
theorem dq_pass_tsParen : ∀ l, Deploy.oddParts (Deploy.splitAux []
      (Deploy.subOutside Deploy.subTsParen l)) =
    Deploy.oddParts (Deploy.splitAux [] l) :=
  dq_sub_pass Deploy.tryTsParen dq_tryTsParen_spec

/-- The `\bTIMESTAMP_NTZ\b` pass preserves literal segments. -/
theorem dq_pass_ts : ∀ l, Deploy.oddParts (Deploy.splitAux []
      (Deploy.subOutside Deploy.subTs l)) =
    Deploy.oddParts (Deploy.splitAux [] l) :=
  dq_sub_pass Deploy.tryTs dq_tryTs_spec

/-- The `\bNUMBER\s*\(\s*(\d+)\s*,\s*(\d+)\s*\)` pass preserves literal
segments. -/
theorem dq_pass_numParen : ∀ l, Deploy.oddParts (Deploy.splitAux []
      (Deploy.subOutside Deploy.subNumParen l)) =
    Deploy.oddParts (Deploy.splitAux [] l) :=
  dq_sub_pass Deploy.tryNumParen dq_tryNumParen_spec

/-- The `\bNUMBER\b` pass preserves literal segments. -/
theorem dq_pass_num : ∀ l, Deploy.oddParts (Deploy.splitAux []
      (Deploy.subOutside Deploy.subNum l)) =
    Deploy.oddParts (Deploy.splitAux [] l) :=
  dq_sub_pass Deploy.tryNum dq_tryNum_spec

/-- The `\bPARSE_JSON\s*\(([^)]+)\)` pass preserves literal segments. -/
theorem dq_pass_parseJson : ∀ l, Deploy.oddParts (Deploy.splitAux []
      (Deploy.subOutside Deploy.subParseJson l)) =
    Deploy.oddParts (Deploy.splitAux [] l) :=
  dq_sub_pass Deploy.tryParseJson dq_tryParseJson_spec

/-- The CREATE-gated type-replacement stage preserves literal segments. -/
theorem dq_normalize_create_odds (s : String) :
    Deploy.oddParts (Deploy.splitAux []
      (Deploy._normalize_create_for_duckdb s).data) =
    Deploy.oddParts (Deploy.splitAux [] s.data) := by
  by_cases hc : "CREATE".data.isPrefixOf (Py.upper (Py.lstrip s)).data = true
  · show Deploy.oddParts (Deploy.splitAux []
      (if "CREATE".data.isPrefixOf (Py.upper (Py.lstrip s)).data then
        String.mk (Deploy.typeRepls.foldl
          (fun acc f => Deploy.subOutside f acc) s.data)
      else s).data) = _
    rw [if_pos hc]
    show Deploy.oddParts (Deploy.splitAux []
      (Deploy.subOutside Deploy.subNum (Deploy.subOutside Deploy.subNumParen
        (Deploy.subOutside Deploy.subTs (Deploy.subOutside Deploy.subTsParen
          (Deploy.subOutside Deploy.subVariant s.data)))))) = _
    rw [dq_pass_num, dq_pass_numParen, dq_pass_ts, dq_pass_tsParen,
      dq_pass_variant]
  · show Deploy.oddParts (Deploy.splitAux []
      (if "CREATE".data.isPrefixOf (Py.upper (Py.lstrip s)).data then
        String.mk (Deploy.typeRepls.foldl
          (fun acc f => Deploy.subOutside f acc) s.data)
      else s).data) = _
    rw [if_neg hc]

/-- C9: the DuckDB dialect normalization never alters quoted SQL string
literals — splitting the input and the output of `_normalize_for_duckdb` on
single-quoted-literal boundaries yields the same sequence of literal
segments, because every type and function rewrite applies only to the
segments outside single-quoted literals and no replacement introduces or
removes a quote character. -/
theorem claim_C9 : ∀ sql : String,
    Deploy.litSegments (Deploy._normalize_for_duckdb sql) =
      Deploy.litSegments sql := by
  intro sql
  show (Deploy.oddParts (Deploy.splitAux []
      (Deploy.subOutside Deploy.subParseJson
        (Deploy._normalize_create_for_duckdb sql).data))).map String.mk =
    (Deploy.oddParts (Deploy.splitAux [] sql.data)).map String.mk
  rw [dq_pass_parseJson, dq_normalize_create_odds]
